import Mathlib

/-!
# pgpool-II "SHOW" report encoder (`src/utils/pool_process_reporting.c`)

A shallow embedding of the message-framing functions of
`pool_process_reporting.c` and theorems about the bytes they put on the wire.

Conventions of the embedding.

* A byte is a `Nat` below 256; a piece of memory is a `List Nat`.
* A `char *` is the list of bytes that starts at the pointer.  `strlen` counts
  the bytes before the first NUL, `p + k` is `List.drop k p`.
* C `int` and `short` values are `Int`; the wrap to 32 or 16 bits is explicit
  in `htonl` and `htons`, which return the memory image of their result (the
  bytes a following `pool_write (&x, sizeof x)` transmits).
* The frontend connection is the trace of sink operations performed on it;
  every function takes the trace so far and returns the extended trace.
-/

namespace PoolProcessReporting

/-! ## The byte-output sink -/

/-- One operation performed on the frontend byte sink. -/
inductive SinkOp where
  | write (bytes : List Nat)
  | flush
deriving DecidableEq

/-- Modelled from the spec: `POOL_CONNECTION` (declared in `pool.h`, absent from
the sources) is the abstract byte-output sink with `write(bytes)` and `flush()`;
it is represented by the trace of operations performed on it so far. -/
abbrev POOL_CONNECTION := List SinkOp

/-- Modelled from the spec: `pool_write(frontend, buf, len)` (defined in
`utils/pool_stream.c`, absent from the sources) hands the first `len` bytes at
`buf` to the sink. -/
def pool_write (frontend : POOL_CONNECTION) (buf : List Nat) (len : Nat) : POOL_CONNECTION :=
  frontend ++ [SinkOp.write (buf.take len)]

/-- Modelled from the spec: `pool_flush(frontend)` (defined in
`utils/pool_stream.c`, absent from the sources) flushes the sink. -/
def pool_flush (frontend : POOL_CONNECTION) : POOL_CONNECTION :=
  frontend ++ [SinkOp.flush]

/-- Modelled from the spec: `pool_write_and_flush(frontend, buf, len)` (defined in
`utils/pool_stream.c`, absent from the sources) is a write followed by a flush. -/
def pool_write_and_flush (frontend : POOL_CONNECTION) (buf : List Nat) (len : Nat) :
    POOL_CONNECTION :=
  pool_flush (pool_write frontend buf len)

/-- The byte stream a trace puts on the wire: the written chunks, in order. -/
def sent : POOL_CONNECTION → List Nat
  | [] => []
  | SinkOp.write bytes :: rest => bytes ++ sent rest
  | SinkOp.flush :: rest => sent rest

/-! ## C library and protocol primitives -/

/-- Modelled from the spec: the protocol-version discriminant `MAJOR(backend)`
with its two values `PROTO_MAJOR_V2` (Legacy) and `PROTO_MAJOR_V3` (Current);
the macros live in `pool.h`, absent from the sources.  The spec fixes it as a
closed enumeration with two members. -/
inductive ProtoMajor where
  | PROTO_MAJOR_V2
  | PROTO_MAJOR_V3
deriving DecidableEq

open ProtoMajor

/-- C `strlen`: the number of bytes before the first NUL. -/
def strlen (s : List Nat) : Nat :=
  (s.takeWhile (fun b => b != 0)).length

/-- The memory image of `htonl(x)`: the low 32 bits of `x`, most significant
byte first. -/
def htonl (x : Int) : List Nat :=
  let u := (x % 4294967296).toNat
  [u / 16777216 % 256, u / 65536 % 256, u / 256 % 256, u % 256]

/-- The memory image of `htons(x)`: the low 16 bits of `x`, most significant
byte first. -/
def htons (x : Int) : List Nat :=
  let u := (x % 65536).toNat
  [u / 256 % 256, u % 256]

/-- A C string literal as memory: the characters followed by the NUL. -/
def lit (s : String) : List Nat :=
  s.toList.map Char.toNat ++ [0]

/-- C `printf` conversion `%d`. -/
def fmt_d (n : Int) : List Nat :=
  if n < 0 then 45 :: (Nat.toDigits 10 n.natAbs).map Char.toNat
  else (Nat.toDigits 10 n.toNat).map Char.toNat

/-- C `snprintf(buf, size, ...)` where `text` is the fully formatted output:
the buffer receives at most `size - 1` bytes of it and a NUL, and the
return value is the length of the full text. -/
def snprintf (size : Nat) (text : List Nat) : List Nat × Int :=
  (text.take (size - 1) ++ [0], (text.length : Int))

/-! ## `send_row_description` (lines 44-114) -/

/-- The cursor name, `static char *cursorname = "blank"`. -/
def cursorname : List Nat := lit "blank"

/-- Memory image of `static int oid = 0`. -/
def oid : List Nat := [0, 0, 0, 0]

/-- The field size, `static short fsize = -1`. -/
def fsize : Int := -1

/-- Memory image of `static int mod = 0`. -/
def mod : List Nat := [0, 0, 0, 0]

/-- The computation of `len` in the V3 branch (lines 76-82). -/
def send_row_description_len (num_fields : Int) (field_names : List (List Nat)) : Int :=
  (List.range num_fields.toNat).foldl
    (fun len i => len + ((strlen (field_names.getD i []) + 1 + 18 : Nat) : Int)) 6

/-- The body of the per-column loop (lines 93-111). -/
def send_row_description_col (major : ProtoMajor) (field_names : List (List Nat))
    (frontend : POOL_CONNECTION) (i : Nat) : POOL_CONNECTION :=
  let name := field_names.getD i []
  let frontend := pool_write frontend name (strlen name + 1)
  let frontend :=
    if major = PROTO_MAJOR_V3 then
      let frontend := pool_write frontend oid 4
      pool_write frontend (htons (i : Int)) 2
    else frontend
  let frontend := pool_write frontend oid 4
  let frontend := pool_write frontend (htons fsize) 2
  let frontend := pool_write frontend mod 4
  if major = PROTO_MAJOR_V3 then
    pool_write frontend (htons 0) 2
  else frontend

/-- Function `send_row_description(frontend, backend, num_fields, field_names)`;
`major` is `MAJOR(backend)`. -/
def send_row_description (frontend : POOL_CONNECTION) (major : ProtoMajor)
    (num_fields : Int) (field_names : List (List Nat)) : POOL_CONNECTION :=
  let frontend :=
    if major = PROTO_MAJOR_V2 then
      let frontend := pool_write frontend (lit "P") 1
      pool_write frontend cursorname (strlen cursorname + 1)
    else frontend
  let frontend := pool_write frontend (lit "T") 1
  let frontend :=
    if major = PROTO_MAJOR_V3 then
      pool_write frontend (htonl (send_row_description_len num_fields field_names)) 4
    else frontend
  let frontend := pool_write frontend (htons num_fields) 2
  let frontend :=
    (List.range num_fields.toNat).foldl (send_row_description_col major field_names) frontend
  pool_flush frontend

/-! ## `send_complete_and_ready` (lines 122-153) -/

/-- Function `send_complete_and_ready(frontend, backend, message, num_rows)`;
`major` is `MAJOR(backend)`. -/
def send_complete_and_ready (frontend : POOL_CONNECTION) (major : ProtoMajor)
    (message : List Nat) (num_rows : Int) : POOL_CONNECTION :=
  let verb := message.take (strlen message)
  let r :=
    if num_rows ≥ 0 then snprintf 64 (verb ++ [32] ++ fmt_d num_rows)
    else snprintf 64 verb
  let msg := r.1
  let msg_len := r.2
  let frontend := pool_write frontend (lit "C") 1
  let frontend :=
    if major = PROTO_MAJOR_V3 then pool_write frontend (htonl (4 + msg_len + 1)) 4
    else frontend
  let frontend := pool_write frontend msg (msg_len + 1).toNat
  let frontend := pool_write frontend (lit "Z") 1
  let frontend :=
    if major = PROTO_MAJOR_V3 then
      let frontend := pool_write frontend (htonl 5) 4
      pool_write frontend (lit "I") 1
    else frontend
  pool_flush frontend

/-! ## Field writers (lines 2113-2133) -/

/-- Function `write_one_field(frontend, field)`: one field, V3 format. -/
def write_one_field (frontend : POOL_CONNECTION) (field : List Nat) : POOL_CONNECTION :=
  let size : Int := (strlen field : Int)
  let hsize := htonl size
  let frontend := pool_write frontend hsize 4
  pool_write frontend field size.toNat

/-- Function `write_one_field_v2(frontend, field)`: one field, V2 format. -/
def write_one_field_v2 (frontend : POOL_CONNECTION) (field : List Nat) : POOL_CONNECTION :=
  let size : Int := (strlen field : Int)
  let hsize := htonl (size + 4)
  let frontend := pool_write frontend hsize 4
  pool_write frontend field size.toNat

/-! ## `send_row_description_and_data_rows` (lines 2054-2111) -/

/-- The field pointer `data + i * row_size + offsettbl[j]`. -/
def field_at (offsettbl : List Nat) (data : List Nat) (row_size : Nat) (i j : Nat) : List Nat :=
  data.drop (i * row_size + offsettbl.getD j 0)

/-- One iteration of the V2 row loop (lines 2076-2082). -/
def send_data_row_v2 (num_fields : Int) (offsettbl : List Nat) (data : List Nat)
    (row_size : Nat) (nullmap : List Nat) (nbytes : Int)
    (frontend : POOL_CONNECTION) (i : Nat) : POOL_CONNECTION :=
  let frontend := pool_write frontend (lit "D") 1
  let frontend := pool_write_and_flush frontend nullmap nbytes.toNat
  (List.range num_fields.toNat).foldl
    (fun frontend j => write_one_field_v2 frontend (field_at offsettbl data row_size i j))
    frontend

/-- One iteration of the V3 row loop (lines 2091-2106). -/
def send_data_row_v3 (num_fields : Int) (offsettbl : List Nat) (data : List Nat)
    (row_size : Nat) (frontend : POOL_CONNECTION) (i : Nat) : POOL_CONNECTION :=
  let frontend := pool_write frontend (lit "D") 1
  let len : Int :=
    (List.range num_fields.toNat).foldl
      (fun len j => len + ((4 + strlen (field_at offsettbl data row_size i j) : Nat) : Int)) 6
  let frontend := pool_write frontend (htonl len) 4
  let frontend := pool_write frontend (htons num_fields) 2
  (List.range num_fields.toNat).foldl
    (fun frontend j => write_one_field frontend (field_at offsettbl data row_size i j))
    frontend

/-- Function `send_row_description_and_data_rows(frontend, backend, num_fields,
field_names, offsettbl, data, row_size, nrows)`; `major` is `MAJOR(backend)`. -/
def send_row_description_and_data_rows (frontend : POOL_CONNECTION) (major : ProtoMajor)
    (num_fields : Int) (field_names : List (List Nat)) (offsettbl : List Nat)
    (data : List Nat) (row_size : Nat) (nrows : Int) : POOL_CONNECTION :=
  let nbytes : Int := (num_fields + 7) / 8
  let frontend := send_row_description frontend major num_fields field_names
  let frontend :=
    if major = PROTO_MAJOR_V2 then
      let nullmap := List.replicate nbytes.toNat 255
      (List.range nrows.toNat).foldl
        (send_data_row_v2 num_fields offsettbl data row_size nullmap nbytes) frontend
    else
      (List.range nrows.toNat).foldl
        (send_data_row_v3 num_fields offsettbl data row_size) frontend
  send_complete_and_ready frontend major (lit "SELECT") nrows

/-! ## Report entry points that use the generic driver

The record types (`POOL_REPORT_NODES`, ...) are declared in a header that is
not part of the sources, so the `offsetof` table and `sizeof` of the record
are parameters, as are the record array and row count returned by the
`get_*` collector. -/

/-- Function `nodes_reporting` (lines 1325-1358); `nodes`, `nrows` are the result of
`get_nodes`. -/
def nodes_reporting (frontend : POOL_CONNECTION) (major : ProtoMajor)
    (offsettbl : List Nat) (nodes : List Nat) (row_size : Nat) (nrows : Int) :
    POOL_CONNECTION :=
  let field_names := [lit "node_id", lit "hostname", lit "port", lit "status", lit "lb_weight",
    lit "role", lit "select_cnt", lit "load_balance_node", lit "replication_delay",
    lit "replication_state", lit "replication_sync_state", lit "last_status_change"]
  let num_fields : Int := (field_names.length : Int)
  send_row_description_and_data_rows frontend major num_fields field_names offsettbl
    nodes row_size nrows

/-- Function `processes_reporting` (lines 1612-1639); `processes`, `nrows` are the
result of `get_processes`. -/
def processes_reporting (frontend : POOL_CONNECTION) (major : ProtoMajor)
    (offsettbl : List Nat) (processes : List Nat) (row_size : Nat) (nrows : Int) :
    POOL_CONNECTION :=
  let field_names := [lit "pool_pid", lit "start_time", lit "database", lit "username",
    lit "create_time", lit "pool_counter"]
  let num_fields : Int := (field_names.length : Int)
  let frontend := send_row_description frontend major num_fields field_names
  send_row_description_and_data_rows frontend major num_fields field_names offsettbl
    processes row_size nrows

/-- Function `version_reporting` (lines 1654-1675); `version` is the result of
`get_version`. -/
def version_reporting (frontend : POOL_CONNECTION) (major : ProtoMajor)
    (offsettbl : List Nat) (version : List Nat) (row_size : Nat) : POOL_CONNECTION :=
  let field_names := [lit "pool_version"]
  let nrows : Int := 1
  let num_fields : Int := (field_names.length : Int)
  let frontend := send_row_description frontend major num_fields field_names
  send_row_description_and_data_rows frontend major num_fields field_names offsettbl
    version row_size nrows

/-- Function `show_health_check_stats` (lines 1895-1937); `stats`, `nrows` are the
result of `get_health_check_stats`. -/
def show_health_check_stats (frontend : POOL_CONNECTION) (major : ProtoMajor)
    (offsettbl : List Nat) (stats : List Nat) (row_size : Nat) (nrows : Int) :
    POOL_CONNECTION :=
  let field_names := [lit "node_id", lit "hostname", lit "port", lit "status", lit "role",
    lit "last_status_change", lit "total_count", lit "success_count", lit "fail_count",
    lit "skip_count", lit "retry_count", lit "average_retry_count", lit "max_retry_count",
    lit "max_duration", lit "min_duration", lit "average_duration", lit "last_health_check",
    lit "last_successful_health_check", lit "last_skip_health_check",
    lit "last_failed_health_check"]
  let num_fields : Int := (field_names.length : Int)
  send_row_description_and_data_rows frontend major num_fields field_names offsettbl
    stats row_size nrows

/-- Function `show_backend_stats` (lines 1997-2032); `backend_stats`, `nrows` are the
result of `get_backend_stats`. -/
def show_backend_stats (frontend : POOL_CONNECTION) (major : ProtoMajor)
    (offsettbl : List Nat) (backend_stats : List Nat) (row_size : Nat) (nrows : Int) :
    POOL_CONNECTION :=
  let field_names := [lit "node_id", lit "hostname", lit "port", lit "status", lit "role",
    lit "select_cnt", lit "insert_cnt", lit "update_cnt", lit "delete_cnt", lit "ddl_cnt",
    lit "other_cnt", lit "panic_cnt", lit "fatal_cnt", lit "error_cnt"]
  let num_fields : Int := (field_names.length : Int)
  send_row_description_and_data_rows frontend major num_fields field_names offsettbl
    backend_stats row_size nrows

/-! ## `pools_reporting` (lines 1420-1566) -/

/-- Modelled from the spec: the record `POOL_REPORT_POOLS` (declared in a header
that is not part of the sources), with the members that `get_pools` fills and
`pools_reporting` reads; `database` and `username` are character arrays. -/
structure POOL_REPORT_POOLS where
  pool_pid : Int
  start_time : Int
  pool_id : Int
  backend_id : Int
  database : List Nat
  username : List Nat
  create_time : Int
  pool_majorversion : Int
  pool_minorversion : Int
  pool_counter : Int
  pool_backendpid : Int
  pool_connected : Int
deriving Inhabited

/-- The local character buffers of `pools_reporting` (lines 1434-1443). -/
structure PoolsRowBuffers where
  proc_pid : List Nat
  pool_id : List Nat
  proc_start_time : List Nat
  proc_create_time : List Nat
  majorversion : List Nat
  minorversion : List Nat
  pool_counter : List Nat
  backend_id : List Nat
  backend_pid : List Nat
  connected : List Nat

/-- The formatting of one pool record into the local buffers (lines 1457-1472).
The parameter `strftime_local t` stands for the buffer contents after
`strftime(buf, 20, "%Y-%m-%d %H:%M:%S", localtime(&t))`, a libc service. -/
def pools_reporting_format (strftime_local : Int → List Nat) (p : POOL_REPORT_POOLS) :
    PoolsRowBuffers :=
  { proc_pid := (snprintf 16 (fmt_d p.pool_pid)).1
    pool_id := (snprintf 16 (fmt_d p.pool_id)).1
    proc_start_time := if p.start_time ≠ 0 then strftime_local p.start_time else [0]
    proc_create_time := if p.create_time ≠ 0 then strftime_local p.create_time else [0]
    majorversion := (snprintf 5 (fmt_d p.pool_majorversion)).1
    minorversion := (snprintf 5 (fmt_d p.pool_minorversion)).1
    pool_counter := (snprintf 16 (fmt_d p.pool_counter)).1
    backend_id := (snprintf 16 (fmt_d p.backend_id)).1
    backend_pid := (snprintf 16 (fmt_d p.pool_backendpid)).1
    connected := (snprintf 2 (fmt_d p.pool_connected)).1 }

/-- The four statements that send one field in `pools_reporting`
(for instance lines 1502-1505). -/
def pools_reporting_field (hsize : Int) (frontend : POOL_CONNECTION) (field : List Nat) :
    POOL_CONNECTION :=
  let len : Int := (strlen field : Int)
  let size := htonl (len + hsize)
  let frontend := pool_write frontend size 4
  pool_write frontend field len.toNat

/-- One iteration of the row loop of `pools_reporting` (lines 1457-1560). -/
def pools_reporting_row (major : ProtoMajor) (strftime_local : Int → List Nat)
    (pools : List POOL_REPORT_POOLS) (num_fields : Int) (nullmap : List Nat) (nbytes : Int)
    (hsize : Int) (frontend : POOL_CONNECTION) (i : Nat) : POOL_CONNECTION :=
  let p := pools.getD i default
  let b := pools_reporting_format strftime_local p
  let frontend :=
    if major = PROTO_MAJOR_V2 then
      let frontend := pool_write frontend (lit "D") 1
      pool_write_and_flush frontend nullmap nbytes.toNat
    else
      let frontend := pool_write frontend (lit "D") 1
      let len : Int := 6
      let len := len + ((4 + strlen b.proc_pid : Nat) : Int)
      let len := len + ((4 + strlen b.proc_start_time : Nat) : Int)
      let len := len + ((4 + strlen b.pool_id : Nat) : Int)
      let len := len + ((4 + strlen b.backend_id : Nat) : Int)
      let len := len + ((4 + strlen p.database : Nat) : Int)
      let len := len + ((4 + strlen p.username : Nat) : Int)
      let len := len + ((4 + strlen b.proc_create_time : Nat) : Int)
      let len := len + ((4 + strlen b.majorversion : Nat) : Int)
      let len := len + ((4 + strlen b.minorversion : Nat) : Int)
      let len := len + ((4 + strlen b.pool_counter : Nat) : Int)
      let len := len + ((4 + strlen b.backend_pid : Nat) : Int)
      let len := len + ((4 + strlen b.connected : Nat) : Int)
      let frontend := pool_write frontend (htonl len) 4
      pool_write frontend (htons num_fields) 2
  let frontend := pools_reporting_field hsize frontend b.proc_pid
  let frontend := pools_reporting_field hsize frontend b.proc_start_time
  let frontend := pools_reporting_field hsize frontend b.pool_id
  let frontend := pools_reporting_field hsize frontend b.backend_id
  let frontend := pools_reporting_field hsize frontend p.database
  let frontend := pools_reporting_field hsize frontend p.username
  let frontend := pools_reporting_field hsize frontend b.proc_create_time
  let frontend := pools_reporting_field hsize frontend b.majorversion
  let frontend := pools_reporting_field hsize frontend b.minorversion
  let frontend := pools_reporting_field hsize frontend b.pool_counter
  let frontend := pools_reporting_field hsize frontend b.backend_pid
  pools_reporting_field hsize frontend b.connected

/-- The column names of `pools_reporting` (lines 1424-1425). -/
def pools_reporting_field_names : List (List Nat) :=
  [lit "pool_pid", lit "start_time", lit "pool_id", lit "backend_id", lit "database",
    lit "username", lit "create_time", lit "majorversion", lit "minorversion",
    lit "pool_counter", lit "pool_backendpid", lit "pool_connected"]

/-- Function `pools_reporting` (lines 1420-1566); `pools`, `nrows` are the
result of `get_pools`, `major` is `MAJOR(backend)`. -/
def pools_reporting (frontend : POOL_CONNECTION) (major : ProtoMajor)
    (strftime_local : Int → List Nat) (pools : List POOL_REPORT_POOLS) (nrows : Int) :
    POOL_CONNECTION :=
  let num_fields : Int := 12
  let field_names := pools_reporting_field_names
  let nullmap : List Nat := [255, 255]
  let nbytes : Int := (num_fields + 7) / 8
  let frontend := send_row_description frontend major num_fields field_names
  let hsize : Int := if major = PROTO_MAJOR_V2 then 4 else 0
  let frontend :=
    (List.range nrows.toNat).foldl
      (pools_reporting_row major strftime_local pools num_fields nullmap nbytes hsize) frontend
  send_complete_and_ready frontend major (lit "SELECT") nrows

/-! ## `send_config_var_detail_row`, `send_config_var_value_only_row` (lines 1080-1183) -/

/-- Function `send_config_var_detail_row(frontend, backend, name, value,
description)`; `major` is `MAJOR(backend)`. -/
def send_config_var_detail_row (frontend : POOL_CONNECTION) (major : ProtoMajor)
    (name value description : List Nat) : POOL_CONNECTION :=
  let num_fields : Int := 3
  if major = PROTO_MAJOR_V2 then
    let nbytes : Int := (num_fields + 7) / 8
    let nullmap : List Nat := [255, 255]
    let frontend := pool_write frontend (lit "D") 1
    let frontend := pool_write_and_flush frontend nullmap nbytes.toNat
    let size : Int := (strlen name : Int)
    let hsize := htonl (size + 4)
    let frontend := pool_write frontend hsize 4
    let frontend := pool_write frontend name size.toNat
    let size : Int := (strlen value : Int)
    let hsize := htonl (size + 4)
    let frontend := pool_write frontend hsize 4
    let frontend := pool_write frontend value size.toNat
    let size : Int := (strlen description : Int)
    let hsize := htonl (size + 4)
    let frontend := pool_write frontend hsize 4
    pool_write frontend description size.toNat
  else
    let frontend := pool_write frontend (lit "D") 1
    let size : Int := 6
    let size := size + ((4 + strlen name : Nat) : Int)
    let size := size + ((4 + strlen value : Nat) : Int)
    let size := size + ((4 + strlen description : Nat) : Int)
    let hsize := htonl size
    let frontend := pool_write frontend hsize 4
    let s := htons num_fields
    let frontend := pool_write frontend s 2
    let size : Int := (strlen name : Int)
    let hsize := htonl size
    let frontend := pool_write frontend hsize 4
    let frontend := pool_write frontend name size.toNat
    let size : Int := (strlen value : Int)
    let hsize := htonl size
    let frontend := pool_write frontend hsize 4
    let frontend := pool_write frontend value size.toNat
    let size : Int := (strlen description : Int)
    let hsize := htonl size
    let frontend := pool_write frontend hsize 4
    pool_write frontend description size.toNat

/-- Function `send_config_var_value_only_row(frontend, backend, value)`;
`major` is `MAJOR(backend)`. -/
def send_config_var_value_only_row (frontend : POOL_CONNECTION) (major : ProtoMajor)
    (value : List Nat) : POOL_CONNECTION :=
  let num_fields : Int := 1
  if major = PROTO_MAJOR_V2 then
    let nbytes : Int := (num_fields + 7) / 8
    let nullmap : List Nat := [255, 255]
    let frontend := pool_write frontend (lit "D") 1
    let frontend := pool_write_and_flush frontend nullmap nbytes.toNat
    let size : Int := (strlen value : Int)
    let hsize := htonl (size + 4)
    let frontend := pool_write frontend hsize 4
    pool_write frontend value size.toNat
  else
    let frontend := pool_write frontend (lit "D") 1
    let size : Int := 6
    let size := size + ((4 + strlen value : Nat) : Int)
    let hsize := htonl size
    let frontend := pool_write frontend hsize 4
    let s := htons num_fields
    let frontend := pool_write frontend s 2
    let size : Int := (strlen value : Int)
    let hsize := htonl size
    let frontend := pool_write frontend hsize 4
    pool_write frontend value size.toNat

/-! ## `config_reporting` (lines 1185-1259) -/

/-- Modelled from the spec: the record `POOL_REPORT_CONFIG` (declared in a header
that is not part of the sources) with the three character arrays that
`get_config` fills and `config_reporting` reads. -/
structure POOL_REPORT_CONFIG where
  name : List Nat
  value : List Nat
  desc : List Nat
deriving Inhabited

/-- The column names of `config_reporting` (line 1188). -/
def config_reporting_field_names : List (List Nat) :=
  [lit "item", lit "value", lit "description"]

/-- One iteration of the V2 row loop of `config_reporting` (lines 1208-1224). -/
def config_reporting_row_v2 (status : List POOL_REPORT_CONFIG) (nullmap : List Nat)
    (nbytes : Int) (frontend : POOL_CONNECTION) (i : Nat) : POOL_CONNECTION :=
  let frontend := pool_write frontend (lit "D") 1
  let frontend := pool_write_and_flush frontend nullmap nbytes.toNat
  let size : Int := (strlen (status.getD i default).name : Int)
  let hsize := htonl (size + 4)
  let frontend := pool_write frontend hsize 4
  let frontend := pool_write frontend (status.getD i default).name size.toNat
  let size : Int := (strlen (status.getD i default).value : Int)
  let hsize := htonl (size + 4)
  let frontend := pool_write frontend hsize 4
  let frontend := pool_write frontend (status.getD i default).value size.toNat
  let size : Int := (strlen (status.getD i default).desc : Int)
  let hsize := htonl (size + 4)
  let frontend := pool_write frontend hsize 4
  pool_write frontend (status.getD i default).desc size.toNat

/-- One iteration of the V3 row loop of `config_reporting` (lines 1232-1252). -/
def config_reporting_row_v3 (status : List POOL_REPORT_CONFIG) (num_fields : Int)
    (frontend : POOL_CONNECTION) (i : Nat) : POOL_CONNECTION :=
  let frontend := pool_write frontend (lit "D") 1
  let len : Int := 6
  let len := len + ((4 + strlen (status.getD i default).name : Nat) : Int)
  let len := len + ((4 + strlen (status.getD i default).value : Nat) : Int)
  let len := len + ((4 + strlen (status.getD i default).desc : Nat) : Int)
  let frontend := pool_write frontend (htonl len) 4
  let s := htons num_fields
  let frontend := pool_write frontend s 2
  let len := htonl (strlen (status.getD i default).name : Int)
  let frontend := pool_write frontend len 4
  let frontend := pool_write frontend (status.getD i default).name
    (strlen (status.getD i default).name)
  let len := htonl (strlen (status.getD i default).value : Int)
  let frontend := pool_write frontend len 4
  let frontend := pool_write frontend (status.getD i default).value
    (strlen (status.getD i default).value)
  let len := htonl (strlen (status.getD i default).desc : Int)
  let frontend := pool_write frontend len 4
  pool_write frontend (status.getD i default).desc (strlen (status.getD i default).desc)

/-- Function `config_reporting` (lines 1185-1259); `status`, `nrows` are the
result of `get_config`, `major` is `MAJOR(backend)`. -/
def config_reporting (frontend : POOL_CONNECTION) (major : ProtoMajor)
    (status : List POOL_REPORT_CONFIG) (nrows : Int) : POOL_CONNECTION :=
  let field_names := config_reporting_field_names
  let nullmap : List Nat := [255, 255]
  let num_fields : Int := 3
  let nbytes : Int := (num_fields + 7) / 8
  let frontend := send_row_description frontend major num_fields field_names
  let frontend :=
    if major = PROTO_MAJOR_V2 then
      (List.range nrows.toNat).foldl (config_reporting_row_v2 status nullmap nbytes) frontend
    else
      (List.range nrows.toNat).foldl (config_reporting_row_v3 status num_fields) frontend
  send_complete_and_ready frontend major (lit "SELECT") nrows

/-! ## `cache_reporting` (lines 1680-1799) -/

/-- Modelled from the spec: the member `cache_stats` of `POOL_SHMEM_STATS`
(declared in `query_cache/pool_memqcache.h`, not part of the sources), with
the two counters `cache_reporting` reads. -/
structure POOL_CACHE_STATS where
  num_cache_hits : Int
  num_selects : Int
deriving Inhabited

/-- Modelled from the spec: the record `POOL_SHMEM_STATS` (declared in
`query_cache/pool_memqcache.h`, not part of the sources), with the members
`cache_reporting` reads. -/
structure POOL_SHMEM_STATS where
  cache_stats : POOL_CACHE_STATS
  num_hash_entries : Int
  used_hash_entries : Int
  num_cache_entries : Int
  used_cache_entries_size : Int
  free_cache_entries_size : Int
  fragment_cache_entries_size : Int
deriving Inhabited

/-- The column names of `cache_reporting` (line 1683). -/
def cache_reporting_field_names : List (List Nat) :=
  [lit "num_cache_hits", lit "num_selects", lit "cache_hit_ratio", lit "num_hash_entries",
    lit "used_hash_entries", lit "num_cache_entries", lit "used_cache_entries_size",
    lit "free_cache_entries_size", lit "fragment_cache_entries_size"]

/-- The conversion of the statistics to strings (lines 1730-1747): the `string`
members of `strp[0..8]`.  The parameter `fmt_2f a b` stands for the output of
the conversion `%.2f` applied to the double `(double) a / b`; for the ratio
`0.0` the output is "0.00", the bytes 48, 46, 48, 48. -/
def cache_reporting_strings (fmt_2f : Int → Int → List Nat) (mystats : POOL_SHMEM_STATS) :
    List (List Nat) :=
  [(snprintf 33 (fmt_d mystats.cache_stats.num_cache_hits)).1,
    (snprintf 33 (fmt_d mystats.cache_stats.num_selects)).1,
    (snprintf 33
      (if mystats.cache_stats.num_cache_hits + mystats.cache_stats.num_selects = 0 then
        [48, 46, 48, 48]
      else
        fmt_2f mystats.cache_stats.num_cache_hits
          (mystats.cache_stats.num_selects + mystats.cache_stats.num_cache_hits))).1,
    (snprintf 33 (fmt_d mystats.num_hash_entries)).1,
    (snprintf 33 (fmt_d mystats.used_hash_entries)).1,
    (snprintf 33 (fmt_d mystats.num_cache_entries)).1,
    (snprintf 33 (fmt_d mystats.used_cache_entries_size)).1,
    (snprintf 33 (fmt_d mystats.free_cache_entries_size)).1,
    (snprintf 33 (fmt_d mystats.fragment_cache_entries_size)).1]

/-- The member `strp[i].len` after the loop of lines 1753-1758. -/
def cache_reporting_strlen (strp : List (List Nat)) (i : Nat) : Int :=
  (strlen (strp.getD i []) : Int)

/-- One iteration of the V2 field loop of `cache_reporting` (lines 1771-1774). -/
def cache_reporting_field_v2 (strp : List (List Nat)) (frontend : POOL_CONNECTION) (i : Nat) :
    POOL_CONNECTION :=
  let size : Int := cache_reporting_strlen strp i + 1
  let hsize := htonl (size + 4)
  let frontend := pool_write frontend hsize 4
  pool_write frontend (strp.getD i []) size.toNat

/-- One iteration of the V3 field loop of `cache_reporting` (lines 1790-1792). -/
def cache_reporting_field_v3 (strp : List (List Nat)) (frontend : POOL_CONNECTION) (i : Nat) :
    POOL_CONNECTION :=
  let hsize := htonl (cache_reporting_strlen strp i)
  let frontend := pool_write frontend hsize 4
  pool_write frontend (strp.getD i []) (cache_reporting_strlen strp i).toNat

/-- Function `cache_reporting` (lines 1680-1799); `mystats` is the result of
`pool_get_shmem_storage_stats()`, `major` is `MAJOR(backend)`. -/
def cache_reporting (frontend : POOL_CONNECTION) (major : ProtoMajor)
    (fmt_2f : Int → Int → List Nat) (mystats : POOL_SHMEM_STATS) : POOL_CONNECTION :=
  let field_names := cache_reporting_field_names
  let num_fields : Int := (field_names.length : Int)
  let nullmap : List Nat := [255, 255]
  let nbytes : Int := (num_fields + 7) / 8
  let strp := cache_reporting_strings fmt_2f mystats
  let len : Int :=
    (List.range num_fields.toNat).foldl
      (fun len i => len + (4 + cache_reporting_strlen strp i)) 2
  let frontend := send_row_description frontend major num_fields field_names
  let frontend :=
    if major = PROTO_MAJOR_V2 then
      let frontend := pool_write frontend (lit "D") 1
      let frontend := pool_write frontend nullmap nbytes.toNat
      (List.range num_fields.toNat).foldl (cache_reporting_field_v2 strp) frontend
    else
      let frontend := pool_write frontend (lit "D") 1
      let frontend := pool_write frontend (htonl (len + 4)) 4
      let s := htons num_fields
      let frontend := pool_write frontend s 2
      (List.range num_fields.toNat).foldl (cache_reporting_field_v3 strp) frontend
  send_complete_and_ready frontend major (lit "SELECT") 1

/-! ## `get_nodes` (lines 1264-1320) -/

/-- C `printf` conversion `UINT64_FORMAT` (an unsigned 64-bit integer in
decimal). -/
def fmt_u (n : Nat) : List Nat :=
  (Nat.toDigits 10 n).map Char.toNat

/-- Modelled from the spec: the macro `StrNCpy(dst, src, len)` (declared in a
header that is not part of the sources): `dst` receives at most `len - 1`
bytes of the string at `src` and a NUL terminator. -/
def StrNCpy (src : List Nat) (len : Nat) : List Nat :=
  (src.take (strlen src)).take (len - 1) ++ [0]

/-- Modelled from the spec: the record `BackendInfo` (declared in a header that
is not part of the sources) with the members `get_nodes` formats itself. -/
structure BackendInfo where
  backend_hostname : List Nat
  backend_port : Int
  standby_delay : Nat
  status_changed_time : Int
  replication_state : List Nat
  replication_sync_state : List Nat
deriving Inhabited

/-- Modelled from the spec: the record `POOL_REPORT_NODES` (declared in a header
that is not part of the sources) with the twelve character arrays `get_nodes`
fills. -/
structure POOL_REPORT_NODES where
  node_id : List Nat
  hostname : List Nat
  port : List Nat
  status : List Nat
  lb_weight : List Nat
  select : List Nat
  load_balance_node : List Nat
  delay : List Nat
  role : List Nat
  last_status_change : List Nat
  rep_state : List Nat
  rep_sync_state : List Nat
deriving Inhabited

/-- Modelled from the spec: what `get_nodes` takes from outside the file: the
macros `NUM_BACKENDS`, `STREAM`, `REAL_PRIMARY_NODE_ID`, `REAL_MAIN_NODE_ID`
and the buffer sizes `POOLCONFIG_MAX*LEN`, the collaborators
`pool_get_node_info`, `backend_status_to_str` and `stat_get_select_count`, the
session's `load_balance_node_id`, and two libc services: `fmt_weight bi`
stands for the output of `%f` applied to `bi->backend_weight / RAND_MAX`,
`strftime_local t` for the buffer written by `strftime` with `%F %T` on
the local time of `t`. -/
structure NodesEnv where
  NUM_BACKENDS : Int
  STREAM : Bool
  REAL_PRIMARY_NODE_ID : Int
  REAL_MAIN_NODE_ID : Int
  POOLCONFIG_MAXIDLEN : Nat
  POOLCONFIG_MAXPORTLEN : Nat
  POOLCONFIG_MAXSTATLEN : Nat
  POOLCONFIG_MAXWEIGHTLEN : Nat
  pool_get_node_info : Nat → BackendInfo
  backend_status_to_str : BackendInfo → List Nat
  stat_get_select_count : Nat → Nat
  load_balance_node_id : Int
  fmt_weight : BackendInfo → List Nat
  strftime_local : Int → List Nat

/-- The body of the loop of `get_nodes` (lines 1275-1314): the record
`nodes[i]`. -/
def get_nodes_row (env : NodesEnv) (i : Nat) : POOL_REPORT_NODES :=
  let bi := env.pool_get_node_info i
  let node : POOL_REPORT_NODES := default
  let node := { node with node_id := (snprintf env.POOLCONFIG_MAXIDLEN (fmt_d (i : Int))).1 }
  let node := { node with
    hostname := StrNCpy bi.backend_hostname (strlen bi.backend_hostname + 1) }
  let node := { node with port := (snprintf env.POOLCONFIG_MAXPORTLEN (fmt_d bi.backend_port)).1 }
  let node := { node with
    status := (snprintf env.POOLCONFIG_MAXSTATLEN
      ((env.backend_status_to_str bi).take (strlen (env.backend_status_to_str bi)))).1 }
  let node := { node with
    lb_weight := (snprintf env.POOLCONFIG_MAXWEIGHTLEN (env.fmt_weight bi)).1 }
  let node := { node with
    select := (snprintf env.POOLCONFIG_MAXWEIGHTLEN (fmt_u (env.stat_get_select_count i))).1 }
  let node := { node with
    load_balance_node := (snprintf env.POOLCONFIG_MAXWEIGHTLEN
      (if env.load_balance_node_id = (i : Int) then (lit "true").take (strlen (lit "true"))
        else (lit "false").take (strlen (lit "false")))).1 }
  let node := { node with delay := (snprintf env.POOLCONFIG_MAXWEIGHTLEN (fmt_d 0)).1 }
  let node :=
    if env.STREAM then
      if (i : Int) = env.REAL_PRIMARY_NODE_ID then
        { node with
          role := (snprintf env.POOLCONFIG_MAXWEIGHTLEN
            ((lit "primary").take (strlen (lit "primary")))).1 }
      else
        let node := { node with
          role := (snprintf env.POOLCONFIG_MAXWEIGHTLEN
            ((lit "standby").take (strlen (lit "standby")))).1 }
        { node with
          delay := (snprintf env.POOLCONFIG_MAXWEIGHTLEN (fmt_u bi.standby_delay)).1 }
    else
      if (i : Int) = env.REAL_MAIN_NODE_ID then
        { node with
          role := (snprintf env.POOLCONFIG_MAXWEIGHTLEN
            ((lit "main").take (strlen (lit "main")))).1 }
      else
        { node with
          role := (snprintf env.POOLCONFIG_MAXWEIGHTLEN
            ((lit "replica").take (strlen (lit "replica")))).1 }
  let node := { node with last_status_change := env.strftime_local bi.status_changed_time }
  let node := { node with
    rep_state := (snprintf env.POOLCONFIG_MAXWEIGHTLEN
      (bi.replication_state.take (strlen bi.replication_state))).1 }
  { node with
    rep_sync_state := (snprintf env.POOLCONFIG_MAXWEIGHTLEN
      (bi.replication_sync_state.take (strlen bi.replication_sync_state))).1 }

/-- Function `get_nodes(nrows)`: the array of records and the value stored
in `*nrows`, the loop counter at the exit of the loop. -/
def get_nodes (env : NodesEnv) : List POOL_REPORT_NODES × Int :=
  ((List.range env.NUM_BACKENDS.toNat).map (get_nodes_row env),
    ((env.NUM_BACKENDS.toNat : Nat) : Int))

/-! ## `get_pools` (lines 1361-1418) and `get_processes` (lines 1568-1607) -/

/-- Modelled from the spec: the record `ConnectionInfo` (declared in a header
that is not part of the sources) with the members `get_pools` and
`get_processes` read; `database` and `user` are character arrays. -/
structure ConnectionInfo where
  database : List Nat
  user : List Nat
  major : Int
  minor : Int
  pid : Int
  create_time : Int
  counter : Int
  connected : Int
deriving Inhabited

/-- Modelled from the spec: the record `ProcessInfo` (declared in a header that
is not part of the sources) with the members `get_pools` and `get_processes`
read; `connection_info` is an array of `ConnectionInfo`. -/
structure ProcessInfo where
  start_time : Int
  connection_info : Nat → ConnectionInfo

/-- Modelled from the spec: what `get_pools` and `get_processes` take from
outside the file: the settings `pool_config->num_init_children` and
`pool_config->max_pool`, the macros `NUM_BACKENDS`, `MAX_NUM_BACKENDS` and
the buffer sizes `POOLCONFIG_MAX*LEN`, the member `pid` of the array
`process_info`, the collaborator `pool_get_process_info`, and two libc
services: `ntohl`, and `strftime_local t` for the buffer written by
`strftime` with `%Y-%m-%d %H:%M:%S` on the local time of `t`. -/
structure PoolsEnv where
  num_init_children : Int
  max_pool : Int
  NUM_BACKENDS : Int
  MAX_NUM_BACKENDS : Nat
  POOLCONFIG_MAXIDENTLEN : Nat
  POOLCONFIG_MAXCOUNTLEN : Nat
  POOLCONFIG_MAXDATELEN : Nat
  process_info_pid : Nat → Int
  pool_get_process_info : Int → ProcessInfo
  ntohl : Int → Int
  strftime_local : Int → List Nat

/-- The body of the innermost loop of `get_pools` (lines 1386-1410): the record
stored in `pools[lines]`; `proc_id` and `pi` are set by the outermost loop. -/
def get_pools_row (env : PoolsEnv) (proc_id : Int) (pi : ProcessInfo)
    (pool backend_id : Nat) : POOL_REPORT_POOLS :=
  let poolBE := pool * env.MAX_NUM_BACKENDS + backend_id
  let p : POOL_REPORT_POOLS := default
  let p := { p with pool_pid := proc_id }
  let p := { p with start_time := pi.start_time }
  let p := { p with pool_id := (pool : Int) }
  let p := { p with backend_id := (backend_id : Int) }
  let p :=
    if strlen (pi.connection_info poolBE).database = 0 then
      let p := { p with database := StrNCpy [0] env.POOLCONFIG_MAXIDENTLEN }
      let p := { p with username := StrNCpy [0] env.POOLCONFIG_MAXIDENTLEN }
      let p := { p with create_time := 0 }
      let p := { p with pool_majorversion := 0 }
      { p with pool_minorversion := 0 }
    else
      let p := { p with
        database := StrNCpy (pi.connection_info poolBE).database env.POOLCONFIG_MAXIDENTLEN }
      let p := { p with
        username := StrNCpy (pi.connection_info poolBE).user env.POOLCONFIG_MAXIDENTLEN }
      let p := { p with create_time := (pi.connection_info poolBE).create_time }
      let p := { p with pool_majorversion := (pi.connection_info poolBE).major }
      { p with pool_minorversion := (pi.connection_info poolBE).minor }
  let p := { p with pool_counter := (pi.connection_info poolBE).counter }
  let p := { p with pool_backendpid := env.ntohl (pi.connection_info poolBE).pid }
  { p with pool_connected := (pi.connection_info poolBE).connected }

/-- Function `get_pools(nrows)`: the array `pools` and the value stored in
`*nrows`.  The state of the loops is the pair of the records stored so far
and the counter `lines`; `lines` starts at 0 and grows by one with every
record, so the store to `pools[lines]` puts the record after those stored
before. -/
def get_pools (env : PoolsEnv) : List POOL_REPORT_POOLS × Int :=
  (List.range env.num_init_children.toNat).foldl
    (fun st child =>
      let proc_id := env.process_info_pid child
      let pi := env.pool_get_process_info proc_id
      (List.range env.max_pool.toNat).foldl
        (fun st pool =>
          (List.range env.NUM_BACKENDS.toNat).foldl
            (fun st backend_id =>
              (st.1 ++ [get_pools_row env proc_id pi pool backend_id], st.2 + 1))
            st)
        st)
    ([], 0)

/-- Modelled from the spec: the record `POOL_REPORT_PROCESSES` (declared in a
header that is not part of the sources) with the six character arrays
`get_processes` fills. -/
structure POOL_REPORT_PROCESSES where
  pool_pid : List Nat
  start_time : List Nat
  database : List Nat
  username : List Nat
  create_time : List Nat
  pool_counter : List Nat
deriving Inhabited

/-- The body of the inner loop of `get_processes` (lines 1591-1600): what one
pool slot does to the record `processes[child]`. -/
def get_processes_slot (env : PoolsEnv) (pi : ProcessInfo) (proc : POOL_REPORT_PROCESSES)
    (pool : Nat) : POOL_REPORT_PROCESSES :=
  let poolBE := pool * env.MAX_NUM_BACKENDS
  if (pi.connection_info poolBE).connected ≠ 0 ∧
      strlen (pi.connection_info poolBE).database > 0 ∧
      strlen (pi.connection_info poolBE).user > 0 then
    let proc := { proc with
      database := StrNCpy (pi.connection_info poolBE).database env.POOLCONFIG_MAXIDENTLEN }
    let proc := { proc with
      username := StrNCpy (pi.connection_info poolBE).user env.POOLCONFIG_MAXIDENTLEN }
    let proc := { proc with
      create_time := env.strftime_local (pi.connection_info poolBE).create_time }
    { proc with
      pool_counter :=
        (snprintf env.POOLCONFIG_MAXCOUNTLEN (fmt_d (pi.connection_info poolBE).counter)).1 }
  else proc

/-- The first part of the body of the outer loop of `get_processes` (lines
1581-1589): the record `processes[child]` before the loop over the pool
slots. -/
def get_processes_init (env : PoolsEnv) (child : Nat) : POOL_REPORT_PROCESSES :=
  let proc_id := env.process_info_pid child
  let pi := env.pool_get_process_info proc_id
  let proc : POOL_REPORT_PROCESSES := default
  let proc := { proc with pool_pid := (snprintf env.POOLCONFIG_MAXCOUNTLEN (fmt_d proc_id)).1 }
  let proc := { proc with start_time := env.strftime_local pi.start_time }
  let proc := { proc with database := StrNCpy [0] env.POOLCONFIG_MAXIDENTLEN }
  let proc := { proc with username := StrNCpy [0] env.POOLCONFIG_MAXIDENTLEN }
  let proc := { proc with create_time := StrNCpy [0] env.POOLCONFIG_MAXDATELEN }
  { proc with pool_counter := StrNCpy [0] env.POOLCONFIG_MAXCOUNTLEN }

/-- The body of the outer loop of `get_processes` (lines 1581-1601): the record
`processes[child]` after the loop over the pool slots. -/
def get_processes_row (env : PoolsEnv) (child : Nat) : POOL_REPORT_PROCESSES :=
  let proc_id := env.process_info_pid child
  let pi := env.pool_get_process_info proc_id
  (List.range env.max_pool.toNat).foldl (get_processes_slot env pi)
    (get_processes_init env child)

/-- Function `get_processes(nrows)`: the array of records and the value stored
in `*nrows`, the loop counter `child` at the exit of the loop. -/
def get_processes (env : PoolsEnv) : List POOL_REPORT_PROCESSES × Int :=
  ((List.range env.num_init_children.toNat).map (get_processes_row env),
    ((env.num_init_children.toNat : Nat) : Int))

/-! ## `get_health_check_stats` (lines 1803-1886) -/

/-- Modelled from the spec: one element of the shared array
`health_check_stats` (declared in a header that is not part of the sources)
with the members `get_health_check_stats` reads; the counters printed with
`UINT64_FORMAT` are unsigned 64-bit integers. -/
structure POOL_HEALTH_CHECK_STATISTICS where
  total_count : Nat
  success_count : Nat
  fail_count : Nat
  skip_count : Nat
  retry_count : Nat
  max_retry_count : Int
  total_health_check_duration : Nat
  max_health_check_duration : Int
  min_health_check_duration : Int
  last_health_check : Int
  last_successful_health_check : Int
  last_skip_health_check : Int
  last_failed_health_check : Int
deriving Inhabited

/-- Modelled from the spec: the record `POOL_HEALTH_CHECK_STATS` (declared in a
header that is not part of the sources) with the twenty character arrays
`get_health_check_stats` fills. -/
structure POOL_HEALTH_CHECK_STATS where
  node_id : List Nat
  hostname : List Nat
  port : List Nat
  status : List Nat
  role : List Nat
  last_status_change : List Nat
  total_count : List Nat
  success_count : List Nat
  fail_count : List Nat
  skip_count : List Nat
  retry_count : List Nat
  max_retry_count : List Nat
  average_retry_count : List Nat
  average_health_check_duration : List Nat
  max_health_check_duration : List Nat
  min_health_check_duration : List Nat
  last_health_check : List Nat
  last_successful_health_check : List Nat
  last_skip_health_check : List Nat
  last_failed_health_check : List Nat
deriving Inhabited

/-- Modelled from the spec: what `get_health_check_stats` takes from outside
the file: the macros `NUM_BACKENDS`, `STREAM`, `REAL_PRIMARY_NODE_ID`,
`REAL_MAIN_NODE_ID` and the buffer sizes `POOLCONFIG_MAX*LEN`, the
collaborators `pool_get_node_info` and `backend_status_to_str`, the shared
array `health_check_stats`, the setting
`pool_config->health_check_params[i].health_check_period`, and two libc
services: `fmt_f_div a b` stands for the output of `%f` applied to the
double `(double) a / b` with `b` an unsigned 64-bit integer, and
`strftime_local t` for the buffer written by `strftime` with `%F %T` on the
local time of `t`. -/
structure HealthCheckEnv where
  NUM_BACKENDS : Int
  STREAM : Bool
  REAL_PRIMARY_NODE_ID : Int
  REAL_MAIN_NODE_ID : Int
  POOLCONFIG_MAXIDLEN : Nat
  POOLCONFIG_MAXPORTLEN : Nat
  POOLCONFIG_MAXSTATLEN : Nat
  POOLCONFIG_MAXWEIGHTLEN : Nat
  POOLCONFIG_MAXLONGCOUNTLEN : Nat
  POOLCONFIG_MAXCOUNTLEN : Nat
  pool_get_node_info : Nat → BackendInfo
  backend_status_to_str : BackendInfo → List Nat
  health_check_stats : Nat → POOL_HEALTH_CHECK_STATISTICS
  health_check_period : Nat → Int
  fmt_f_div : Nat → Nat → List Nat
  strftime_local : Int → List Nat

/-- C subtraction `a - b` of two unsigned 64-bit integers: the difference
modulo 2^64. -/
def sub_uint64 (a b : Nat) : Nat :=
  (a % 18446744073709551616 + 18446744073709551616 - b % 18446744073709551616) %
    18446744073709551616

/-- The divisor of the two averages of `get_health_check_stats` (lines 1855,
1862): `health_check_stats[i].total_count - health_check_stats[i].skip_count`. -/
def get_health_check_stats_divisor (env : HealthCheckEnv) (i : Nat) : Nat :=
  sub_uint64 (env.health_check_stats i).total_count (env.health_check_stats i).skip_count

/-- The body of the loop of `get_health_check_stats` (lines 1812-1880): the
record `stats[i]`, member by member.  The array comes from `palloc0`, so a
member that is not written holds the empty string.  The output of `%f` for
the double `0.0` is "0.000000", the bytes 48, 46, 48, 48, 48, 48, 48, 48. -/
def get_health_check_stats_row (env : HealthCheckEnv) (i : Nat) : POOL_HEALTH_CHECK_STATS :=
  let bi := env.pool_get_node_info i
  let hs := env.health_check_stats i
  { node_id := (snprintf env.POOLCONFIG_MAXIDLEN (fmt_d (i : Int))).1
    hostname := StrNCpy bi.backend_hostname (strlen bi.backend_hostname + 1)
    port := (snprintf env.POOLCONFIG_MAXPORTLEN (fmt_d bi.backend_port)).1
    status :=
      (snprintf env.POOLCONFIG_MAXSTATLEN
        ((env.backend_status_to_str bi).take (strlen (env.backend_status_to_str bi)))).1
    role :=
      if env.STREAM then
        if (i : Int) = env.REAL_PRIMARY_NODE_ID then
          (snprintf env.POOLCONFIG_MAXWEIGHTLEN
            ((lit "primary").take (strlen (lit "primary")))).1
        else
          (snprintf env.POOLCONFIG_MAXWEIGHTLEN
            ((lit "standby").take (strlen (lit "standby")))).1
      else
        if (i : Int) = env.REAL_MAIN_NODE_ID then
          (snprintf env.POOLCONFIG_MAXWEIGHTLEN ((lit "main").take (strlen (lit "main")))).1
        else
          (snprintf env.POOLCONFIG_MAXWEIGHTLEN
            ((lit "replica").take (strlen (lit "replica")))).1
    last_status_change := env.strftime_local bi.status_changed_time
    total_count := (snprintf env.POOLCONFIG_MAXLONGCOUNTLEN (fmt_u hs.total_count)).1
    success_count := (snprintf env.POOLCONFIG_MAXLONGCOUNTLEN (fmt_u hs.success_count)).1
    fail_count := (snprintf env.POOLCONFIG_MAXLONGCOUNTLEN (fmt_u hs.fail_count)).1
    skip_count := (snprintf env.POOLCONFIG_MAXLONGCOUNTLEN (fmt_u hs.skip_count)).1
    retry_count := (snprintf env.POOLCONFIG_MAXLONGCOUNTLEN (fmt_u hs.retry_count)).1
    max_retry_count := (snprintf env.POOLCONFIG_MAXCOUNTLEN (fmt_d hs.max_retry_count)).1
    average_retry_count :=
      (snprintf env.POOLCONFIG_MAXWEIGHTLEN
        (if env.health_check_period i > 0 then
          env.fmt_f_div hs.retry_count (get_health_check_stats_divisor env i)
        else [48, 46, 48, 48, 48, 48, 48, 48])).1
    average_health_check_duration :=
      (snprintf env.POOLCONFIG_MAXWEIGHTLEN
        (if env.health_check_period i > 0 then
          env.fmt_f_div hs.total_health_check_duration (get_health_check_stats_divisor env i)
        else [48, 46, 48, 48, 48, 48, 48, 48])).1
    max_health_check_duration :=
      (snprintf env.POOLCONFIG_MAXCOUNTLEN (fmt_d hs.max_health_check_duration)).1
    min_health_check_duration :=
      (snprintf env.POOLCONFIG_MAXCOUNTLEN (fmt_d hs.min_health_check_duration)).1
    last_health_check :=
      if hs.last_health_check > 0 then env.strftime_local hs.last_health_check else [0]
    last_successful_health_check :=
      if hs.last_successful_health_check > 0 then
        env.strftime_local hs.last_successful_health_check
      else [0]
    last_skip_health_check :=
      if hs.last_skip_health_check > 0 then env.strftime_local hs.last_skip_health_check
      else [0]
    last_failed_health_check :=
      if hs.last_failed_health_check > 0 then env.strftime_local hs.last_failed_health_check
      else [0] }

/-- Function `get_health_check_stats(nrows)`: the array of records and the
value stored in `*nrows`, the loop counter at the exit of the loop. -/
def get_health_check_stats (env : HealthCheckEnv) : List POOL_HEALTH_CHECK_STATS × Int :=
  ((List.range env.NUM_BACKENDS.toNat).map (get_health_check_stats_row env),
    ((env.NUM_BACKENDS.toNat : Nat) : Int))

/-! ## Wire-format vocabulary of the specification -/

/-- The big-endian encoding of `n` on 4 bytes. -/
def be32 (n : Nat) : List Nat :=
  [n / 16777216 % 256, n / 65536 % 256, n / 256 % 256, n % 256]

/-- The big-endian encoding of `n` on 2 bytes. -/
def be16 (n : Nat) : List Nat :=
  [n / 256 % 256, n % 256]

/-- The number denoted by a big-endian byte sequence. -/
def beValue (bs : List Nat) : Nat :=
  bs.foldl (fun acc b => acc * 256 + b) 0

/-- The text of the C string at `p`: the bytes before the first NUL. -/
def content (p : List Nat) : List Nat :=
  p.takeWhile (fun b => b != 0)

/-- Concatenation of `g k a` over the elements `a` of a list, `k` being the
position of `a` counted from a starting index. -/
def flatMapIdx {α β : Type} (g : Nat → α → List β) : Nat → List α → List β
  | _, [] => []
  | k, a :: rest => g k a ++ flatMapIdx g (k + 1) rest

/-- The decimal representation of a natural number, as bytes. -/
def decimal (n : Nat) : List Nat :=
  (Nat.repr n).toList.map Char.toNat

/-- The text of a string literal, as bytes. -/
def text (s : String) : List Nat :=
  s.toList.map Char.toNat

/-- Spec §6, row description, Current shape, one column: name+NUL, oid(4,0),
colno(int16), typoid(4,0), size(int16,-1), mod(4,0), format(int16,0). -/
def RowDescriptionColumn_Current (colno : Nat) (name : List Nat) : List Nat :=
  name ++ [0] ++ [0, 0, 0, 0] ++ be16 colno ++ [0, 0, 0, 0] ++ [255, 255] ++ [0, 0, 0, 0] ++ [0, 0]

/-- Spec §6, row description, Legacy shape, one column: name+NUL, oid(4,0),
size(int16,-1), mod(4,0). -/
def RowDescriptionColumn_Legacy (name : List Nat) : List Nat :=
  name ++ [0] ++ [0, 0, 0, 0] ++ [255, 255] ++ [0, 0, 0, 0]

/-- Spec §4.2, the message length of a Current row description: 6 plus, per
column, name length + 1 terminator + 18 fixed bytes. -/
def RowDescriptionLength (names : List (List Nat)) : Nat :=
  6 + (names.map (fun name => name.length + 19)).sum

/-- Spec §6, the row-description message for the column names `names`. -/
def RowDescription : ProtoMajor → List (List Nat) → List Nat
  | PROTO_MAJOR_V2, names =>
    [80] ++ text "blank" ++ [0] ++ [84] ++ be16 names.length ++
      names.flatMap RowDescriptionColumn_Legacy
  | PROTO_MAJOR_V3, names =>
    [84] ++ be32 (RowDescriptionLength names) ++ be16 names.length ++
      flatMapIdx RowDescriptionColumn_Current 0 names

/-- Spec §4.3, the message length of a Current data row: 6 plus, per field,
the 4-byte length and the content length. -/
def DataRowLength (fields : List (List Nat)) : Nat :=
  6 + (fields.map (fun f => 4 + f.length)).sum

/-- Spec §6, the data-row message for the field values `fields`. -/
def DataRow : ProtoMajor → List (List Nat) → List Nat
  | PROTO_MAJOR_V2, fields =>
    [68] ++ List.replicate ((fields.length + 7) / 8) 255 ++
      fields.flatMap (fun f => be32 (f.length + 4) ++ f)
  | PROTO_MAJOR_V3, fields =>
    [68] ++ be32 (DataRowLength fields) ++ be16 fields.length ++
      fields.flatMap (fun f => be32 f.length ++ f)

/-- Spec §6, the command-complete message with command text `cmd`. -/
def CommandComplete : ProtoMajor → List Nat → List Nat
  | PROTO_MAJOR_V2, cmd => [67] ++ cmd ++ [0]
  | PROTO_MAJOR_V3, cmd => [67] ++ be32 (4 + cmd.length + 1) ++ cmd ++ [0]

/-- Spec §6, the ready-for-query message. -/
def ReadyForQuery : ProtoMajor → List Nat
  | PROTO_MAJOR_V2 => [90]
  | PROTO_MAJOR_V3 => [90] ++ be32 5 ++ [73]

/-- The field values of row `i` of a row buffer: for each column `j` the text
at `data + i * row_size + offsettbl[j]`. -/
def rowFields (n : Nat) (offsettbl : List Nat) (data : List Nat) (row_size : Nat) (i : Nat) :
    List (List Nat) :=
  (List.range n).map (fun j => content (field_at offsettbl data row_size i j))

/-- Decoder for `count` column descriptors of a Current row description: a
NUL-terminated name and 18 fixed bytes each.  Returns the names and the
bytes left over. -/
def parseColumns_Current : Nat → List Nat → Option (List (List Nat) × List Nat)
  | 0, bs => some ([], bs)
  | count + 1, bs =>
    let name := bs.takeWhile (fun b => b != 0)
    match bs.drop name.length with
    | 0 :: fixed =>
      if fixed.length < 18 then none
      else
        match parseColumns_Current count (fixed.drop 18) with
        | some (names, rest) => some (name :: names, rest)
        | none => none
    | _ => none

/-- Decoder for a Current row-description message at the head of a stream:
tag `T`, int32 length delimiting the message, int16 count, then the column
descriptors, which must fill the message exactly.  Returns the column names
and the bytes that follow the message. -/
def parseRowDescription_Current (bs : List Nat) : Option (List (List Nat) × List Nat) :=
  match bs with
  | 84 :: l3 :: l2 :: l1 :: l0 :: after =>
    let len := beValue [l3, l2, l1, l0]
    if len < 4 ∨ after.length < len - 4 then none
    else
      match after.take (len - 4) with
      | c1 :: c0 :: cols =>
        match parseColumns_Current (beValue [c1, c0]) cols with
        | some (names, []) => some (names, after.drop (len - 4))
        | _ => none
      | _ => none
  | _ => none

/-- Spec §4.2 (prose), Legacy shape, one column: name + terminator, table-oid
placeholder (4 bytes, 0), data-type-oid placeholder (4 bytes, 0), field size
(2 bytes, -1), type modifier (4 bytes, 0). -/
def RowDescriptionColumn_LegacyProse (name : List Nat) : List Nat :=
  name ++ [0] ++ [0, 0, 0, 0] ++ [0, 0, 0, 0] ++ [255, 255] ++ [0, 0, 0, 0]

/-- The signed 16-bit number denoted by two big-endian bytes. -/
def signed16 (bs : List Nat) : Int :=
  if beValue bs < 32768 then (beValue bs : Int) else (beValue bs : Int) - 65536

/-- Spec §4.4, the command text: the verb alone when the supplied count is
negative, otherwise the verb, one space and the decimal count. -/
def commandText (verb : List Nat) (count : Int) : List Nat :=
  if count < 0 then verb else verb ++ [32] ++ decimal count.toNat

/-- The member names in the `offsetof(POOL_REPORT_NODES, ...)` entries of the
offset table of `nodes_reporting` (lines 1332-1345), in order. -/
def nodes_reporting_members : List String :=
  ["node_id", "hostname", "port", "status", "lb_weight", "role", "select",
    "load_balance_node", "delay", "rep_state", "rep_sync_state", "last_status_change"]

/-- The member names in the `offsetof(POOL_REPORT_PROCESSES, ...)` entries of
the offset table of `processes_reporting` (lines 1617-1624), in order. -/
def processes_reporting_members : List String :=
  ["pool_pid", "start_time", "database", "username", "create_time", "pool_counter"]

/-- The member name in the `offsetof(POOL_REPORT_VERSION, ...)` entry of the
offset table of `version_reporting` (lines 1658-1660). -/
def version_reporting_members : List String :=
  ["version"]

/-- The member names in the `offsetof(POOL_HEALTH_CHECK_STATS, ...)` entries of
the offset table of `show_health_check_stats` (lines 1903-1924), in order. -/
def show_health_check_stats_members : List String :=
  ["node_id", "hostname", "port", "status", "role", "last_status_change", "total_count",
    "success_count", "fail_count", "skip_count", "retry_count", "average_retry_count",
    "max_retry_count", "max_health_check_duration", "min_health_check_duration",
    "average_health_check_duration", "last_health_check", "last_successful_health_check",
    "last_skip_health_check", "last_failed_health_check"]

/-- The member names in the `offsetof(POOL_BACKEND_STATS, ...)` entries of the
offset table of `show_backend_stats` (lines 2004-2019), in order. -/
def show_backend_stats_members : List String :=
  ["node_id", "hostname", "port", "status", "role", "select_cnt", "insert_cnt", "update_cnt",
    "delete_cnt", "ddl_cnt", "other_cnt", "panic_cnt", "fatal_cnt", "error_cnt"]

/-- The offset table built from member names, for a record layout `offsetof`
(the record declarations are not part of the sources). -/
def offsetTable (offsetof : String → Nat) (members : List String) : List Nat :=
  members.map offsetof

/-- The column names that do not spell the record member they report, with
that member: `select` holds the select count, `delay` the standby
(replication) delay, `rep_state` and `rep_sync_state` the replication state
and sync state, `version` the pool version, and the three
`*_health_check_duration` members the durations (as the `get_*` collectors
fill them). -/
def columnAliases : List (String × String) :=
  [("select_cnt", "select"), ("replication_delay", "delay"),
    ("replication_state", "rep_state"), ("replication_sync_state", "rep_sync_state"),
    ("pool_version", "version"), ("max_duration", "max_health_check_duration"),
    ("min_duration", "min_health_check_duration"),
    ("average_duration", "average_health_check_duration")]

/-- Whether the column called `column` describes the record member `member`:
it carries the member's name or is its listed alias. -/
def describesMember (column member : String) : Bool :=
  column == member || columnAliases.contains (column, member)

/-- Whether, position by position, each column describes the member at the same
position and both lists have the same length. -/
def columnsDescribeMembers : List String → List String → Bool
  | [], [] => true
  | column :: columns, member :: members =>
    describesMember column member && columnsDescribeMembers columns members
  | _, _ => false

/-- The 12 formatted strings of one pool record, in the order pool_pid,
start_time, pool_id, backend_id, database, username, create_time,
majorversion, minorversion, pool_counter, pool_backendpid, pool_connected. -/
def pools_row_strings (strftime_local : Int → List Nat) (p : POOL_REPORT_POOLS) :
    List (List Nat) :=
  [content (pools_reporting_format strftime_local p).proc_pid,
    content (pools_reporting_format strftime_local p).proc_start_time,
    content (pools_reporting_format strftime_local p).pool_id,
    content (pools_reporting_format strftime_local p).backend_id,
    content p.database,
    content p.username,
    content (pools_reporting_format strftime_local p).proc_create_time,
    content (pools_reporting_format strftime_local p).majorversion,
    content (pools_reporting_format strftime_local p).minorversion,
    content (pools_reporting_format strftime_local p).pool_counter,
    content (pools_reporting_format strftime_local p).backend_pid,
    content (pools_reporting_format strftime_local p).connected]

/-! ## A decoder for the whole result set

Decoders written from the message layouts of spec §6.  A field value decodes
to `none` when the stream marks it as SQL NULL (a cleared bit of the Legacy
null bitmap, the length -1 in the Current version). -/

/-- A decoded result set: column names, rows of field values, command text. -/
structure ResultSet where
  names : List (List Nat)
  rows : List (List (Option (List Nat)))
  command : List Nat
deriving DecidableEq

/-- Decoder for `count` fields of a Current data row: an int32 length and that
many content bytes each. -/
def parseFields_Current : Nat → List Nat → Option (List (Option (List Nat)) × List Nat)
  | 0, bs => some ([], bs)
  | count + 1, l3 :: l2 :: l1 :: l0 :: rest =>
    if beValue [l3, l2, l1, l0] = 4294967295 then
      match parseFields_Current count rest with
      | some (fields, left) => some (none :: fields, left)
      | none => none
    else if rest.length < beValue [l3, l2, l1, l0] then none
    else
      match parseFields_Current count (rest.drop (beValue [l3, l2, l1, l0])) with
      | some (fields, left) => some (some (rest.take (beValue [l3, l2, l1, l0])) :: fields, left)
      | none => none
  | _ + 1, _ => none

/-- Decoder for one Current data-row message at the head of a stream: tag `D`,
int32 length delimiting the message, int16 count, then the fields, which must
fill the message exactly. -/
def parseDataRow_Current (bs : List Nat) : Option (List (Option (List Nat)) × List Nat) :=
  match bs with
  | 68 :: l3 :: l2 :: l1 :: l0 :: after =>
    if beValue [l3, l2, l1, l0] < 4 ∨ after.length < beValue [l3, l2, l1, l0] - 4 then none
    else
      match after.take (beValue [l3, l2, l1, l0] - 4) with
      | c1 :: c0 :: fields =>
        match parseFields_Current (beValue [c1, c0]) fields with
        | some (values, []) => some (values, after.drop (beValue [l3, l2, l1, l0] - 4))
        | _ => none
      | _ => none
  | _ => none

/-- Bit `j` of a Legacy null bitmap: the first field is the most significant
bit of the first byte. -/
def nullBit (nullmap : List Nat) (j : Nat) : Bool :=
  nullmap.getD (j / 8) 0 / 2 ^ (7 - j % 8) % 2 == 1

/-- Decoder for the fields `j, j + 1, ...` (`count` of them) of a Legacy data
row: a field whose bitmap bit is set carries an int32 length that counts
itself and then the content. -/
def parseFields_Legacy (nullmap : List Nat) :
    Nat → Nat → List Nat → Option (List (Option (List Nat)) × List Nat)
  | _, 0, bs => some ([], bs)
  | j, count + 1, bs =>
    if nullBit nullmap j then
      match bs with
      | l3 :: l2 :: l1 :: l0 :: rest =>
        if beValue [l3, l2, l1, l0] < 4 ∨ rest.length < beValue [l3, l2, l1, l0] - 4 then none
        else
          match parseFields_Legacy nullmap (j + 1) count
              (rest.drop (beValue [l3, l2, l1, l0] - 4)) with
          | some (fields, left) =>
            some (some (rest.take (beValue [l3, l2, l1, l0] - 4)) :: fields, left)
          | none => none
      | _ => none
    else
      match parseFields_Legacy nullmap (j + 1) count bs with
      | some (fields, left) => some (none :: fields, left)
      | none => none

/-- Decoder for one Legacy data-row message of `n` fields at the head of a
stream: tag `D`, a null bitmap of `⌈n/8⌉` bytes, then the fields. -/
def parseDataRow_Legacy (n : Nat) (bs : List Nat) :
    Option (List (Option (List Nat)) × List Nat) :=
  match bs with
  | 68 :: after =>
    if after.length < (n + 7) / 8 then none
    else parseFields_Legacy (after.take ((n + 7) / 8)) 0 n (after.drop ((n + 7) / 8))
  | _ => none

/-- Decoder for the run of data rows at the head of a stream: rows are read
with `row` for as long as the next tag is `D`.  Every row takes at least one
byte, so `fuel` above the stream length is never exhausted. -/
def parseDataRows (row : List Nat → Option (List (Option (List Nat)) × List Nat)) :
    Nat → List Nat → Option (List (List (Option (List Nat))) × List Nat)
  | 0, _ => none
  | fuel + 1, bs =>
    match bs with
    | 68 :: _ =>
      match row bs with
      | some (values, rest) =>
        match parseDataRows row fuel rest with
        | some (rows, left) => some (values :: rows, left)
        | none => none
      | none => none
    | _ => some ([], bs)

/-- Decoder for the Current completion pair, which must end the stream:
`C`, int32 length, text and NUL; `Z`, int32 length 5, one status byte. -/
def parseCompletion_Current (bs : List Nat) : Option (List Nat) :=
  match bs with
  | 67 :: l3 :: l2 :: l1 :: l0 :: after =>
    if beValue [l3, l2, l1, l0] < 5 ∨ after.length < beValue [l3, l2, l1, l0] - 4 then none
    else if (after.take (beValue [l3, l2, l1, l0] - 4)).getLast? = some 0 then
      match after.drop (beValue [l3, l2, l1, l0] - 4) with
      | [90, 0, 0, 0, 5, _] => some (after.take (beValue [l3, l2, l1, l0] - 4)).dropLast
      | _ => none
    else none
  | _ => none

/-- Decoder for the Legacy completion pair, which must end the stream:
`C`, text and NUL; `Z`. -/
def parseCompletion_Legacy (bs : List Nat) : Option (List Nat) :=
  match bs with
  | 67 :: after =>
    match after.drop (after.takeWhile (fun b => b != 0)).length with
    | [0, 90] => some (after.takeWhile (fun b => b != 0))
    | _ => none
  | _ => none

/-- Decoder for `count` column descriptors of a Legacy row description: a
NUL-terminated name and 10 fixed bytes each. -/
def parseColumns_Legacy : Nat → List Nat → Option (List (List Nat) × List Nat)
  | 0, bs => some ([], bs)
  | count + 1, bs =>
    match bs.drop (bs.takeWhile (fun b => b != 0)).length with
    | 0 :: fixed =>
      if fixed.length < 10 then none
      else
        match parseColumns_Legacy count (fixed.drop 10) with
        | some (names, rest) => some (bs.takeWhile (fun b => b != 0) :: names, rest)
        | none => none
    | _ => none

/-- Decoder for the Legacy row description at the head of a stream: `P`, a
NUL-terminated cursor name, `T`, int16 count, then the column descriptors. -/
def parseRowDescription_Legacy (bs : List Nat) : Option (List (List Nat) × List Nat) :=
  match bs with
  | 80 :: afterP =>
    match afterP.drop (afterP.takeWhile (fun b => b != 0)).length with
    | 0 :: 84 :: c1 :: c0 :: cols => parseColumns_Legacy (beValue [c1, c0]) cols
    | _ => none
  | _ => none

/-- Decoder for a whole result set in the given protocol version: the row
description, the data rows, the completion pair, and nothing after it. -/
def parseResultSet : ProtoMajor → List Nat → Option ResultSet
  | PROTO_MAJOR_V3, bs =>
    match parseRowDescription_Current bs with
    | some (names, rest) =>
      match parseDataRows parseDataRow_Current (rest.length + 1) rest with
      | some (rows, left) =>
        match parseCompletion_Current left with
        | some command => some ⟨names, rows, command⟩
        | none => none
      | none => none
    | none => none
  | PROTO_MAJOR_V2, bs =>
    match parseRowDescription_Legacy bs with
    | some (names, rest) =>
      match parseDataRows (parseDataRow_Legacy names.length) (rest.length + 1) rest with
      | some (rows, left) =>
        match parseCompletion_Legacy left with
        | some command => some ⟨names, rows, command⟩
        | none => none
      | none => none
    | none => none

/-- The sink operations that follow the first write of the data-row tag `D`
in a trace. -/
def afterDataRowTag (trace : POOL_CONNECTION) : List SinkOp :=
  (trace.dropWhile (fun op => op != SinkOp.write [68])).drop 1

/-- The column names of `nodes_reporting` (lines 1328-1330). -/
def nodes_reporting_field_names : List (List Nat) :=
  [lit "node_id", lit "hostname", lit "port", lit "status", lit "lb_weight", lit "role",
    lit "select_cnt", lit "load_balance_node", lit "replication_delay",
    lit "replication_state", lit "replication_sync_state", lit "last_status_change"]

/-- The column names of `processes_reporting` (line 1615). -/
def processes_reporting_field_names : List (List Nat) :=
  [lit "pool_pid", lit "start_time", lit "database", lit "username", lit "create_time",
    lit "pool_counter"]

/-- The column names of `version_reporting` (line 1657). -/
def version_reporting_field_names : List (List Nat) :=
  [lit "pool_version"]

/-- The column names of `show_health_check_stats` (lines 1898-1902). -/
def show_health_check_stats_field_names : List (List Nat) :=
  [lit "node_id", lit "hostname", lit "port", lit "status", lit "role",
    lit "last_status_change", lit "total_count", lit "success_count", lit "fail_count",
    lit "skip_count", lit "retry_count", lit "average_retry_count", lit "max_retry_count",
    lit "max_duration", lit "min_duration", lit "average_duration", lit "last_health_check",
    lit "last_successful_health_check", lit "last_skip_health_check",
    lit "last_failed_health_check"]

/-- The column names of `show_backend_stats` (lines 2000-2002). -/
def show_backend_stats_field_names : List (List Nat) :=
  [lit "node_id", lit "hostname", lit "port", lit "status", lit "role", lit "select_cnt",
    lit "insert_cnt", lit "update_cnt", lit "delete_cnt", lit "ddl_cnt", lit "other_cnt",
    lit "panic_cnt", lit "fatal_cnt", lit "error_cnt"]

/-- The three strings of one configuration record, in column order: name,
value, description. -/
def config_row_strings (r : POOL_REPORT_CONFIG) : List (List Nat) :=
  [content r.name, content r.value, content r.desc]

/-- Splitter of a Current-version stream into frames: each frame is a tag
byte, a 4-byte big-endian length and `length - 4` body bytes; the frames must
consume the stream exactly.  Returns the tag and body of every frame.  Each
frame takes one unit of `fuel`. -/
def splitFrames : Nat → List Nat → Option (List (Nat × List Nat))
  | _, [] => some []
  | 0, _ :: _ => none
  | fuel + 1, tag :: l3 :: l2 :: l1 :: l0 :: after =>
    if beValue [l3, l2, l1, l0] < 4 ∨ after.length < beValue [l3, l2, l1, l0] - 4 then none
    else
      match splitFrames fuel (after.drop (beValue [l3, l2, l1, l0] - 4)) with
      | some frames => some ((tag, after.take (beValue [l3, l2, l1, l0] - 4)) :: frames)
      | none => none
  | _ + 1, _ => none

/-- The bytes of a frame with the given tag and body. -/
def frameBytes (frame : Nat × List Nat) : List Nat :=
  [frame.1] ++ be32 (frame.2.length + 4) ++ frame.2

/-- A sample environment for `get_nodes`: two backends in streaming mode, node
0 the primary, node `i` with a standby delay of `7 * i`. -/
def sampleNodesEnv : NodesEnv where
  NUM_BACKENDS := 2
  STREAM := true
  REAL_PRIMARY_NODE_ID := 0
  REAL_MAIN_NODE_ID := 0
  POOLCONFIG_MAXIDLEN := 4
  POOLCONFIG_MAXPORTLEN := 6
  POOLCONFIG_MAXSTATLEN := 20
  POOLCONFIG_MAXWEIGHTLEN := 20
  pool_get_node_info := fun i => ⟨lit "host", 5432, 7 * i, 0, lit "streaming", lit "async"⟩
  backend_status_to_str := fun _ => lit "up"
  stat_get_select_count := fun _ => 0
  load_balance_node_id := 0
  fmt_weight := fun _ => [48, 46, 53, 48, 48, 48, 48, 48]
  strftime_local := fun _ => lit "2020-01-01 00:00:00"

/-- The pool slot `pool` of child `child` that `get_processes` looks at: the
element `pool * MAX_NUM_BACKENDS` of the `connection_info` array of the child. -/
def processSlot (env : PoolsEnv) (child pool : Nat) : ConnectionInfo :=
  (env.pool_get_process_info (env.process_info_pid child)).connection_info
    (pool * env.MAX_NUM_BACKENDS)

/-- A slot qualifies when it is connected and its database and user names are
not empty. -/
def slotInUse (ci : ConnectionInfo) : Bool :=
  decide (ci.connected ≠ 0) && decide (0 < strlen ci.database) && decide (0 < strlen ci.user)

/-- A sample environment: two children with two pool slots each and two
backends; the slots are `MAX_NUM_BACKENDS = 4` elements apart.  Child 0 has
both slots in use, child 1 has none. -/
def samplePoolsEnv : PoolsEnv where
  num_init_children := 2
  max_pool := 2
  NUM_BACKENDS := 2
  MAX_NUM_BACKENDS := 4
  POOLCONFIG_MAXIDENTLEN := 64
  POOLCONFIG_MAXCOUNTLEN := 16
  POOLCONFIG_MAXDATELEN := 128
  process_info_pid := fun child => 1000 + (child : Int)
  pool_get_process_info := fun proc_id =>
    ⟨5, fun poolBE =>
      if proc_id = 1000 then
        (if poolBE = 0 then ⟨lit "db0", lit "alice", 3, 0, 77, 11, 1, 1⟩
        else if poolBE = 4 then ⟨lit "db1", lit "bob", 3, 0, 78, 12, 9, 1⟩
        else ⟨[0], [0], 0, 0, 0, 0, 0, 0⟩)
      else ⟨[0], [0], 0, 0, 0, 0, 0, 0⟩⟩
  ntohl := fun x => x
  strftime_local := fun _ => lit "2020-01-01 00:00:00"

/-- The row number the claim gives to the triple `(child, pool, backend_id)`. -/
def poolsRowNumber (env : PoolsEnv) (child pool backend_id : Nat) : Nat :=
  (child * env.max_pool.toNat + pool) * env.NUM_BACKENDS.toNat + backend_id

/-- The connection slot that row `(child, pool, backend_id)` of `get_pools`
reports: element `pool * MAX_NUM_BACKENDS + backend_id` of the
`connection_info` array of the child. -/
def poolsSlot (env : PoolsEnv) (child pool backend_id : Nat) : ConnectionInfo :=
  (env.pool_get_process_info (env.process_info_pid child)).connection_info
    (pool * env.MAX_NUM_BACKENDS + backend_id)

/-- The record that `get_pools` stores under the row number of
`(child, pool, backend_id)`. -/
def poolsRow (env : PoolsEnv) (child pool backend_id : Nat) : POOL_REPORT_POOLS :=
  (get_pools env).1.getD (poolsRowNumber env child pool backend_id) default

/-- A sample environment with one backend whose health check is enabled
(period 10) and whose counters are still all 0, as before the first health
check has run.  The sample `fmt_f_div` is only ever applied to the divisor 0
here and returns the text "-nan". -/
def sampleHealthCheckEnv : HealthCheckEnv where
  NUM_BACKENDS := 1
  STREAM := true
  REAL_PRIMARY_NODE_ID := 0
  REAL_MAIN_NODE_ID := 0
  POOLCONFIG_MAXIDLEN := 4
  POOLCONFIG_MAXPORTLEN := 6
  POOLCONFIG_MAXSTATLEN := 20
  POOLCONFIG_MAXWEIGHTLEN := 20
  POOLCONFIG_MAXLONGCOUNTLEN := 20
  POOLCONFIG_MAXCOUNTLEN := 16
  pool_get_node_info := fun _ => ⟨lit "host", 5432, 0, 0, lit "", lit ""⟩
  backend_status_to_str := fun _ => lit "up"
  health_check_stats := fun _ => ⟨0, 0, 0, 0, 0, 0, 0, 0, 0, 0, 0, 0, 0⟩
  health_check_period := fun _ => 10
  fmt_f_div := fun _ _ => [45, 110, 97, 110]
  strftime_local := fun _ => lit "2020-01-01 00:00:00"

/-- The number of bytes of the null map of a row of `num_fields` fields:
`(num_fields + 7) / 8`. -/
def nullmapBytes (num_fields : Int) : Nat :=
  ((num_fields + 7) / 8).toNat

/-! ## Basic facts about the sink and the primitives -/

theorem sent_append (a b : POOL_CONNECTION) : sent (a ++ b) = sent a ++ sent b := by
  induction a with
  | nil => simp [sent]
  | cons op rest ih =>
    cases op with
    | write bytes => simp [sent, ih]
    | flush => simp [sent, ih]

theorem sent_pool_write (frontend : POOL_CONNECTION) (buf : List Nat) (len : Nat) :
    sent (pool_write frontend buf len) = sent frontend ++ buf.take len := by
  simp [pool_write, sent_append, sent]

theorem sent_pool_flush (frontend : POOL_CONNECTION) :
    sent (pool_flush frontend) = sent frontend := by
  simp [pool_flush, sent_append, sent]

theorem sent_pool_write_and_flush (frontend : POOL_CONNECTION) (buf : List Nat) (len : Nat) :
    sent (pool_write_and_flush frontend buf len) = sent frontend ++ buf.take len := by
  simp [pool_write_and_flush, sent_pool_flush, sent_pool_write]

/-- A loop whose body only appends to the stream appends the concatenation of
what the iterations append. -/
theorem sent_foldl {α : Type} (body : POOL_CONNECTION → α → POOL_CONNECTION)
    (g : α → List Nat) (hbody : ∀ fe a, sent (body fe a) = sent fe ++ g a)
    (l : List α) (frontend : POOL_CONNECTION) :
    sent (l.foldl body frontend) = sent frontend ++ l.flatMap g := by
  induction l generalizing frontend with
  | nil => simp
  | cons a rest ih => simp [List.foldl_cons, ih, hbody, List.flatMap_cons]

theorem htonl_natCast (n : Nat) : htonl (n : Int) = be32 n := by
  have h : ((n : Int) % 4294967296).toNat = n % 4294967296 := by omega
  simp only [htonl, be32, h]
  have h1 : n % 4294967296 / 16777216 % 256 = n / 16777216 % 256 := by omega
  have h2 : n % 4294967296 / 65536 % 256 = n / 65536 % 256 := by omega
  have h3 : n % 4294967296 / 256 % 256 = n / 256 % 256 := by omega
  have h4 : n % 4294967296 % 256 = n % 256 := by omega
  rw [h1, h2, h3, h4]

theorem htons_natCast (n : Nat) : htons (n : Int) = be16 n := by
  have h : ((n : Int) % 65536).toNat = n % 65536 := by omega
  simp only [htons, be16, h]
  have h1 : n % 65536 / 256 % 256 = n / 256 % 256 := by omega
  have h2 : n % 65536 % 256 = n % 256 := by omega
  rw [h1, h2]

theorem beValue_be32 (n : Nat) (h : n < 4294967296) : beValue (be32 n) = n := by
  simp only [beValue, be32, List.foldl_cons, List.foldl_nil]
  omega

theorem beValue_be16 (n : Nat) (h : n < 65536) : beValue (be16 n) = n := by
  simp only [beValue, be16, List.foldl_cons, List.foldl_nil]
  omega

theorem content_length (p : List Nat) : (content p).length = strlen p := rfl

theorem take_strlen (p : List Nat) : p.take (strlen p) = content p := by
  induction p with
  | nil => rfl
  | cons b rest ih =>
    by_cases hb : b = 0
    · simp [strlen, content, hb]
    · simp only [strlen, content] at ih ⊢
      simp [List.takeWhile_cons, hb, ih]

theorem take_strlen_succ (p : List Nat) (h : 0 ∈ p) :
    p.take (strlen p + 1) = content p ++ [0] := by
  induction p with
  | nil => simp at h
  | cons b rest ih =>
    by_cases hb : b = 0
    · simp [strlen, content, hb]
    · have hr : 0 ∈ rest := by
        rcases List.mem_cons.mp h with h0 | h0
        · exact absurd h0.symm hb
        · exact h0
      simp only [strlen, content] at ih ⊢
      simp [List.takeWhile_cons, hb, ih hr]

theorem content_not_mem_zero (p : List Nat) : 0 ∉ content p := by
  intro h
  have := List.mem_takeWhile_imp h
  simp at this

theorem content_append_zero (c rest : List Nat) (hc : 0 ∉ c) :
    content (c ++ 0 :: rest) = c := by
  induction c with
  | nil => simp [content]
  | cons b t ih =>
    have hb : b ≠ 0 := fun h0 => hc (by simp [h0])
    have ht : 0 ∉ t := fun h0 => hc (List.mem_cons_of_mem _ h0)
    simp only [content] at ih ⊢
    simp [List.takeWhile_cons, hb, ih ht]

theorem sent_write_one_field (frontend : POOL_CONNECTION) (field : List Nat) :
    sent (write_one_field frontend field) =
      sent frontend ++ (be32 (strlen field) ++ content field) := by
  simp [write_one_field, sent_pool_write, htonl_natCast, take_strlen, be32]

theorem sent_write_one_field_v2 (frontend : POOL_CONNECTION) (field : List Nat) :
    sent (write_one_field_v2 frontend field) =
      sent frontend ++ (be32 (strlen field + 4) ++ content field) := by
  have h : ((strlen field : Int) + 4) = ((strlen field + 4 : Nat) : Int) := by push_cast; rfl
  simp only [write_one_field_v2, sent_pool_write, h, htonl_natCast, Int.toNat_ofNat, take_strlen]
  simp [be32]

/-- C3: for every text field whose content is `L` bytes long, `L` fitting a
signed 32-bit integer, `write_one_field` appends exactly `4 + L` bytes to the
stream: the 4-byte big-endian encoding of `L` and then the `L` content bytes,
none of which is the NUL terminator. -/
theorem write_one_field_length_then_content (frontend : POOL_CONNECTION)
    (c rest : List Nat) (hc : 0 ∉ c) (hL : c.length < 2147483648) :
    sent (write_one_field frontend (c ++ 0 :: rest)) = sent frontend ++ (be32 c.length ++ c) ∧
      (be32 c.length ++ c).length = 4 + c.length ∧
      (be32 c.length).length = 4 ∧
      (∀ b ∈ be32 c.length, b < 256) ∧
      beValue (be32 c.length) = c.length := by
  have hcont := content_append_zero c rest hc
  have hlen : strlen (c ++ 0 :: rest) = c.length := by rw [← content_length, hcont]
  refine ⟨?_, ?_, rfl, ?_, beValue_be32 _ (by omega)⟩
  · rw [sent_write_one_field, hlen, hcont]
  · simp [be32]; omega
  · intro b hb
    simp only [be32, List.mem_cons, List.mem_singleton, List.not_mem_nil, or_false] at hb
    omega

theorem write_one_field_length_then_content_witness :
    sent (write_one_field [] ([97, 98] ++ 0 :: [7])) = sent [] ++ (be32 2 ++ [97, 98]) ∧
      (be32 2 ++ [97, 98]).length = 4 + 2 ∧
      (be32 2).length = 4 ∧
      (∀ b ∈ be32 2, b < 256) ∧
      beValue (be32 2) = 2 :=
  write_one_field_length_then_content [] [97, 98] [7] (by decide) (by decide)

/-- C4: for every text field whose content is `L` bytes long (`L + 4` fitting a
signed 32-bit integer), `write_one_field_v2` appends exactly `4 + L` bytes to
the stream: the 4-byte big-endian encoding of `L + 4` and then the `L` content
bytes, none of which is the NUL terminator. -/
theorem write_one_field_v2_length_then_content (frontend : POOL_CONNECTION)
    (c rest : List Nat) (hc : 0 ∉ c) (hL : c.length + 4 < 2147483648) :
    sent (write_one_field_v2 frontend (c ++ 0 :: rest)) =
        sent frontend ++ (be32 (c.length + 4) ++ c) ∧
      (be32 (c.length + 4) ++ c).length = 4 + c.length ∧
      (be32 (c.length + 4)).length = 4 ∧
      (∀ b ∈ be32 (c.length + 4), b < 256) ∧
      beValue (be32 (c.length + 4)) = c.length + 4 := by
  have hcont := content_append_zero c rest hc
  have hlen : strlen (c ++ 0 :: rest) = c.length := by rw [← content_length, hcont]
  refine ⟨?_, ?_, rfl, ?_, beValue_be32 _ (by omega)⟩
  · rw [sent_write_one_field_v2, hlen, hcont]
  · simp [be32]; omega
  · intro b hb
    simp only [be32, List.mem_cons, List.mem_singleton, List.not_mem_nil, or_false] at hb
    omega

theorem write_one_field_v2_length_then_content_witness :
    sent (write_one_field_v2 [] ([97, 98] ++ 0 :: [7])) = sent [] ++ (be32 (2 + 4) ++ [97, 98]) ∧
      (be32 (2 + 4) ++ [97, 98]).length = 4 + 2 ∧
      (be32 (2 + 4)).length = 4 ∧
      (∀ b ∈ be32 (2 + 4), b < 256) ∧
      beValue (be32 (2 + 4)) = 2 + 4 :=
  write_one_field_v2_length_then_content [] [97, 98] [7] (by decide) (by decide)

/-! ## Loops over index ranges -/

theorem flatMap_range_getD {α β : Type} (g : Nat → α → List β) (d : α) (l : List α) (k : Nat) :
    (List.range l.length).flatMap (fun i => g (k + i) (l.getD i d)) = flatMapIdx g k l := by
  induction l generalizing k with
  | nil => simp [flatMapIdx]
  | cons a rest ih =>
    rw [List.length_cons, List.range_succ_eq_map, List.flatMap_cons, List.flatMap_map, flatMapIdx,
      ← ih (k + 1)]
    have hfun : (fun i => g (k + Nat.succ i) ((a :: rest).getD (Nat.succ i) d)) =
        (fun i => g (k + 1 + i) (rest.getD i d)) := by
      funext i
      have hk : k + Nat.succ i = k + 1 + i := by omega
      rw [hk, List.getD_cons_succ]
    simp only [Function.comp_def, hfun]
    simp

theorem flatMapIdx_congr {α β : Type} (g g' : Nat → α → List β) (l : List α)
    (h : ∀ a ∈ l, ∀ k, g k a = g' k a) (k : Nat) : flatMapIdx g k l = flatMapIdx g' k l := by
  induction l generalizing k with
  | nil => rfl
  | cons a rest ih =>
    simp only [flatMapIdx]
    rw [h a (List.mem_cons_self _ _) k, ih (fun b hb => h b (List.mem_cons_of_mem _ hb))]

theorem flatMapIdx_map {α β γ : Type} (g : Nat → β → List γ) (f : α → β) (l : List α) (k : Nat) :
    flatMapIdx g k (l.map f) = flatMapIdx (fun i a => g i (f a)) k l := by
  induction l generalizing k with
  | nil => rfl
  | cons a rest ih => simp only [List.map_cons, flatMapIdx, ih]

theorem flatMapIdx_const {α β : Type} (h : α → List β) (l : List α) (k : Nat) :
    flatMapIdx (fun _ a => h a) k l = l.flatMap h := by
  induction l generalizing k with
  | nil => rfl
  | cons a rest ih => simp only [flatMapIdx, List.flatMap_cons, ih]

theorem map_range_getD {α : Type} (d : α) (l : List α) :
    (List.range l.length).map (fun i => l.getD i d) = l := by
  induction l with
  | nil => rfl
  | cons a rest ih =>
    rw [List.length_cons, List.range_succ_eq_map, List.map_cons, List.map_map]
    have hfun : ((fun i => (a :: rest).getD i d) ∘ Nat.succ) = (fun i => rest.getD i d) := by
      funext i
      simp [Function.comp]
    rw [hfun, ih]
    simp

theorem foldl_add_cast {α : Type} (h : α → Nat) (l : List α) (init : Int) :
    l.foldl (fun (acc : Int) a => acc + ((h a : Nat) : Int)) init =
      init + (((l.map h).sum : Nat) : Int) := by
  induction l generalizing init with
  | nil => simp
  | cons a rest ih =>
    rw [List.foldl_cons, ih, List.map_cons, List.sum_cons]
    push_cast
    ring

/-! ## The row description -/

theorem send_row_description_len_eq (names : List (List Nat)) :
    send_row_description_len (names.length : Int) names =
      ((RowDescriptionLength (names.map content) : Nat) : Int) := by
  unfold send_row_description_len RowDescriptionLength
  rw [Int.toNat_ofNat]
  have h1 : (List.range names.length).foldl
      (fun (len : Int) i => len + ((strlen (names.getD i []) + 1 + 18 : Nat) : Int)) 6 =
      ((List.range names.length).map (fun i => names.getD i [])).foldl
      (fun (len : Int) p => len + ((strlen p + 1 + 18 : Nat) : Int)) 6 := by
    rw [List.foldl_map]
  rw [h1, map_range_getD, foldl_add_cast, List.map_map]
  have h2 : ((fun name : List Nat => name.length + 19) ∘ content) =
      (fun p => strlen p + 1 + 18) := by
    funext p
    simp [Function.comp, content_length]
  rw [h2]
  push_cast
  rfl

/-- The bytes one iteration of the column loop transmits. -/
theorem sent_send_row_description_col (major : ProtoMajor) (field_names : List (List Nat))
    (frontend : POOL_CONNECTION) (i : Nat) :
    sent (send_row_description_col major field_names frontend i) =
      sent frontend ++
        (match major with
         | PROTO_MAJOR_V2 =>
           (field_names.getD i []).take (strlen (field_names.getD i []) + 1) ++
             [0, 0, 0, 0] ++ [255, 255] ++ [0, 0, 0, 0]
         | PROTO_MAJOR_V3 =>
           (field_names.getD i []).take (strlen (field_names.getD i []) + 1) ++
             [0, 0, 0, 0] ++ be16 i ++ [0, 0, 0, 0] ++ [255, 255] ++ [0, 0, 0, 0] ++ [0, 0]) := by
  have hf : htons fsize = [255, 255] := by decide
  have h0 : htons 0 = [0, 0] := by decide
  cases major
  · simp [send_row_description_col, sent_pool_write, hf, oid, mod]
  · simp [send_row_description_col, sent_pool_write, hf, h0, oid, mod, htons_natCast, be16]

theorem sent_send_row_description (frontend : POOL_CONNECTION) (major : ProtoMajor)
    (field_names : List (List Nat)) (hnames : ∀ p ∈ field_names, 0 ∈ p) :
    sent (send_row_description frontend major (field_names.length : Int) field_names) =
      sent frontend ++ RowDescription major (field_names.map content) := by
  unfold send_row_description
  rw [sent_pool_flush, sent_foldl _ _ (sent_send_row_description_col major field_names),
    Int.toNat_ofNat, sent_pool_write, htons_natCast]
  cases major
  · have hloop : (List.range field_names.length).flatMap
        (fun i => (field_names.getD i []).take (strlen (field_names.getD i []) + 1) ++
             [0, 0, 0, 0] ++ [255, 255] ++ [0, 0, 0, 0]) =
        (field_names.map content).flatMap RowDescriptionColumn_Legacy := by
      have := flatMap_range_getD
        (fun (_ : Nat) (p : List Nat) => p.take (strlen p + 1) ++ [0, 0, 0, 0] ++ [255, 255] ++
          [0, 0, 0, 0]) [] field_names 0
      rw [this, flatMapIdx_congr _ (fun _ p => RowDescriptionColumn_Legacy (content p))
        field_names (fun p hp k => by
          simp only [RowDescriptionColumn_Legacy, take_strlen_succ p (hnames p hp)]),
        flatMapIdx_const, List.flatMap_map]
    have hP : (lit "P").take 1 = [80] := by decide
    have hT : (lit "T").take 1 = [84] := by decide
    have hc : cursorname.take (strlen cursorname + 1) = text "blank" ++ [0] := by decide
    have h2 : ∀ n, (be16 n).take 2 = be16 n := fun n => rfl
    simp only [if_true, if_false, reduceCtorEq, sent_pool_write, hloop, hP, hT, hc, h2,
      RowDescription, List.length_map]
    simp
  · have hloop : (List.range field_names.length).flatMap
        (fun i => (field_names.getD i []).take (strlen (field_names.getD i []) + 1) ++
             [0, 0, 0, 0] ++ be16 i ++ [0, 0, 0, 0] ++ [255, 255] ++ [0, 0, 0, 0] ++ [0, 0]) =
        flatMapIdx RowDescriptionColumn_Current 0 (field_names.map content) := by
      have := flatMap_range_getD
        (fun (i : Nat) (p : List Nat) => p.take (strlen p + 1) ++ [0, 0, 0, 0] ++ be16 i ++
          [0, 0, 0, 0] ++ [255, 255] ++ [0, 0, 0, 0] ++ [0, 0]) [] field_names 0
      simp only [Nat.zero_add] at this
      rw [this, flatMapIdx_congr _ (fun i p => RowDescriptionColumn_Current i (content p))
        field_names (fun p hp k => by
          simp only [RowDescriptionColumn_Current, take_strlen_succ p (hnames p hp)]),
        flatMapIdx_map]
    have hT : (lit "T").take 1 = [84] := by decide
    have h4 : ∀ n, (be32 n).take 4 = be32 n := fun n => rfl
    have h2 : ∀ n, (be16 n).take 2 = be16 n := fun n => rfl
    simp only [if_true, if_false, reduceCtorEq, sent_pool_write, hloop, hT, h2,
      RowDescription, List.length_map, send_row_description_len_eq, htonl_natCast, h4]
    simp

/-! ## Data rows -/

theorem sent_send_data_row_v3 (n : Nat) (offsettbl : List Nat) (data : List Nat)
    (row_size : Nat) (frontend : POOL_CONNECTION) (i : Nat) :
    sent (send_data_row_v3 (n : Int) offsettbl data row_size frontend i) =
      sent frontend ++ DataRow PROTO_MAJOR_V3 (rowFields n offsettbl data row_size i) := by
  unfold send_data_row_v3
  have hD : (lit "D").take 1 = [68] := by decide
  have h4 : ∀ k, (be32 k).take 4 = be32 k := fun k => rfl
  have h2 : ∀ k, (be16 k).take 2 = be16 k := fun k => rfl
  have hlen : (List.range n).foldl
      (fun (len : Int) j => len + ((4 + strlen (field_at offsettbl data row_size i j) : Nat) : Int))
      6 = ((DataRowLength (rowFields n offsettbl data row_size i) : Nat) : Int) := by
    rw [foldl_add_cast]
    unfold DataRowLength rowFields
    rw [List.map_map]
    have hfun : ((fun f : List Nat => 4 + f.length) ∘
        fun j => content (field_at offsettbl data row_size i j)) =
        (fun j => 4 + strlen (field_at offsettbl data row_size i j)) := by
      funext j
      simp [Function.comp, content_length]
    rw [hfun]
    push_cast
    rfl
  rw [sent_foldl _ _ (fun fe j => sent_write_one_field fe (field_at offsettbl data row_size i j))]
  simp only [Int.toNat_ofNat, sent_pool_write, hD, hlen, htonl_natCast, htons_natCast, h4, h2,
    DataRow, rowFields, List.length_map, List.length_range, List.flatMap_map, content_length]
  simp [Function.comp_def, content_length]

theorem sent_send_data_row_v2 (n : Nat) (offsettbl : List Nat) (data : List Nat)
    (row_size : Nat) (frontend : POOL_CONNECTION) (i : Nat) :
    sent (send_data_row_v2 (n : Int) offsettbl data row_size
        (List.replicate (((n : Int) + 7) / 8).toNat 255) (((n : Int) + 7) / 8) frontend i) =
      sent frontend ++ DataRow PROTO_MAJOR_V2 (rowFields n offsettbl data row_size i) := by
  unfold send_data_row_v2
  have hD : (lit "D").take 1 = [68] := by decide
  have hn : (((n : Int) + 7) / 8).toNat = (n + 7) / 8 := by omega
  rw [sent_foldl _ _
    (fun fe j => sent_write_one_field_v2 fe (field_at offsettbl data row_size i j))]
  simp only [Int.toNat_ofNat, sent_pool_write, sent_pool_write_and_flush, hD, hn,
    DataRow, rowFields, List.length_map, List.length_range, List.flatMap_map,
    List.take_replicate, Nat.min_self]
  simp [Function.comp_def, content_length]

/-! ## Completion -/

theorem fmt_d_natCast (n : Nat) : fmt_d (n : Int) = decimal n := by
  have h : ¬ ((n : Int) < 0) := by omega
  simp only [fmt_d, h, if_false, Int.toNat_ofNat, decimal, Nat.repr]
  rfl

theorem decimal_length_le (n : Nat) (h : n < 2147483648) : (decimal n).length ≤ 10 := by
  have hlt : n < 10 ^ 10 := by omega
  have := Nat.toDigitsCore_length 10 (by decide) (n + 1) n 10 hlt (by decide)
  simpa [decimal, Nat.repr, Nat.toDigits] using this

/-- With a non-negative count whose text fits the 64-byte buffer, the
completion pair carries the verb, a space and the count. -/
theorem sent_send_complete_and_ready_count (frontend : POOL_CONNECTION) (major : ProtoMajor)
    (message : List Nat) (num_rows : Nat)
    (hfit : strlen message + 1 + (decimal num_rows).length ≤ 63) :
    sent (send_complete_and_ready frontend major message (num_rows : Int)) =
      sent frontend ++
        (CommandComplete major (content message ++ [32] ++ decimal num_rows) ++
          ReadyForQuery major) := by
  unfold send_complete_and_ready
  have hge : ((num_rows : Int) ≥ 0) := by omega
  have hC : (lit "C").take 1 = [67] := by decide
  have hZ : (lit "Z").take 1 = [90] := by decide
  have hI : (lit "I").take 1 = [73] := by decide
  have h5 : (htonl 5).take 4 = be32 5 := by decide
  have h4 : ∀ k, (be32 k).take 4 = be32 k := fun k => rfl
  have hlen : (content message ++ [32] ++ decimal num_rows).length =
      strlen message + 1 + (decimal num_rows).length := by
    simp [content_length]
    omega
  have htake : (content message ++ [32] ++ decimal num_rows).take (64 - 1) =
      content message ++ [32] ++ decimal num_rows :=
    List.take_of_length_le (by omega)
  have hcast : (4 : Int) + ((content message ++ [32] ++ decimal num_rows).length : Int) + 1 =
      ((4 + (content message ++ [32] ++ decimal num_rows).length + 1 : Nat) : Int) := by
    push_cast; ring
  have htoNat : (((content message ++ [32] ++ decimal num_rows).length : Int) + 1).toNat =
      (content message ++ [32] ++ decimal num_rows).length + 1 := by omega
  simp only [hge, if_true, take_strlen, fmt_d_natCast, snprintf, htake, hcast, htoNat,
    sent_pool_flush]
  cases major
  · simp only [reduceCtorEq, if_false, sent_pool_write, hC, hZ, CommandComplete, ReadyForQuery]
    rw [List.take_of_length_le (by simp; omega)]
    simp
  · simp only [if_true, sent_pool_write, hC, hZ, hI, h5, h4, htonl_natCast, CommandComplete,
      ReadyForQuery]
    rw [List.take_of_length_le (by simp; omega)]
    simp

/-! ## The generic driver -/

/-- The stream of the generic driver, message by message. -/
theorem sent_send_row_description_and_data_rows (frontend : POOL_CONNECTION)
    (major : ProtoMajor) (field_names : List (List Nat)) (offsettbl : List Nat)
    (data : List Nat) (row_size : Nat) (nrows : Nat)
    (hnames : ∀ p ∈ field_names, 0 ∈ p) (hrows : nrows < 2147483648) :
    sent (send_row_description_and_data_rows frontend major (field_names.length : Int)
        field_names offsettbl data row_size (nrows : Int)) =
      sent frontend ++
        (RowDescription major (field_names.map content) ++
          (List.range nrows).flatMap
            (fun i => DataRow major (rowFields field_names.length offsettbl data row_size i)) ++
          (CommandComplete major (text "SELECT" ++ [32] ++ decimal nrows) ++
            ReadyForQuery major)) := by
  unfold send_row_description_and_data_rows
  have hdec := decimal_length_le nrows hrows
  have hsel : strlen (lit "SELECT") = 6 := by decide
  have hcon : content (lit "SELECT") = text "SELECT" := by decide
  rw [sent_send_complete_and_ready_count _ _ _ _ (by rw [hsel]; omega), hcon]
  cases major
  · simp only [if_true, Int.toNat_ofNat]
    rw [sent_foldl _ _ (sent_send_data_row_v2 field_names.length offsettbl data row_size),
      sent_send_row_description _ _ _ hnames]
    simp only [List.append_assoc]
  · simp only [reduceCtorEq, if_false, Int.toNat_ofNat]
    rw [sent_foldl _ _ (sent_send_data_row_v3 field_names.length offsettbl data row_size),
      sent_send_row_description _ _ _ hnames]
    simp only [List.append_assoc]

/-- C1: for either protocol version, every schema of `N` column names and
every row buffer of `R` rows, the generic driver appends to the stream exactly
one row-description message, then exactly `R` data-row messages (row `i`
carrying the fields of record `i`), then one command-complete message and one
ready-for-query message, in that order and with nothing in between. -/
theorem driver_emits_description_rows_completion (frontend : POOL_CONNECTION)
    (major : ProtoMajor) (field_names : List (List Nat)) (offsettbl : List Nat)
    (data : List Nat) (row_size : Nat) (nrows : Nat)
    (hnames : ∀ p ∈ field_names, 0 ∈ p) (hrows : nrows < 2147483648) :
    ((List.range nrows).map (rowFields field_names.length offsettbl data row_size)).length =
        nrows ∧
      sent (send_row_description_and_data_rows frontend major (field_names.length : Int)
          field_names offsettbl data row_size (nrows : Int)) =
        sent frontend ++
          (RowDescription major (field_names.map content) ++
            ((List.range nrows).map
              (rowFields field_names.length offsettbl data row_size)).flatMap (DataRow major) ++
            CommandComplete major (text "SELECT" ++ [32] ++ decimal nrows) ++
            ReadyForQuery major) := by
  refine ⟨by simp, ?_⟩
  rw [sent_send_row_description_and_data_rows _ _ _ _ _ _ _ hnames hrows, List.flatMap_map]
  simp only [List.append_assoc, Function.comp_def]

theorem driver_emits_description_rows_completion_witness :
    ((List.range 1).map (rowFields [lit "a", lit "b"].length [0, 2] [49, 0, 50, 50, 0] 5)).length =
        1 ∧
      sent (send_row_description_and_data_rows [] PROTO_MAJOR_V2 ([lit "a", lit "b"].length : Int)
          [lit "a", lit "b"] [0, 2] [49, 0, 50, 50, 0] 5 ((1 : Nat) : Int)) =
        sent [] ++
          (RowDescription PROTO_MAJOR_V2 ([lit "a", lit "b"].map content) ++
            ((List.range 1).map
              (rowFields [lit "a", lit "b"].length [0, 2] [49, 0, 50, 50, 0] 5)).flatMap
              (DataRow PROTO_MAJOR_V2) ++
            CommandComplete PROTO_MAJOR_V2 (text "SELECT" ++ [32] ++ decimal 1) ++
            ReadyForQuery PROTO_MAJOR_V2) :=
  driver_emits_description_rows_completion [] PROTO_MAJOR_V2 [lit "a", lit "b"] [0, 2]
    [49, 0, 50, 50, 0] 5 1 (by decide) (by decide)

set_option maxRecDepth 100000 in
/-- C2: `version_reporting` and `processes_reporting` call
`send_row_description` and then the generic driver, which sends the row
description again: for the version string "4.3.1 (92.1)" the stream of
`version_reporting` holds two row-description messages before the data row, in
both protocol versions, and so does the stream of `processes_reporting` for an
empty process table; neither is the stream with one row description. -/
theorem version_reporting_sends_row_description_twice :
    sent (version_reporting [] PROTO_MAJOR_V3 [0] (lit "4.3.1 (92.1)") 13) =
        RowDescription PROTO_MAJOR_V3 [text "pool_version"] ++
          RowDescription PROTO_MAJOR_V3 [text "pool_version"] ++
          DataRow PROTO_MAJOR_V3 [text "4.3.1 (92.1)"] ++
          CommandComplete PROTO_MAJOR_V3 (text "SELECT 1") ++ ReadyForQuery PROTO_MAJOR_V3 ∧
      sent (version_reporting [] PROTO_MAJOR_V3 [0] (lit "4.3.1 (92.1)") 13) ≠
        RowDescription PROTO_MAJOR_V3 [text "pool_version"] ++
          DataRow PROTO_MAJOR_V3 [text "4.3.1 (92.1)"] ++
          CommandComplete PROTO_MAJOR_V3 (text "SELECT 1") ++ ReadyForQuery PROTO_MAJOR_V3 ∧
      sent (version_reporting [] PROTO_MAJOR_V2 [0] (lit "4.3.1 (92.1)") 13) =
        RowDescription PROTO_MAJOR_V2 [text "pool_version"] ++
          RowDescription PROTO_MAJOR_V2 [text "pool_version"] ++
          DataRow PROTO_MAJOR_V2 [text "4.3.1 (92.1)"] ++
          CommandComplete PROTO_MAJOR_V2 (text "SELECT 1") ++ ReadyForQuery PROTO_MAJOR_V2 ∧
      sent (processes_reporting [] PROTO_MAJOR_V3 [0, 1, 2, 3, 4, 5] [] 6 0) =
        RowDescription PROTO_MAJOR_V3 [text "pool_pid", text "start_time", text "database",
            text "username", text "create_time", text "pool_counter"] ++
          RowDescription PROTO_MAJOR_V3 [text "pool_pid", text "start_time", text "database",
            text "username", text "create_time", text "pool_counter"] ++
          CommandComplete PROTO_MAJOR_V3 (text "SELECT 0") ++ ReadyForQuery PROTO_MAJOR_V3 := by
  decide

/-! ## The Current row description in detail -/

theorem length_flatMapIdx_RowDescriptionColumn_Current (names : List (List Nat)) (k : Nat) :
    (flatMapIdx RowDescriptionColumn_Current k names).length =
      (names.map (fun name => name.length + 19)).sum := by
  induction names generalizing k with
  | nil => rfl
  | cons name rest ih =>
    simp only [flatMapIdx, List.length_append, ih, List.map_cons, List.sum_cons,
      RowDescriptionColumn_Current, be16, List.length_cons, List.length_nil]

theorem length_after_tag_RowDescription_Current (names : List (List Nat)) :
    (be32 (RowDescriptionLength names) ++ be16 names.length ++
        flatMapIdx RowDescriptionColumn_Current 0 names).length =
      RowDescriptionLength names := by
  simp only [List.length_append, length_flatMapIdx_RowDescriptionColumn_Current, be32, be16,
    List.length_cons, List.length_nil, RowDescriptionLength]

theorem be32_lt (n : Nat) : ∀ b ∈ be32 n, b < 256 := by
  intro b hb
  simp only [be32, List.mem_cons, List.mem_singleton, List.not_mem_nil, or_false] at hb
  omega

theorem be16_lt (n : Nat) : ∀ b ∈ be16 n, b < 256 := by
  intro b hb
  simp only [be16, List.mem_cons, List.mem_singleton, List.not_mem_nil, or_false] at hb
  omega

/-- C5: for every Current-version call of `send_row_description` with `N`
column names (total size fitting a C `int`), the stream receives the tag `T`,
then 4 bytes that are the big-endian encoding of
`6 + Σ (name length + 19)`, then a body; the encoded value equals the number of
bytes emitted after the tag, the length field itself included. -/
theorem row_description_length_field (frontend : POOL_CONNECTION)
    (field_names : List (List Nat)) (hnames : ∀ p ∈ field_names, 0 ∈ p)
    (hfit : 6 + (field_names.map (fun p => strlen p + 19)).sum < 2147483648) :
    ∃ field body : List Nat,
      sent (send_row_description frontend PROTO_MAJOR_V3 (field_names.length : Int)
          field_names) = sent frontend ++ ([84] ++ field ++ body) ∧
      field.length = 4 ∧ (∀ b ∈ field, b < 256) ∧
      beValue field = 6 + (field_names.map (fun p => strlen p + 19)).sum ∧
      (field ++ body).length = beValue field := by
  have hL : RowDescriptionLength (field_names.map content) =
      6 + (field_names.map (fun p => strlen p + 19)).sum := by
    simp only [RowDescriptionLength, List.map_map]
    rfl
  refine ⟨be32 (RowDescriptionLength (field_names.map content)),
    be16 (field_names.map content).length ++
      flatMapIdx RowDescriptionColumn_Current 0 (field_names.map content), ?_, rfl,
    be32_lt _, ?_, ?_⟩
  · rw [sent_send_row_description _ _ _ hnames]
    simp only [RowDescription, List.append_assoc]
  · rw [beValue_be32 _ (by omega), hL]
  · rw [beValue_be32 _ (by omega), ← List.append_assoc,
      length_after_tag_RowDescription_Current]

theorem row_description_length_field_witness :
    ∃ field body : List Nat,
      sent (send_row_description [] PROTO_MAJOR_V3 ([lit "a", lit "bc"].length : Int)
          [lit "a", lit "bc"]) = sent [] ++ ([84] ++ field ++ body) ∧
      field.length = 4 ∧ (∀ b ∈ field, b < 256) ∧
      beValue field = 6 + ([lit "a", lit "bc"].map (fun p => strlen p + 19)).sum ∧
      (field ++ body).length = beValue field :=
  row_description_length_field [] [lit "a", lit "bc"] (by decide) (by decide)

/-- C6: for every Current-version call of `send_row_description` with `N`
column names, the bytes after the tag and the 4-byte length field are the
2-byte big-endian value `N` followed, for each column `i` in order (0-based),
by the name bytes and one NUL, 4 zero bytes, the 2-byte big-endian value `i`,
4 zero bytes, the bytes 0xFF 0xFF, 4 zero bytes and 2 zero bytes. -/
theorem row_description_current_layout (frontend : POOL_CONNECTION)
    (field_names : List (List Nat)) (hnames : ∀ p ∈ field_names, 0 ∈ p)
    (hcount : field_names.length < 32768) :
    (sent (send_row_description frontend PROTO_MAJOR_V3 (field_names.length : Int)
        field_names)).drop ((sent frontend).length + 5) =
      be16 field_names.length ++
        flatMapIdx
          (fun i name =>
            name ++ [0] ++ [0, 0, 0, 0] ++ be16 i ++ [0, 0, 0, 0] ++ [255, 255] ++
              [0, 0, 0, 0] ++ [0, 0])
          0 (field_names.map content) ∧
      beValue (be16 field_names.length) = field_names.length ∧
      (∀ i, i < field_names.length → beValue (be16 i) = i) := by
  refine ⟨?_, beValue_be16 _ (by omega), fun i hi => beValue_be16 _ (by omega)⟩
  rw [sent_send_row_description _ _ _ hnames]
  have hsplit : sent frontend ++ RowDescription PROTO_MAJOR_V3 (field_names.map content) =
      (sent frontend ++ ([84] ++ be32 (RowDescriptionLength (field_names.map content)))) ++
        (be16 field_names.length ++
          flatMapIdx RowDescriptionColumn_Current 0 (field_names.map content)) := by
    simp only [RowDescription, List.append_assoc, List.length_map]
  rw [hsplit, List.drop_left']
  · rfl
  · simp [be32]

theorem row_description_current_layout_witness :
    (sent (send_row_description [] PROTO_MAJOR_V3 ([lit "a", lit "bc"].length : Int)
        [lit "a", lit "bc"])).drop ((sent []).length + 5) =
      be16 [lit "a", lit "bc"].length ++
        flatMapIdx
          (fun i name =>
            name ++ [0] ++ [0, 0, 0, 0] ++ be16 i ++ [0, 0, 0, 0] ++ [255, 255] ++
              [0, 0, 0, 0] ++ [0, 0])
          0 ([lit "a", lit "bc"].map content) ∧
      beValue (be16 [lit "a", lit "bc"].length) = [lit "a", lit "bc"].length ∧
      (∀ i, i < [lit "a", lit "bc"].length → beValue (be16 i) = i) :=
  row_description_current_layout [] [lit "a", lit "bc"] (by decide) (by decide)

/-! ## Decoding the Current row description -/

theorem parseColumns_Current_flatMapIdx (names : List (List Nat))
    (hnul : ∀ c ∈ names, 0 ∉ c) (k : Nat) (rest : List Nat) :
    parseColumns_Current names.length
        (flatMapIdx RowDescriptionColumn_Current k names ++ rest) = some (names, rest) := by
  induction names generalizing k with
  | nil => simp [flatMapIdx, parseColumns_Current]
  | cons c cs ih =>
    have hc : 0 ∉ c := hnul c (List.mem_cons_self _ _)
    have hcs : ∀ d ∈ cs, 0 ∉ d := fun d hd => hnul d (List.mem_cons_of_mem _ hd)
    have hshape : flatMapIdx RowDescriptionColumn_Current k (c :: cs) ++ rest =
        c ++ 0 :: ([0, 0, 0, 0] ++ be16 k ++ [0, 0, 0, 0] ++ [255, 255] ++ [0, 0, 0, 0] ++
          [0, 0] ++ (flatMapIdx RowDescriptionColumn_Current (k + 1) cs ++ rest)) := by
      simp [flatMapIdx, RowDescriptionColumn_Current]
    have hname : List.takeWhile (fun b => b != 0)
        (c ++ 0 :: ([0, 0, 0, 0] ++ be16 k ++ [0, 0, 0, 0] ++ [255, 255] ++ [0, 0, 0, 0] ++
          [0, 0] ++ (flatMapIdx RowDescriptionColumn_Current (k + 1) cs ++ rest))) = c :=
      content_append_zero c _ hc
    rw [hshape, List.length_cons, parseColumns_Current]
    simp only [hname, List.drop_left]
    have hfixed : ¬ (([0, 0, 0, 0] ++ be16 k ++ [0, 0, 0, 0] ++ [255, 255] ++ [0, 0, 0, 0] ++
          [0, 0] ++ (flatMapIdx RowDescriptionColumn_Current (k + 1) cs ++ rest)).length < 18) := by
      simp [be16]
    have hdrop : ([0, 0, 0, 0] ++ be16 k ++ [0, 0, 0, 0] ++ [255, 255] ++ [0, 0, 0, 0] ++
          [0, 0] ++ (flatMapIdx RowDescriptionColumn_Current (k + 1) cs ++ rest)).drop 18 =
        flatMapIdx RowDescriptionColumn_Current (k + 1) cs ++ rest := by
      simp [be16]
    rw [if_neg hfixed, hdrop, ih hcs (k + 1)]

/-- C7: for every list of `N` column names, each a NUL-terminated string,
decoding the bytes of the Current-version `send_row_description` with the
decoder that follows the message layout (tag, int32 length, int16 count, per
column a NUL-terminated name and 18 fixed bytes) yields exactly the `N` names
in their original order and leaves no byte unread. -/
theorem row_description_current_roundtrip (field_names : List (List Nat))
    (hnames : ∀ p ∈ field_names, 0 ∈ p) (hcount : field_names.length < 32768)
    (hfit : 6 + (field_names.map (fun p => strlen p + 19)).sum < 2147483648) :
    parseRowDescription_Current
        (sent (send_row_description [] PROTO_MAJOR_V3 (field_names.length : Int) field_names)) =
      some (field_names.map content, []) := by
  have hL : RowDescriptionLength (field_names.map content) =
      6 + (field_names.map (fun p => strlen p + 19)).sum := by
    simp only [RowDescriptionLength, List.map_map]
    rfl
  have hlen := length_after_tag_RowDescription_Current (field_names.map content)
  have hnul : ∀ c ∈ field_names.map content, 0 ∉ c := by
    intro c hc
    rcases List.mem_map.mp hc with ⟨p, _, rfl⟩
    exact content_not_mem_zero p
  have hparse := parseColumns_Current_flatMapIdx (field_names.map content) hnul 0 []
  rw [List.append_nil, List.length_map] at hparse
  have hv32 := beValue_be32 (RowDescriptionLength (field_names.map content)) (by omega)
  have hv16 := beValue_be16 field_names.length (by omega)
  rw [sent_send_row_description _ _ _ hnames]
  generalize hcols : flatMapIdx RowDescriptionColumn_Current 0 (field_names.map content) = cols
    at hlen hparse
  generalize hLdef : RowDescriptionLength (field_names.map content) = L at hlen hv32 hL
  simp only [be32, be16, List.length_map, List.length_append, List.length_cons,
    List.length_nil] at hlen hv32 hv16
  simp only [sent, RowDescription, hcols, hLdef, be32, be16, List.length_map, List.nil_append,
    List.cons_append, parseRowDescription_Current, hv32]
  have hguard : ¬ (L < 4 ∨ (field_names.length / 256 % 256 ::
      field_names.length % 256 :: cols).length < L - 4) := by
    simp only [List.length_cons]
    omega
  have htake : (field_names.length / 256 % 256 :: field_names.length % 256 :: cols).take (L - 4) =
      field_names.length / 256 % 256 :: field_names.length % 256 :: cols :=
    List.take_of_length_le (by simp only [List.length_cons]; omega)
  have hdrop : (field_names.length / 256 % 256 :: field_names.length % 256 :: cols).drop (L - 4) =
      [] :=
    List.drop_of_length_le (by simp only [List.length_cons]; omega)
  rw [if_neg hguard]
  simp only [htake, hv16, hparse, hdrop]

theorem row_description_current_roundtrip_witness :
    parseRowDescription_Current
        (sent (send_row_description [] PROTO_MAJOR_V3 ([lit "a", lit "bc"].length : Int)
          [lit "a", lit "bc"])) =
      some ([lit "a", lit "bc"].map content, []) :=
  row_description_current_roundtrip [lit "a", lit "bc"] (by decide) (by decide) (by decide)

/-! ## The Legacy row description in detail -/

/-- C8: for every Legacy-version call of `send_row_description` with `N`
column names the stream receives `P`, the cursor name "blank" and one NUL,
then `T`, directly followed (no message length) by the 2-byte big-endian value
`N`, then per column the name bytes and one NUL followed by exactly 10 fixed
bytes: 4 zero bytes, 0xFF 0xFF, 4 zero bytes. -/
theorem row_description_legacy_layout (frontend : POOL_CONNECTION)
    (field_names : List (List Nat)) (hnames : ∀ p ∈ field_names, 0 ∈ p)
    (hcount : field_names.length < 32768) :
    sent (send_row_description frontend PROTO_MAJOR_V2 (field_names.length : Int)
        field_names) =
      sent frontend ++
        ([80] ++ content cursorname ++ [0] ++ [84] ++ be16 field_names.length ++
          (field_names.map content).flatMap
            (fun name => name ++ [0] ++ ([0, 0, 0, 0] ++ [255, 255] ++ [0, 0, 0, 0]))) ∧
      content cursorname = [98, 108, 97, 110, 107] ∧
      beValue (be16 field_names.length) = field_names.length ∧
      ([0, 0, 0, 0] ++ [255, 255] ++ [0, 0, 0, 0] : List Nat).length = 10 := by
  refine ⟨?_, by decide, beValue_be16 _ (by omega), rfl⟩
  rw [sent_send_row_description _ _ _ hnames]
  have hc : content cursorname = text "blank" := by decide
  have hcol : (fun name : List Nat => name ++ [0] ++ ([0, 0, 0, 0] ++ [255, 255] ++ [0, 0, 0, 0])) =
      RowDescriptionColumn_Legacy := by
    funext name
    simp [RowDescriptionColumn_Legacy]
  simp only [RowDescription, hc, hcol, List.length_map]

theorem row_description_legacy_layout_witness :
    sent (send_row_description [] PROTO_MAJOR_V2 ([lit "a", lit "bc"].length : Int)
        [lit "a", lit "bc"]) =
      sent [] ++
        ([80] ++ content cursorname ++ [0] ++ [84] ++ be16 [lit "a", lit "bc"].length ++
          ([lit "a", lit "bc"].map content).flatMap
            (fun name => name ++ [0] ++ ([0, 0, 0, 0] ++ [255, 255] ++ [0, 0, 0, 0]))) ∧
      content cursorname = [98, 108, 97, 110, 107] ∧
      beValue (be16 [lit "a", lit "bc"].length) = [lit "a", lit "bc"].length ∧
      ([0, 0, 0, 0] ++ [255, 255] ++ [0, 0, 0, 0] : List Nat).length = 10 :=
  row_description_legacy_layout [] [lit "a", lit "bc"] (by decide) (by decide)

/-- C9, as stated, fails: for the single column "a" the Legacy row
description is not the encoding with a table-oid and a data-type-oid
placeholder (14 fixed bytes); the column takes 2 + 10 bytes, not 2 + 14. -/
theorem row_description_legacy_not_two_oids :
    sent (send_row_description [] PROTO_MAJOR_V2 1 [lit "a"]) ≠
        [80] ++ text "blank" ++ [0] ++ [84] ++ be16 1 ++
          RowDescriptionColumn_LegacyProse (text "a") ∧
      (sent (send_row_description [] PROTO_MAJOR_V2 1 [lit "a"])).length = 10 + (2 + 10) ∧
      ([80] ++ text "blank" ++ [0] ++ [84] ++ be16 1 ++
          RowDescriptionColumn_LegacyProse (text "a")).length = 10 + (2 + 14) := by
  decide

theorem length_flatMap_RowDescriptionColumn_Legacy (names : List (List Nat)) :
    (names.flatMap RowDescriptionColumn_Legacy).length =
      (names.map (fun name => name.length + 11)).sum := by
  induction names with
  | nil => rfl
  | cons name rest ih =>
    simp only [List.flatMap_cons, List.length_append, ih, List.map_cons, List.sum_cons,
      RowDescriptionColumn_Legacy, List.length_cons, List.length_nil]

/-- C9, amended: for every Legacy-version call of `send_row_description`, each
column (the one after any columns `pre` and before any columns `post`) is
encoded, at its place in the stream, as the name and one NUL followed by a
4-byte data-type-oid placeholder of value 0, a 2-byte field size of value -1
and a 4-byte type modifier of value 0: 10 fixed bytes per column, with no
table-oid placeholder; the whole message has 10 + Σ (name length + 11) bytes. -/
theorem row_description_legacy_column (frontend : POOL_CONNECTION)
    (pre : List (List Nat)) (p : List Nat) (post : List (List Nat))
    (hnames : ∀ q ∈ pre ++ p :: post, 0 ∈ q) :
    ((sent (send_row_description frontend PROTO_MAJOR_V2 ((pre ++ p :: post).length : Int)
          (pre ++ p :: post))).drop
        ((sent frontend).length + 10 + (pre.map (fun q => strlen q + 11)).sum)).take
        (strlen p + 11) =
      content p ++ [0] ++ [0, 0, 0, 0] ++ [255, 255] ++ [0, 0, 0, 0] ∧
      beValue [0, 0, 0, 0] = 0 ∧ signed16 [255, 255] = -1 ∧
      (sent (send_row_description frontend PROTO_MAJOR_V2 ((pre ++ p :: post).length : Int)
          (pre ++ p :: post))).length =
        (sent frontend).length + 10 + ((pre ++ p :: post).map (fun q => strlen q + 11)).sum := by
  have hsum : ∀ l : List (List Nat), (l.map (fun q => strlen q + 11)).sum =
      ((l.map content).map (fun name => name.length + 11)).sum := by
    intro l
    rw [List.map_map]
    rfl
  have hhead : ([80] ++ text "blank" ++ [0] ++ [84] ++
      be16 (List.map content (pre ++ p :: post)).length).length = 10 := by
    simp [be16, text]
  refine ⟨?_, by decide, by decide, ?_⟩
  · rw [sent_send_row_description _ _ _ hnames]
    have hsplit : sent frontend ++ RowDescription PROTO_MAJOR_V2 ((pre ++ p :: post).map content) =
        (sent frontend ++ ([80] ++ text "blank" ++ [0] ++ [84] ++
            be16 (List.map content (pre ++ p :: post)).length) ++
          (pre.map content).flatMap RowDescriptionColumn_Legacy) ++
        (RowDescriptionColumn_Legacy (content p) ++
          (post.map content).flatMap RowDescriptionColumn_Legacy) := by
      simp only [RowDescription, List.map_append, List.map_cons, List.flatMap_append,
        List.flatMap_cons, List.append_assoc]
    rw [hsplit, List.drop_left', List.take_left']
    · simp [RowDescriptionColumn_Legacy]
    · simp [RowDescriptionColumn_Legacy, content_length]
    · rw [List.length_append, List.length_append, hhead,
        length_flatMap_RowDescriptionColumn_Legacy, hsum]
  · rw [sent_send_row_description _ _ _ hnames, List.length_append, hsum]
    simp only [RowDescription, List.length_append] at hhead ⊢
    rw [length_flatMap_RowDescriptionColumn_Legacy]
    omega

theorem row_description_legacy_column_witness :
    ((sent (send_row_description [] PROTO_MAJOR_V2 (([lit "a"] ++ lit "bc" :: []).length : Int)
          ([lit "a"] ++ lit "bc" :: []))).drop
        ((sent []).length + 10 + ([lit "a"].map (fun q => strlen q + 11)).sum)).take
        (strlen (lit "bc") + 11) =
      content (lit "bc") ++ [0] ++ [0, 0, 0, 0] ++ [255, 255] ++ [0, 0, 0, 0] ∧
      beValue [0, 0, 0, 0] = 0 ∧ signed16 [255, 255] = -1 ∧
      (sent (send_row_description [] PROTO_MAJOR_V2 (([lit "a"] ++ lit "bc" :: []).length : Int)
          ([lit "a"] ++ lit "bc" :: []))).length =
        (sent []).length + 10 + (([lit "a"] ++ lit "bc" :: []).map (fun q => strlen q + 11)).sum :=
  row_description_legacy_column [] [lit "a"] (lit "bc") [] (by decide)

/-! ## The Current data row in detail -/

/-- What `send_complete_and_ready` appends does not depend on the stream so far. -/
theorem sent_send_complete_and_ready_frame (frontend : POOL_CONNECTION) (major : ProtoMajor)
    (message : List Nat) (num_rows : Int) :
    sent (send_complete_and_ready frontend major message num_rows) =
      sent frontend ++ sent (send_complete_and_ready [] major message num_rows) := by
  unfold send_complete_and_ready
  have hnil : sent ([] : POOL_CONNECTION) = [] := rfl
  cases major <;>
    simp only [reduceCtorEq, if_true, if_false, sent_pool_flush, sent_pool_write, hnil,
      List.nil_append, List.append_assoc]

theorem length_DataRow_Current (fields : List (List Nat)) :
    (DataRow PROTO_MAJOR_V3 fields).length = 1 + DataRowLength fields := by
  have h4 : ∀ k, (be32 k).length = 4 := fun k => rfl
  have h2 : ∀ k, (be16 k).length = 2 := fun k => rfl
  have hsum : ∀ l : List (List Nat), (l.flatMap (fun f => be32 f.length ++ f)).length =
      (l.map (fun f => 4 + f.length)).sum := by
    intro l
    induction l with
    | nil => rfl
    | cons f rest ih =>
      simp only [List.flatMap_cons, List.length_append, ih, List.map_cons, List.sum_cons, h4]
  simp only [DataRow, DataRowLength, List.length_append, hsum, h4, h2, List.length_cons,
    List.length_nil]
  omega

/-- C10: under the Current version the stream of the generic driver is the row
description, then one block per row, then the completion pair; the block of
every row `i` is `D`, then the 4-byte big-endian encoding of
`6 + Σ (4 + content length)` over its `N` fields, then the 2-byte big-endian
value `N`, then the `N` fields each as `write_one_field` emits it; the encoded
length equals the number of bytes of the block after the tag. -/
theorem data_row_current_layout (frontend : POOL_CONNECTION) (field_names : List (List Nat))
    (offsettbl : List Nat) (data : List Nat) (row_size : Nat) (n nrows : Nat)
    (hn : n < 32768)
    (hfit : ∀ i, i < nrows →
      6 + ((List.range n).map
        (fun j => 4 + strlen (field_at offsettbl data row_size i j))).sum < 2147483648) :
    sent (send_row_description_and_data_rows frontend PROTO_MAJOR_V3 (n : Int) field_names
        offsettbl data row_size (nrows : Int)) =
      sent (send_row_description frontend PROTO_MAJOR_V3 (n : Int) field_names) ++
        (List.range nrows).flatMap
          (fun i => sent (send_data_row_v3 (n : Int) offsettbl data row_size [] i)) ++
        sent (send_complete_and_ready [] PROTO_MAJOR_V3 (lit "SELECT") (nrows : Int)) ∧
      beValue (be16 n) = n ∧
      ∀ i, i < nrows →
        sent (send_data_row_v3 (n : Int) offsettbl data row_size [] i) =
          [68] ++
            be32 (6 + ((List.range n).map
              (fun j => 4 + strlen (field_at offsettbl data row_size i j))).sum) ++
            be16 n ++
            (List.range n).flatMap
              (fun j => sent (write_one_field [] (field_at offsettbl data row_size i j))) ∧
        beValue (be32 (6 + ((List.range n).map
              (fun j => 4 + strlen (field_at offsettbl data row_size i j))).sum)) =
          6 + ((List.range n).map
              (fun j => 4 + strlen (field_at offsettbl data row_size i j))).sum ∧
        (sent (send_data_row_v3 (n : Int) offsettbl data row_size [] i)).length =
          1 + (6 + ((List.range n).map
              (fun j => 4 + strlen (field_at offsettbl data row_size i j))).sum) := by
  have hL : ∀ i, DataRowLength (rowFields n offsettbl data row_size i) =
      6 + ((List.range n).map
        (fun j => 4 + strlen (field_at offsettbl data row_size i j))).sum := by
    intro i
    simp only [DataRowLength, rowFields, List.map_map]
    rfl
  have hnil : sent ([] : POOL_CONNECTION) = [] := rfl
  refine ⟨?_, beValue_be16 _ (by omega), ?_⟩
  · unfold send_row_description_and_data_rows
    rw [sent_send_complete_and_ready_frame]
    simp only [reduceCtorEq, if_false, Int.toNat_ofNat]
    rw [sent_foldl _ (fun i => sent (send_data_row_v3 (n : Int) offsettbl data row_size [] i))
      (fun fe i => by
        show sent (send_data_row_v3 (n : Int) offsettbl data row_size fe i) =
          sent fe ++ sent (send_data_row_v3 (n : Int) offsettbl data row_size [] i)
        rw [sent_send_data_row_v3 n offsettbl data row_size fe i,
          sent_send_data_row_v3 n offsettbl data row_size [] i, hnil, List.nil_append])]
  · intro i hi
    refine ⟨?_, beValue_be32 _ (by have := hfit i hi; omega), ?_⟩
    · rw [sent_send_data_row_v3, ← hL i]
      simp only [hnil, List.nil_append, DataRow, rowFields, List.length_map, List.length_range,
        List.flatMap_map, sent_write_one_field, content_length, Function.comp_def]
    · rw [sent_send_data_row_v3, ← hL i]
      simp only [hnil, List.nil_append, length_DataRow_Current]

theorem data_row_current_layout_witness :
    sent (send_row_description_and_data_rows [] PROTO_MAJOR_V3 ((2 : Nat) : Int)
        [lit "a", lit "b"] [0, 2] [49, 0, 50, 50, 0] 5 ((1 : Nat) : Int)) =
      sent (send_row_description [] PROTO_MAJOR_V3 ((2 : Nat) : Int) [lit "a", lit "b"]) ++
        (List.range 1).flatMap
          (fun i => sent (send_data_row_v3 ((2 : Nat) : Int) [0, 2] [49, 0, 50, 50, 0] 5 [] i)) ++
        sent (send_complete_and_ready [] PROTO_MAJOR_V3 (lit "SELECT") ((1 : Nat) : Int)) ∧
      beValue (be16 2) = 2 ∧
      ∀ i, i < 1 →
        sent (send_data_row_v3 ((2 : Nat) : Int) [0, 2] [49, 0, 50, 50, 0] 5 [] i) =
          [68] ++
            be32 (6 + ((List.range 2).map
              (fun j => 4 + strlen (field_at [0, 2] [49, 0, 50, 50, 0] 5 i j))).sum) ++
            be16 2 ++
            (List.range 2).flatMap
              (fun j => sent (write_one_field [] (field_at [0, 2] [49, 0, 50, 50, 0] 5 i j))) ∧
        beValue (be32 (6 + ((List.range 2).map
              (fun j => 4 + strlen (field_at [0, 2] [49, 0, 50, 50, 0] 5 i j))).sum)) =
          6 + ((List.range 2).map
              (fun j => 4 + strlen (field_at [0, 2] [49, 0, 50, 50, 0] 5 i j))).sum ∧
        (sent (send_data_row_v3 ((2 : Nat) : Int) [0, 2] [49, 0, 50, 50, 0] 5 [] i)).length =
          1 + (6 + ((List.range 2).map
              (fun j => 4 + strlen (field_at [0, 2] [49, 0, 50, 50, 0] 5 i j))).sum) :=
  data_row_current_layout [] [lit "a", lit "b"] [0, 2] [49, 0, 50, 50, 0] 5 2 1 (by decide)
    (by decide)

/-! ## The Legacy data row in detail -/

/-- C11: under the Legacy version the stream of the generic driver is the row
description, then one block per row, then the completion pair; the block of
every row is `D`, directly followed by a null bitmap of exactly `⌈N/8⌉` bytes,
each equal to 0xFF, and then by the `N` fields each as `write_one_field_v2`
emits it; there is no length field and no field count. -/
theorem data_row_legacy_layout (frontend : POOL_CONNECTION) (field_names : List (List Nat))
    (offsettbl : List Nat) (data : List Nat) (row_size : Nat) (n nrows : Nat) :
    sent (send_row_description_and_data_rows frontend PROTO_MAJOR_V2 (n : Int) field_names
        offsettbl data row_size (nrows : Int)) =
      sent (send_row_description frontend PROTO_MAJOR_V2 (n : Int) field_names) ++
        (List.range nrows).flatMap
          (fun i => [68] ++ List.replicate ((n + 7) / 8) 255 ++
            (List.range n).flatMap
              (fun j => sent (write_one_field_v2 [] (field_at offsettbl data row_size i j)))) ++
        sent (send_complete_and_ready [] PROTO_MAJOR_V2 (lit "SELECT") (nrows : Int)) ∧
      (List.replicate ((n + 7) / 8) 255).length = (n + 7) / 8 ∧
      n ≤ 8 * ((n + 7) / 8) ∧ 8 * ((n + 7) / 8) < n + 8 ∧
      ∀ b ∈ List.replicate ((n + 7) / 8) 255, b = 255 := by
  have hnil : sent ([] : POOL_CONNECTION) = [] := rfl
  refine ⟨?_, by simp, by omega, by omega, fun b hb => (List.mem_replicate.mp hb).2⟩
  unfold send_row_description_and_data_rows
  rw [sent_send_complete_and_ready_frame]
  simp only [if_true, Int.toNat_ofNat]
  rw [sent_foldl _ _ (sent_send_data_row_v2 n offsettbl data row_size)]
  simp only [DataRow, rowFields, List.length_map, List.length_range, List.flatMap_map,
    sent_write_one_field_v2, content_length, hnil, List.nil_append, Function.comp_def]

/-! ## The completion pair in detail -/

/-- With a negative count and a verb that fits the 64-byte buffer, the
completion pair carries the verb alone. -/
theorem sent_send_complete_and_ready_neg (frontend : POOL_CONNECTION) (major : ProtoMajor)
    (message : List Nat) (num_rows : Int) (hneg : num_rows < 0)
    (hfit : strlen message ≤ 63) :
    sent (send_complete_and_ready frontend major message num_rows) =
      sent frontend ++ (CommandComplete major (content message) ++ ReadyForQuery major) := by
  unfold send_complete_and_ready
  have hge : ¬ (num_rows ≥ 0) := by omega
  have hC : (lit "C").take 1 = [67] := by decide
  have hZ : (lit "Z").take 1 = [90] := by decide
  have hI : (lit "I").take 1 = [73] := by decide
  have h5 : (htonl 5).take 4 = be32 5 := by decide
  have h4 : ∀ k, (be32 k).take 4 = be32 k := fun k => rfl
  have htake : (content message).take (64 - 1) = content message :=
    List.take_of_length_le (by rw [content_length]; omega)
  have hcast : (4 : Int) + ((content message).length : Int) + 1 =
      ((4 + (content message).length + 1 : Nat) : Int) := by
    push_cast; ring
  have htoNat : (((content message).length : Int) + 1).toNat = (content message).length + 1 := by
    omega
  simp only [hge, if_false, take_strlen, snprintf, htake, hcast, htoNat, sent_pool_flush]
  cases major
  · simp only [reduceCtorEq, if_false, sent_pool_write, hC, hZ, CommandComplete, ReadyForQuery]
    rw [List.take_of_length_le (by simp)]
    simp
  · simp only [if_true, sent_pool_write, hC, hZ, hI, h5, h4, htonl_natCast, CommandComplete,
      ReadyForQuery]
    rw [List.take_of_length_le (by simp)]
    simp

/-- The completion pair for any count, provided the command text fits the
64-byte buffer. -/
theorem sent_send_complete_and_ready (frontend : POOL_CONNECTION) (major : ProtoMajor)
    (message : List Nat) (num_rows : Int)
    (hfit : (commandText (content message) num_rows).length ≤ 63) :
    sent (send_complete_and_ready frontend major message num_rows) =
      sent frontend ++
        (CommandComplete major (commandText (content message) num_rows) ++
          ReadyForQuery major) := by
  by_cases hneg : num_rows < 0
  · simp only [commandText, hneg, if_true] at hfit ⊢
    exact sent_send_complete_and_ready_neg frontend major message num_rows hneg
      (by rw [← content_length]; exact hfit)
  · simp only [commandText, hneg, if_false] at hfit ⊢
    have hcast : num_rows = ((num_rows.toNat : Nat) : Int) := by omega
    have hlen : (content message ++ [32] ++ decimal num_rows.toNat).length =
        strlen message + 1 + (decimal num_rows.toNat).length := by
      simp [content_length]
      omega
    have := sent_send_complete_and_ready_count frontend major message num_rows.toNat
      (by omega)
    rw [← hcast] at this
    exact this

/-- C12: in `send_complete_and_ready`, for every verb and row count whose
formatted text fits the 64-byte buffer, the command text carried by the
command-complete message is exactly the verb when the count is negative, and
the verb, one space and the decimal representation of the count when the
count is zero or more; the verb "SELECT" with count -1 gives exactly "SELECT". -/
theorem command_text_policy (frontend : POOL_CONNECTION) (major : ProtoMajor)
    (message : List Nat) (num_rows : Int)
    (hfit : (commandText (content message) num_rows).length ≤ 63) :
    sent (send_complete_and_ready frontend major message num_rows) =
        sent frontend ++
          (CommandComplete major (commandText (content message) num_rows) ++
            ReadyForQuery major) ∧
      (num_rows < 0 → commandText (content message) num_rows = content message) ∧
      (0 ≤ num_rows → commandText (content message) num_rows =
        content message ++ [32] ++ decimal num_rows.toNat) ∧
      commandText (content (lit "SELECT")) (-1) = text "SELECT" ∧
      commandText (content (lit "SELECT")) 0 = text "SELECT 0" := by
  refine ⟨sent_send_complete_and_ready frontend major message num_rows hfit, ?_, ?_,
    by decide, by decide⟩
  · intro hneg
    simp only [commandText, hneg, if_true]
  · intro hpos
    have hneg : ¬ (num_rows < 0) := by omega
    simp only [commandText, hneg, if_false]

theorem command_text_policy_witness :
    sent (send_complete_and_ready [] PROTO_MAJOR_V3 (lit "SELECT") (-1)) =
        sent [] ++
          (CommandComplete PROTO_MAJOR_V3 (commandText (content (lit "SELECT")) (-1)) ++
            ReadyForQuery PROTO_MAJOR_V3) ∧
      ((-1 : Int) < 0 → commandText (content (lit "SELECT")) (-1) = content (lit "SELECT")) ∧
      (0 ≤ (-1 : Int) → commandText (content (lit "SELECT")) (-1) =
        content (lit "SELECT") ++ [32] ++ decimal (-1 : Int).toNat) ∧
      commandText (content (lit "SELECT")) (-1) = text "SELECT" ∧
      commandText (content (lit "SELECT")) 0 = text "SELECT 0" :=
  command_text_policy [] PROTO_MAJOR_V3 (lit "SELECT") (-1) (by decide)

/-- C13: in `send_complete_and_ready` the command-complete message is, for the
Current version, `C`, the 4-byte big-endian encoding of
`4 + text length + 1`, then the text and one NUL; for the Legacy version it is
`C` directly followed by the text and one NUL; the ready-for-query message
follows. -/
theorem command_complete_layout (frontend : POOL_CONNECTION)
    (message : List Nat) (num_rows : Int)
    (hfit : (commandText (content message) num_rows).length ≤ 63) :
    sent (send_complete_and_ready frontend PROTO_MAJOR_V3 message num_rows) =
        sent frontend ++
          ([67] ++ be32 (4 + (commandText (content message) num_rows).length + 1) ++
            commandText (content message) num_rows ++ [0]) ++
          ReadyForQuery PROTO_MAJOR_V3 ∧
      beValue (be32 (4 + (commandText (content message) num_rows).length + 1)) =
        4 + (commandText (content message) num_rows).length + 1 ∧
      sent (send_complete_and_ready frontend PROTO_MAJOR_V2 message num_rows) =
        sent frontend ++ ([67] ++ commandText (content message) num_rows ++ [0]) ++
          ReadyForQuery PROTO_MAJOR_V2 := by
  refine ⟨?_, beValue_be32 _ (by omega), ?_⟩
  · rw [sent_send_complete_and_ready _ _ _ _ hfit]
    simp only [CommandComplete, List.append_assoc]
  · rw [sent_send_complete_and_ready _ _ _ _ hfit]
    simp only [CommandComplete, List.append_assoc]

theorem command_complete_layout_witness :
    sent (send_complete_and_ready [] PROTO_MAJOR_V3 (lit "SELECT") 12) =
        sent [] ++
          ([67] ++ be32 (4 + (commandText (content (lit "SELECT")) 12).length + 1) ++
            commandText (content (lit "SELECT")) 12 ++ [0]) ++
          ReadyForQuery PROTO_MAJOR_V3 ∧
      beValue (be32 (4 + (commandText (content (lit "SELECT")) 12).length + 1)) =
        4 + (commandText (content (lit "SELECT")) 12).length + 1 ∧
      sent (send_complete_and_ready [] PROTO_MAJOR_V2 (lit "SELECT") 12) =
        sent [] ++ ([67] ++ commandText (content (lit "SELECT")) 12 ++ [0]) ++
          ReadyForQuery PROTO_MAJOR_V2 :=
  command_complete_layout [] (lit "SELECT") 12 (by decide)

/-- C14: for every verb and count, what `send_complete_and_ready` appends to
the stream is a block that starts with the command-complete tag `C`,
immediately followed by the ready-for-query message, which ends the output:
exactly the 6 bytes `Z`, 0, 0, 0, 5, `I` for the Current version and exactly
the single byte `Z` for the Legacy version. -/
theorem ready_for_query_bytes (frontend : POOL_CONNECTION) (message : List Nat)
    (num_rows : Int) :
    (∃ complete : List Nat, complete.take 1 = [67] ∧
      sent (send_complete_and_ready frontend PROTO_MAJOR_V3 message num_rows) =
        sent frontend ++ complete ++ [90, 0, 0, 0, 5, 73]) ∧
    (∃ complete : List Nat, complete.take 1 = [67] ∧
      sent (send_complete_and_ready frontend PROTO_MAJOR_V2 message num_rows) =
        sent frontend ++ complete ++ [90]) := by
  have hC : (lit "C").take 1 = [67] := by decide
  have hZ : (lit "Z").take 1 = [90] := by decide
  have hI : (lit "I").take 1 = [73] := by decide
  have h5 : (htonl 5).take 4 = [0, 0, 0, 5] := by decide
  constructor
  · refine ⟨[67] ++ (htonl (4 + (if num_rows ≥ 0 then
        snprintf 64 (message.take (strlen message) ++ [32] ++ fmt_d num_rows)
        else snprintf 64 (message.take (strlen message))).2 + 1)).take 4 ++
      (if num_rows ≥ 0 then
        snprintf 64 (message.take (strlen message) ++ [32] ++ fmt_d num_rows)
        else snprintf 64 (message.take (strlen message))).1.take
        ((if num_rows ≥ 0 then
        snprintf 64 (message.take (strlen message) ++ [32] ++ fmt_d num_rows)
        else snprintf 64 (message.take (strlen message))).2 + 1).toNat, by simp, ?_⟩
    unfold send_complete_and_ready
    simp only [if_true, sent_pool_flush, sent_pool_write, hC, hZ, hI, h5, List.append_assoc,
      List.singleton_append, List.cons_append, List.nil_append]
  · refine ⟨[67] ++
      (if num_rows ≥ 0 then
        snprintf 64 (message.take (strlen message) ++ [32] ++ fmt_d num_rows)
        else snprintf 64 (message.take (strlen message))).1.take
        ((if num_rows ≥ 0 then
        snprintf 64 (message.take (strlen message) ++ [32] ++ fmt_d num_rows)
        else snprintf 64 (message.take (strlen message))).2 + 1).toNat, by simp, ?_⟩
    unfold send_complete_and_ready
    simp only [reduceCtorEq, if_false, sent_pool_flush, sent_pool_write, hC, hZ,
      List.append_assoc, List.singleton_append, List.cons_append, List.nil_append]

/-! ## Scenarios of the generic driver -/

set_option maxRecDepth 100000 in
/-- C15: for every schema and either protocol version, the generic driver
called with `nrows = 0` appends the row description directly followed by the
completion pair with command text "SELECT 0", and no `D` message; for the
schema "item", "value", "description" under the Current version the stream
is exactly the row description with 3 columns, the command-complete message
"SELECT 0" and the ready-for-query message with status idle. -/
theorem driver_zero_rows (frontend : POOL_CONNECTION) (major : ProtoMajor)
    (field_names : List (List Nat)) (offsettbl : List Nat) (data : List Nat) (row_size : Nat)
    (hnames : ∀ p ∈ field_names, 0 ∈ p) :
    sent (send_row_description_and_data_rows frontend major (field_names.length : Int)
        field_names offsettbl data row_size 0) =
      sent frontend ++
        (RowDescription major (field_names.map content) ++
          CommandComplete major (text "SELECT 0") ++ ReadyForQuery major) ∧
    sent (send_row_description_and_data_rows [] PROTO_MAJOR_V3 3
        [lit "item", lit "value", lit "description"] [] [] 0 0) =
      [84] ++ be32 83 ++ be16 3 ++
        (text "item" ++ [0] ++ [0, 0, 0, 0] ++ be16 0 ++ [0, 0, 0, 0] ++ [255, 255] ++
          [0, 0, 0, 0] ++ [0, 0]) ++
        (text "value" ++ [0] ++ [0, 0, 0, 0] ++ be16 1 ++ [0, 0, 0, 0] ++ [255, 255] ++
          [0, 0, 0, 0] ++ [0, 0]) ++
        (text "description" ++ [0] ++ [0, 0, 0, 0] ++ be16 2 ++ [0, 0, 0, 0] ++ [255, 255] ++
          [0, 0, 0, 0] ++ [0, 0]) ++
        ([67] ++ be32 13 ++ text "SELECT 0" ++ [0]) ++
        [90, 0, 0, 0, 5, 73] := by
  refine ⟨?_, by decide⟩
  have h := sent_send_row_description_and_data_rows frontend major field_names offsettbl data
    row_size 0 hnames (by decide)
  have hd : text "SELECT" ++ [32] ++ decimal 0 = text "SELECT 0" := by decide
  rw [hd] at h
  simpa using h

set_option maxRecDepth 100000 in
theorem driver_zero_rows_witness :
    sent (send_row_description_and_data_rows [] PROTO_MAJOR_V2 ([lit "a", lit "b"].length : Int)
        [lit "a", lit "b"] [0, 2] [] 5 0) =
      sent [] ++
        (RowDescription PROTO_MAJOR_V2 ([lit "a", lit "b"].map content) ++
          CommandComplete PROTO_MAJOR_V2 (text "SELECT 0") ++ ReadyForQuery PROTO_MAJOR_V2) ∧
    sent (send_row_description_and_data_rows [] PROTO_MAJOR_V3 3
        [lit "item", lit "value", lit "description"] [] [] 0 0) =
      [84] ++ be32 83 ++ be16 3 ++
        (text "item" ++ [0] ++ [0, 0, 0, 0] ++ be16 0 ++ [0, 0, 0, 0] ++ [255, 255] ++
          [0, 0, 0, 0] ++ [0, 0]) ++
        (text "value" ++ [0] ++ [0, 0, 0, 0] ++ be16 1 ++ [0, 0, 0, 0] ++ [255, 255] ++
          [0, 0, 0, 0] ++ [0, 0]) ++
        (text "description" ++ [0] ++ [0, 0, 0, 0] ++ be16 2 ++ [0, 0, 0, 0] ++ [255, 255] ++
          [0, 0, 0, 0] ++ [0, 0]) ++
        ([67] ++ be32 13 ++ text "SELECT 0" ++ [0]) ++
        [90, 0, 0, 0, 5, 73] :=
  driver_zero_rows [] PROTO_MAJOR_V2 [lit "a", lit "b"] [0, 2] [] 5 (by decide)

set_option maxRecDepth 100000 in
/-- C16: for the schema "pool_version", one row with the value "4.3.1 (92.1)"
and the Legacy version, the generic driver emits exactly: `P`, the cursor name
and NUL; `T`, the count 1 and the Legacy column descriptor; one data row made
of `D`, the single null-map byte 0xFF and the field prefixed by the big-endian
length 16 (content 12 + 4); `C`, the text "SELECT 1" and one NUL with no
length; and the single byte `Z` with no status byte. -/
theorem legacy_version_report_bytes (row_size : Nat) :
    sent (send_row_description_and_data_rows [] PROTO_MAJOR_V2 1 [lit "pool_version"] [0]
        (lit "4.3.1 (92.1)") row_size 1) =
      ([80] ++ text "blank" ++ [0]) ++
        ([84] ++ [0, 1] ++
          (text "pool_version" ++ [0] ++ [0, 0, 0, 0] ++ [255, 255] ++ [0, 0, 0, 0])) ++
        ([68] ++ [255] ++ ([0, 0, 0, 16] ++ text "4.3.1 (92.1)")) ++
        ([67] ++ text "SELECT 1" ++ [0]) ++
        [90] ∧
      (text "4.3.1 (92.1)").length = 12 ∧ beValue [0, 0, 0, 16] = 12 + 4 := by
  refine ⟨?_, by decide, by decide⟩
  have h := sent_send_row_description_and_data_rows [] PROTO_MAJOR_V2 [lit "pool_version"] [0]
    (lit "4.3.1 (92.1)") row_size 1 (by decide) (by decide)
  have hrow : rowFields [lit "pool_version"].length [0] (lit "4.3.1 (92.1)") row_size 0 =
      [text "4.3.1 (92.1)"] := by
    have hc : content (lit "4.3.1 (92.1)") = text "4.3.1 (92.1)" := by decide
    simp [rowFields, field_at, hc]
  have hrange : List.range 1 = [0] := rfl
  have hlen : (([lit "pool_version"].length : Nat) : Int) = 1 := rfl
  have hone : ((1 : Nat) : Int) = 1 := rfl
  rw [hrange, List.flatMap_cons, List.flatMap_nil, hrow, hlen, hone] at h
  rw [h]
  decide

/-! ## Where the driver finds the fields -/

theorem map_range_getD_apply {α β : Type} (f : α → β) (d : α) (l : List α) :
    (List.range l.length).map (fun j => f (l.getD j d)) = l.map f := by
  have h := congrArg (List.map f) (map_range_getD d l)
  rw [List.map_map] at h
  exact h

/-- C18: in the generic driver, data rows are emitted once each in increasing
row index `i`, and within a row the fields in increasing column index `j`; the
`j`-th field of the `i`-th row is the NUL-terminated text that starts at byte
offset `i * row_size + offsettbl[j]` of the data buffer. -/
theorem driver_field_addresses (frontend : POOL_CONNECTION) (major : ProtoMajor)
    (field_names : List (List Nat)) (offsettbl : List Nat) (data : List Nat)
    (row_size : Nat) (nrows : Nat)
    (hnames : ∀ p ∈ field_names, 0 ∈ p) (hrows : nrows < 2147483648)
    (hoffs : offsettbl.length = field_names.length) :
    sent (send_row_description_and_data_rows frontend major (field_names.length : Int)
        field_names offsettbl data row_size (nrows : Int)) =
      sent frontend ++
        (RowDescription major (field_names.map content) ++
          (List.range nrows).flatMap
            (fun i => DataRow major
              (offsettbl.map
                (fun off => (data.drop (i * row_size + off)).takeWhile (fun b => b != 0)))) ++
          (CommandComplete major (text "SELECT" ++ [32] ++ decimal nrows) ++
            ReadyForQuery major)) := by
  rw [sent_send_row_description_and_data_rows _ _ _ _ _ _ _ hnames hrows]
  have hrow : ∀ i, rowFields field_names.length offsettbl data row_size i =
      offsettbl.map
        (fun off => (data.drop (i * row_size + off)).takeWhile (fun b => b != 0)) := by
    intro i
    rw [← hoffs]
    exact map_range_getD_apply
      (fun off => (data.drop (i * row_size + off)).takeWhile (fun b => b != 0)) 0 offsettbl
  simp only [hrow]

theorem driver_field_addresses_witness :
    sent (send_row_description_and_data_rows [] PROTO_MAJOR_V3 ([lit "a", lit "b"].length : Int)
        [lit "a", lit "b"] [0, 2] [49, 0, 50, 50, 0, 51, 0, 52, 0, 0] 5 ((2 : Nat) : Int)) =
      sent [] ++
        (RowDescription PROTO_MAJOR_V3 ([lit "a", lit "b"].map content) ++
          (List.range 2).flatMap
            (fun i => DataRow PROTO_MAJOR_V3
              ([0, 2].map
                (fun off => (([49, 0, 50, 50, 0, 51, 0, 52, 0, 0] : List Nat).drop
                  (i * 5 + off)).takeWhile (fun b => b != 0)))) ++
          (CommandComplete PROTO_MAJOR_V3 (text "SELECT" ++ [32] ++ decimal 2) ++
            ReadyForQuery PROTO_MAJOR_V3)) :=
  driver_field_addresses [] PROTO_MAJOR_V3 [lit "a", lit "b"] [0, 2]
    [49, 0, 50, 50, 0, 51, 0, 52, 0, 0] 5 2 (by decide) (by decide) (by decide)

/-! ## The call sites of the generic driver -/

/-- C19: at every call site of the generic driver the field-name array and the
offset table have the same number of entries (12, 6, 1, 20 and 14), which is
the `num_fields` passed, and position by position the offset is that of the
record member the column name describes. -/
theorem call_sites_tables_match (offsetof : String → Nat) (frontend : POOL_CONNECTION)
    (major : ProtoMajor) (records : List Nat) (row_size : Nat) (nrows : Int) :
    (nodes_reporting frontend major (offsetTable offsetof nodes_reporting_members) records
        row_size nrows =
      send_row_description_and_data_rows frontend major 12
        ((["node_id", "hostname", "port", "status", "lb_weight", "role", "select_cnt",
          "load_balance_node", "replication_delay", "replication_state",
          "replication_sync_state", "last_status_change"] : List String).map lit)
        (offsetTable offsetof nodes_reporting_members) records row_size nrows ∧
      (offsetTable offsetof nodes_reporting_members).length = 12 ∧
      columnsDescribeMembers ["node_id", "hostname", "port", "status", "lb_weight", "role",
        "select_cnt", "load_balance_node", "replication_delay", "replication_state",
        "replication_sync_state", "last_status_change"] nodes_reporting_members = true) ∧
    (processes_reporting frontend major (offsetTable offsetof processes_reporting_members)
        records row_size nrows =
      send_row_description_and_data_rows
        (send_row_description frontend major 6
          ((["pool_pid", "start_time", "database", "username", "create_time",
            "pool_counter"] : List String).map lit))
        major 6
        ((["pool_pid", "start_time", "database", "username", "create_time",
          "pool_counter"] : List String).map lit)
        (offsetTable offsetof processes_reporting_members) records row_size nrows ∧
      (offsetTable offsetof processes_reporting_members).length = 6 ∧
      columnsDescribeMembers ["pool_pid", "start_time", "database", "username", "create_time",
        "pool_counter"] processes_reporting_members = true) ∧
    (version_reporting frontend major (offsetTable offsetof version_reporting_members) records
        row_size =
      send_row_description_and_data_rows
        (send_row_description frontend major 1 ((["pool_version"] : List String).map lit))
        major 1 ((["pool_version"] : List String).map lit)
        (offsetTable offsetof version_reporting_members) records row_size 1 ∧
      (offsetTable offsetof version_reporting_members).length = 1 ∧
      columnsDescribeMembers ["pool_version"] version_reporting_members = true) ∧
    (show_health_check_stats frontend major
        (offsetTable offsetof show_health_check_stats_members) records row_size nrows =
      send_row_description_and_data_rows frontend major 20
        ((["node_id", "hostname", "port", "status", "role", "last_status_change", "total_count",
          "success_count", "fail_count", "skip_count", "retry_count", "average_retry_count",
          "max_retry_count", "max_duration", "min_duration", "average_duration",
          "last_health_check", "last_successful_health_check", "last_skip_health_check",
          "last_failed_health_check"] : List String).map lit)
        (offsetTable offsetof show_health_check_stats_members) records row_size nrows ∧
      (offsetTable offsetof show_health_check_stats_members).length = 20 ∧
      columnsDescribeMembers ["node_id", "hostname", "port", "status", "role",
        "last_status_change", "total_count", "success_count", "fail_count", "skip_count",
        "retry_count", "average_retry_count", "max_retry_count", "max_duration", "min_duration",
        "average_duration", "last_health_check", "last_successful_health_check",
        "last_skip_health_check", "last_failed_health_check"]
        show_health_check_stats_members = true) ∧
    (show_backend_stats frontend major (offsetTable offsetof show_backend_stats_members)
        records row_size nrows =
      send_row_description_and_data_rows frontend major 14
        ((["node_id", "hostname", "port", "status", "role", "select_cnt", "insert_cnt",
          "update_cnt", "delete_cnt", "ddl_cnt", "other_cnt", "panic_cnt", "fatal_cnt",
          "error_cnt"] : List String).map lit)
        (offsetTable offsetof show_backend_stats_members) records row_size nrows ∧
      (offsetTable offsetof show_backend_stats_members).length = 14 ∧
      columnsDescribeMembers ["node_id", "hostname", "port", "status", "role", "select_cnt",
        "insert_cnt", "update_cnt", "delete_cnt", "ddl_cnt", "other_cnt", "panic_cnt",
        "fatal_cnt", "error_cnt"] show_backend_stats_members = true) := by
  refine ⟨⟨rfl, rfl, by decide⟩, ⟨rfl, rfl, by decide⟩, ⟨rfl, rfl, by decide⟩,
    ⟨rfl, rfl, by decide⟩, ⟨rfl, rfl, by decide⟩⟩

/-! ## `pools_reporting` against the generic driver -/

theorem sent_pools_reporting_field (hsize : Nat) (frontend : POOL_CONNECTION)
    (field : List Nat) :
    sent (pools_reporting_field (hsize : Int) frontend field) =
      sent frontend ++ (be32 (strlen field + hsize) ++ content field) := by
  have h : ((strlen field : Int) + (hsize : Int)) = ((strlen field + hsize : Nat) : Int) := by
    push_cast; rfl
  have h4 : ∀ k, (be32 k).take 4 = be32 k := fun k => rfl
  simp only [pools_reporting_field, sent_pool_write, h, htonl_natCast, Int.toNat_ofNat,
    take_strlen, h4, List.append_assoc]

theorem sent_pools_reporting_row (major : ProtoMajor) (strftime_local : Int → List Nat)
    (pools : List POOL_REPORT_POOLS) (frontend : POOL_CONNECTION) (i : Nat) :
    sent (pools_reporting_row major strftime_local pools 12 [255, 255] ((12 + 7) / 8)
        (if major = PROTO_MAJOR_V2 then 4 else 0) frontend i) =
      sent frontend ++ DataRow major (pools_row_strings strftime_local (pools.getD i default)) := by
  have hD : (lit "D").take 1 = [68] := by decide
  have h4 : ∀ k, (be32 k).take 4 = be32 k := fun k => rfl
  have h12 : (htons 12).take 2 = be16 12 := by decide
  have hnb : (((12 : Int) + 7) / 8).toNat = 2 := by decide
  have hc4 : (4 : Int) = ((4 : Nat) : Int) := rfl
  have hc0 : (0 : Int) = ((0 : Nat) : Int) := rfl
  unfold pools_reporting_row
  cases major
  · simp only [if_true, hc4, sent_pools_reporting_field, sent_pool_write_and_flush,
      sent_pool_write, hD, hnb, DataRow, pools_row_strings, content_length]
    simp [content_length]
  · have hlen : ∀ a b c d e f g h i j k l : Nat,
        (6 : Int) + ((4 + a : Nat) : Int) + ((4 + b : Nat) : Int) + ((4 + c : Nat) : Int) +
          ((4 + d : Nat) : Int) + ((4 + e : Nat) : Int) + ((4 + f : Nat) : Int) +
          ((4 + g : Nat) : Int) + ((4 + h : Nat) : Int) + ((4 + i : Nat) : Int) +
          ((4 + j : Nat) : Int) + ((4 + k : Nat) : Int) + ((4 + l : Nat) : Int) =
        ((6 + ((4 + a) + ((4 + b) + ((4 + c) + ((4 + d) + ((4 + e) + ((4 + f) + ((4 + g) +
          ((4 + h) + ((4 + i) + ((4 + j) + ((4 + k) + ((4 + l) + 0)))))))))))) : Nat) : Int) := by
      intros
      push_cast
      ring
    simp only [reduceCtorEq, if_false, hc0, sent_pools_reporting_field, sent_pool_write, hD,
      hlen, htonl_natCast, h4, h12, DataRow, DataRowLength, pools_row_strings, content_length,
      List.map_cons, List.map_nil, List.sum_cons, List.sum_nil, List.length_cons,
      List.length_nil]
    simp [content_length]

theorem flatMap_range_congr {β : Type} (n : Nat) (f g : Nat → List β)
    (h : ∀ i, i < n → f i = g i) : (List.range n).flatMap f = (List.range n).flatMap g := by
  induction n with
  | zero => rfl
  | succ n ih =>
    rw [List.range_succ, List.flatMap_append, List.flatMap_append,
      ih (fun i hi => h i (by omega))]
    simp [h n (by omega)]

/-- C20: for either protocol version and every list of pool rows,
`pools_reporting` emits the same bytes as the generic driver emits for the
same 12 column names and any row buffer that holds, per row, the 12 formatted
strings in the order pool_pid, start_time, pool_id, backend_id, database,
username, create_time, majorversion, minorversion, pool_counter,
pool_backendpid, pool_connected. -/
theorem pools_reporting_refines_driver (frontend : POOL_CONNECTION) (major : ProtoMajor)
    (strftime_local : Int → List Nat) (pools : List POOL_REPORT_POOLS) (nrows : Nat)
    (offsettbl : List Nat) (data : List Nat) (row_size : Nat)
    (hrows : nrows < 2147483648)
    (hdata : ∀ i, i < nrows →
      rowFields 12 offsettbl data row_size i =
        pools_row_strings strftime_local (pools.getD i default)) :
    sent (pools_reporting frontend major strftime_local pools (nrows : Int)) =
      sent (send_row_description_and_data_rows frontend major 12 pools_reporting_field_names
        offsettbl data row_size (nrows : Int)) := by
  have hnames : ∀ p ∈ pools_reporting_field_names, 0 ∈ p := by decide
  have hdriver := sent_send_row_description_and_data_rows frontend major
    pools_reporting_field_names offsettbl data row_size nrows hnames hrows
  have hlen : ((pools_reporting_field_names.length : Nat) : Int) = 12 := rfl
  have hlen' : pools_reporting_field_names.length = 12 := rfl
  rw [hlen, hlen'] at hdriver
  rw [hdriver]
  have hdec := decimal_length_le nrows hrows
  have hsel : strlen (lit "SELECT") = 6 := by decide
  have hcon : content (lit "SELECT") = text "SELECT" := by decide
  have hdesc := sent_send_row_description frontend major pools_reporting_field_names hnames
  rw [hlen] at hdesc
  unfold pools_reporting
  rw [sent_send_complete_and_ready_count _ _ _ _ (by rw [hsel]; omega), hcon,
    Int.toNat_ofNat, sent_foldl _ _ (sent_pools_reporting_row major strftime_local pools), hdesc,
    flatMap_range_congr nrows _
      (fun i => DataRow major (rowFields 12 offsettbl data row_size i))
      (fun i hi => by show _ = DataRow major (rowFields 12 offsettbl data row_size i); rw [hdata i hi])]
  simp only [List.append_assoc]

set_option maxRecDepth 100000 in
theorem pools_reporting_refines_driver_witness :
    sent (pools_reporting [] PROTO_MAJOR_V3 (fun _ => lit "2020-01-01 00:00:00")
        [⟨1234, 1, 0, 1, lit "db", lit "u", 0, 3, 0, 5, 4321, 1⟩] ((1 : Nat) : Int)) =
      sent (send_row_description_and_data_rows [] PROTO_MAJOR_V3 12 pools_reporting_field_names
        [0, 5, 25, 27, 29, 32, 34, 35, 37, 39, 41, 46]
        [49, 50, 51, 52, 0, 50, 48, 50, 48, 45, 48, 49, 45, 48, 49, 32, 48, 48, 58, 48, 48, 58,
          48, 48, 0, 48, 0, 49, 0, 100, 98, 0, 117, 0, 0, 51, 0, 48, 0, 53, 0, 52, 51, 50, 49, 0,
          49, 0]
        48 ((1 : Nat) : Int)) :=
  pools_reporting_refines_driver [] PROTO_MAJOR_V3 (fun _ => lit "2020-01-01 00:00:00")
    [⟨1234, 1, 0, 1, lit "db", lit "u", 0, 3, 0, 5, 4321, 1⟩] 1
    [0, 5, 25, 27, 29, 32, 34, 35, 37, 39, 41, 46]
    [49, 50, 51, 52, 0, 50, 48, 50, 48, 45, 48, 49, 45, 48, 49, 32, 48, 48, 58, 48, 48, 58,
      48, 48, 0, 48, 0, 49, 0, 100, 98, 0, 117, 0, 0, 51, 0, 48, 0, 53, 0, 52, 51, 50, 49, 0,
      49, 0]
    48 (by decide) (by decide)

/-! ## Decoding the result set -/

theorem beValue_bytes32 (n : Nat) (h : n < 4294967296) :
    beValue [n / 16777216 % 256, n / 65536 % 256, n / 256 % 256, n % 256] = n :=
  beValue_be32 n h

theorem beValue_bytes16 (n : Nat) (h : n < 65536) :
    beValue [n / 256 % 256, n % 256] = n :=
  beValue_be16 n h

theorem parseFields_Current_field (count n : Nat) (rest : List Nat)
    (hn : n < 4294967295) (hrest : n ≤ rest.length) :
    parseFields_Current (count + 1) (be32 n ++ rest) =
      match parseFields_Current count (rest.drop n) with
      | some (fields, left) => some (some (rest.take n) :: fields, left)
      | none => none := by
  have hne : ¬ (n = 4294967295) := by omega
  have hshort : ¬ (rest.length < n) := by omega
  show parseFields_Current (count + 1)
    (n / 16777216 % 256 :: n / 65536 % 256 :: n / 256 % 256 :: n % 256 :: rest) = _
  simp only [parseFields_Current, beValue_bytes32 n (by omega), hne, if_false, hshort]

theorem parseFields_Current_flatMap (fields : List (List Nat))
    (hlen : ∀ f ∈ fields, f.length < 4294967295) (left : List Nat) :
    parseFields_Current fields.length
        (fields.flatMap (fun f => be32 f.length ++ f) ++ left) =
      some (fields.map some, left) := by
  induction fields with
  | nil => simp [parseFields_Current]
  | cons f fs ih =>
    have hf : f.length < 4294967295 := hlen f (List.mem_cons_self _ _)
    have hfs : ∀ g ∈ fs, g.length < 4294967295 :=
      fun g hg => hlen g (List.mem_cons_of_mem _ hg)
    rw [List.flatMap_cons, List.length_cons, List.append_assoc, List.append_assoc,
      parseFields_Current_field _ _ _ hf (by rw [List.length_append]; omega),
      List.drop_left, List.take_left, ih hfs]
    rfl

theorem sum_map_ge_of_mem (fields : List (List Nat)) (f : List Nat) (hf : f ∈ fields) :
    4 + f.length ≤ (fields.map (fun f => 4 + f.length)).sum := by
  induction fields with
  | nil => simp at hf
  | cons g gs ih =>
    rw [List.map_cons, List.sum_cons]
    rcases List.mem_cons.mp hf with h | h
    · rw [h]
      omega
    · have := ih h
      omega

theorem parseDataRow_Current_bytes (L n : Nat) (body left : List Nat)
    (values : List (Option (List Nat))) (hL : L < 4294967296) (hn : n < 65536)
    (hlen : body.length + 6 = L) (hparse : parseFields_Current n body = some (values, [])) :
    parseDataRow_Current ([68] ++ be32 L ++ be16 n ++ body ++ left) = some (values, left) := by
  have hguard : ¬ (L < 4 ∨ (n / 256 % 256 :: n % 256 :: (body ++ left)).length < L - 4) := by
    simp only [List.length_cons, List.length_append]
    omega
  have hsplit : n / 256 % 256 :: n % 256 :: (body ++ left) =
      (n / 256 % 256 :: n % 256 :: body) ++ left := rfl
  have hl : (n / 256 % 256 :: n % 256 :: body).length = L - 4 := by
    simp only [List.length_cons]
    omega
  show parseDataRow_Current (68 :: L / 16777216 % 256 :: L / 65536 % 256 :: L / 256 % 256 ::
    L % 256 :: (([] ++ be16 n ++ body) ++ left)) = _
  have hb : ([] ++ be16 n ++ body) ++ left = n / 256 % 256 :: n % 256 :: (body ++ left) := by
    simp [be16]
  rw [hb]
  simp only [parseDataRow_Current, beValue_bytes32 L hL]
  rw [if_neg hguard, hsplit, List.take_left' hl, List.drop_left' hl]
  simp only [beValue_bytes16 n hn, hparse]

theorem parseDataRow_Current_DataRow (fields : List (List Nat))
    (hcount : fields.length < 65536) (hfit : DataRowLength fields < 2147483648)
    (left : List Nat) :
    parseDataRow_Current (DataRow PROTO_MAJOR_V3 fields ++ left) =
      some (fields.map some, left) := by
  have hlen : ∀ f ∈ fields, f.length < 4294967295 := by
    intro f hf
    have := sum_map_ge_of_mem fields f hf
    unfold DataRowLength at hfit
    omega
  have hparse := parseFields_Current_flatMap fields hlen []
  rw [List.append_nil] at hparse
  have htotal := length_DataRow_Current fields
  have h4 : ∀ k, (be32 k).length = 4 := fun k => rfl
  have h2 : ∀ k, (be16 k).length = 2 := fun k => rfl
  simp only [DataRow, List.length_append, h4, h2, List.length_cons, List.length_nil] at htotal
  exact parseDataRow_Current_bytes (DataRowLength fields) fields.length _ left _ (by omega)
    hcount (by omega) hparse

theorem parseDataRows_flatMap
    (row : List Nat → Option (List (Option (List Nat)) × List Nat))
    (enc : List (List Nat) → List Nat) (rows : List (List (List Nat)))
    (henc : ∀ r ∈ rows, ∀ left, row (enc r ++ left) = some (r.map some, left))
    (htag : ∀ r ∈ rows, ∃ t, enc r = 68 :: t)
    (tail : List Nat) (htail : ∀ t, tail ≠ 68 :: t) (fuel : Nat) (hfuel : rows.length < fuel) :
    parseDataRows row fuel (rows.flatMap enc ++ tail) =
      some (rows.map (List.map some), tail) := by
  induction rows generalizing fuel with
  | nil =>
    cases fuel with
    | zero => simp at hfuel
    | succ k =>
      simp only [List.flatMap_nil, List.nil_append, List.map_nil]
      unfold parseDataRows
      split
      · exact absurd rfl (htail _)
      · rfl
  | cons r rs ih =>
    cases fuel with
    | zero => simp at hfuel
    | succ k =>
      obtain ⟨t, ht⟩ := htag r (List.mem_cons_self _ _)
      have hs : (r :: rs).flatMap enc ++ tail = 68 :: (t ++ (rs.flatMap enc ++ tail)) := by
        rw [List.flatMap_cons, ht]
        simp
      have hrow : row (68 :: (t ++ (rs.flatMap enc ++ tail))) =
          some (r.map some, rs.flatMap enc ++ tail) := by
        have := henc r (List.mem_cons_self _ _) (rs.flatMap enc ++ tail)
        rw [ht] at this
        exact this
      rw [hs]
      unfold parseDataRows
      simp only [hrow]
      rw [ih (fun q hq => henc q (List.mem_cons_of_mem _ hq))
        (fun q hq => htag q (List.mem_cons_of_mem _ hq)) k
        (by simp only [List.length_cons] at hfuel; omega)]
      rfl

theorem nullBit_replicate (m j : Nat) (h : j / 8 < m) :
    nullBit (List.replicate m 255) j = true := by
  unfold nullBit
  have hget : (List.replicate m 255).getD (j / 8) 0 = 255 := by
    simp [List.getD, List.getElem?_replicate, h]
  rw [hget]
  have hr : j % 8 < 8 := Nat.mod_lt _ (by decide)
  generalize j % 8 = r at hr
  interval_cases r <;> decide

theorem parseFields_Legacy_field (nullmap : List Nat) (j count n : Nat) (rest : List Nat)
    (hbit : nullBit nullmap j = true) (hn : n + 4 < 4294967296) (hrest : n ≤ rest.length) :
    parseFields_Legacy nullmap j (count + 1) (be32 (n + 4) ++ rest) =
      match parseFields_Legacy nullmap (j + 1) count (rest.drop n) with
      | some (fields, left) => some (some (rest.take n) :: fields, left)
      | none => none := by
  have hguard : ¬ (n + 4 < 4 ∨ rest.length < n) := by omega
  have hsub : n + 4 - 4 = n := by omega
  show parseFields_Legacy nullmap j (count + 1)
    ((n + 4) / 16777216 % 256 :: (n + 4) / 65536 % 256 :: (n + 4) / 256 % 256 ::
      (n + 4) % 256 :: rest) = _
  simp only [parseFields_Legacy, hbit, if_true, beValue_bytes32 (n + 4) hn, hsub, hguard,
    if_false]

theorem parseFields_Legacy_flatMap (nullmap : List Nat) (fields : List (List Nat)) (j : Nat)
    (hbits : ∀ k, j ≤ k → k < j + fields.length → nullBit nullmap k = true)
    (hlen : ∀ f ∈ fields, f.length + 4 < 4294967296) (left : List Nat) :
    parseFields_Legacy nullmap j fields.length
        (fields.flatMap (fun f => be32 (f.length + 4) ++ f) ++ left) =
      some (fields.map some, left) := by
  induction fields generalizing j with
  | nil => simp [parseFields_Legacy]
  | cons f fs ih =>
    have hf : f.length + 4 < 4294967296 := hlen f (List.mem_cons_self _ _)
    have hfs : ∀ g ∈ fs, g.length + 4 < 4294967296 :=
      fun g hg => hlen g (List.mem_cons_of_mem _ hg)
    have hbit : nullBit nullmap j = true :=
      hbits j (Nat.le_refl _) (by simp only [List.length_cons]; omega)
    have hbits' : ∀ k, j + 1 ≤ k → k < j + 1 + fs.length → nullBit nullmap k = true :=
      fun k h1 h2 => hbits k (by omega) (by simp only [List.length_cons]; omega)
    rw [List.flatMap_cons, List.length_cons, List.append_assoc, List.append_assoc,
      parseFields_Legacy_field _ _ _ _ _ hbit hf (by rw [List.length_append]; omega),
      List.drop_left, List.take_left, ih (j + 1) hbits' hfs]
    rfl

theorem parseDataRow_Legacy_DataRow (fields : List (List Nat))
    (hfit : DataRowLength fields < 2147483648) (left : List Nat) :
    parseDataRow_Legacy fields.length (DataRow PROTO_MAJOR_V2 fields ++ left) =
      some (fields.map some, left) := by
  have hlen : ∀ f ∈ fields, f.length + 4 < 4294967296 := by
    intro f hf
    have := sum_map_ge_of_mem fields f hf
    unfold DataRowLength at hfit
    omega
  have hbits : ∀ k, 0 ≤ k → k < 0 + fields.length →
      nullBit (List.replicate ((fields.length + 7) / 8) 255) k = true :=
    fun k _ hk => nullBit_replicate _ k (by omega)
  have hparse := parseFields_Legacy_flatMap (List.replicate ((fields.length + 7) / 8) 255)
    fields 0 hbits hlen left
  have hshape : DataRow PROTO_MAJOR_V2 fields ++ left =
      68 :: (List.replicate ((fields.length + 7) / 8) 255 ++
        (fields.flatMap (fun f => be32 (f.length + 4) ++ f) ++ left)) := by
    simp [DataRow]
  have hrep : (List.replicate ((fields.length + 7) / 8) 255).length =
      (fields.length + 7) / 8 := List.length_replicate _ _
  have hguard : ¬ ((List.replicate ((fields.length + 7) / 8) 255 ++
      (fields.flatMap (fun f => be32 (f.length + 4) ++ f) ++ left)).length <
      (fields.length + 7) / 8) := by
    rw [List.length_append, hrep]
    omega
  rw [hshape]
  simp only [parseDataRow_Legacy]
  rw [if_neg hguard, List.take_left' hrep, List.drop_left' hrep, hparse]

theorem parseCompletion_Current_pair (cmd : List Nat) (hlen : cmd.length + 5 < 4294967296) :
    parseCompletion_Current
        (CommandComplete PROTO_MAJOR_V3 cmd ++ ReadyForQuery PROTO_MAJOR_V3) =
      some cmd := by
  have hguard : ¬ (4 + cmd.length + 1 < 5 ∨
      (cmd ++ [0] ++ [90, 0, 0, 0, 5, 73]).length < 4 + cmd.length + 1 - 4) := by
    simp only [List.length_append, List.length_cons, List.length_nil]
    omega
  have hl : (cmd ++ [0]).length = 4 + cmd.length + 1 - 4 := by
    simp only [List.length_append, List.length_cons, List.length_nil]
    omega
  show parseCompletion_Current (67 :: (4 + cmd.length + 1) / 16777216 % 256 ::
    (4 + cmd.length + 1) / 65536 % 256 :: (4 + cmd.length + 1) / 256 % 256 ::
    (4 + cmd.length + 1) % 256 :: (([] ++ cmd ++ [0]) ++ ([90] ++ be32 5 ++ [73]))) = _
  have hb : ([] ++ cmd ++ [0]) ++ ([90] ++ be32 5 ++ [73]) =
      cmd ++ [0] ++ [90, 0, 0, 0, 5, 73] := by
    simp [be32]
  rw [hb]
  simp only [parseCompletion_Current, beValue_bytes32 (4 + cmd.length + 1) (by omega)]
  rw [if_neg hguard, List.take_left' hl, List.drop_left' hl]
  simp

theorem parseCompletion_Legacy_pair (cmd : List Nat) (hnul : 0 ∉ cmd) :
    parseCompletion_Legacy
        (CommandComplete PROTO_MAJOR_V2 cmd ++ ReadyForQuery PROTO_MAJOR_V2) =
      some cmd := by
  have hshape : CommandComplete PROTO_MAJOR_V2 cmd ++ ReadyForQuery PROTO_MAJOR_V2 =
      67 :: (cmd ++ 0 :: [90]) := by
    simp [CommandComplete, ReadyForQuery]
  have htw : List.takeWhile (fun b => b != 0) (cmd ++ 0 :: [90]) = cmd :=
    content_append_zero cmd [90] hnul
  rw [hshape]
  simp only [parseCompletion_Legacy, htw, List.drop_left]

theorem parseColumns_Legacy_flatMap (names : List (List Nat))
    (hnul : ∀ c ∈ names, 0 ∉ c) (rest : List Nat) :
    parseColumns_Legacy names.length (names.flatMap RowDescriptionColumn_Legacy ++ rest) =
      some (names, rest) := by
  induction names with
  | nil => simp [parseColumns_Legacy]
  | cons c cs ih =>
    have hc : 0 ∉ c := hnul c (List.mem_cons_self _ _)
    have hcs : ∀ d ∈ cs, 0 ∉ d := fun d hd => hnul d (List.mem_cons_of_mem _ hd)
    have hshape : (c :: cs).flatMap RowDescriptionColumn_Legacy ++ rest =
        c ++ 0 :: ([0, 0, 0, 0, 255, 255, 0, 0, 0, 0] ++
          (cs.flatMap RowDescriptionColumn_Legacy ++ rest)) := by
      simp [RowDescriptionColumn_Legacy]
    have hname : List.takeWhile (fun b => b != 0)
        (c ++ 0 :: ([0, 0, 0, 0, 255, 255, 0, 0, 0, 0] ++
          (cs.flatMap RowDescriptionColumn_Legacy ++ rest))) = c :=
      content_append_zero c _ hc
    have hfixed : ¬ (([0, 0, 0, 0, 255, 255, 0, 0, 0, 0] ++
          (cs.flatMap RowDescriptionColumn_Legacy ++ rest)).length < 10) := by
      simp
    have hdrop : ([0, 0, 0, 0, 255, 255, 0, 0, 0, 0] ++
          (cs.flatMap RowDescriptionColumn_Legacy ++ rest)).drop 10 =
        cs.flatMap RowDescriptionColumn_Legacy ++ rest := by
      simp
    rw [hshape, List.length_cons, parseColumns_Legacy]
    simp only [hname, List.drop_left]
    rw [if_neg hfixed, hdrop, ih hcs]

theorem parseRowDescription_Legacy_RowDescription (names : List (List Nat))
    (hnul : ∀ c ∈ names, 0 ∉ c) (hcount : names.length < 65536) (rest : List Nat) :
    parseRowDescription_Legacy (RowDescription PROTO_MAJOR_V2 names ++ rest) =
      some (names, rest) := by
  have hshape : RowDescription PROTO_MAJOR_V2 names ++ rest =
      80 :: (text "blank" ++ 0 :: (84 :: names.length / 256 % 256 :: names.length % 256 ::
        (names.flatMap RowDescriptionColumn_Legacy ++ rest))) := by
    simp [RowDescription, be16]
  have hblank : (0 : Nat) ∉ text "blank" := by decide
  have htw : List.takeWhile (fun b => b != 0)
      (text "blank" ++ 0 :: (84 :: names.length / 256 % 256 :: names.length % 256 ::
        (names.flatMap RowDescriptionColumn_Legacy ++ rest))) = text "blank" :=
    content_append_zero _ _ hblank
  rw [hshape]
  simp only [parseRowDescription_Legacy, htw, List.drop_left, beValue_bytes16 _ hcount,
    parseColumns_Legacy_flatMap names hnul rest]

theorem parseRowDescription_Current_RowDescription (names : List (List Nat))
    (hnul : ∀ c ∈ names, 0 ∉ c) (hcount : names.length < 65536)
    (hfit : RowDescriptionLength names < 2147483648) (rest : List Nat) :
    parseRowDescription_Current (RowDescription PROTO_MAJOR_V3 names ++ rest) =
      some (names, rest) := by
  have hlen := length_after_tag_RowDescription_Current names
  have h4 : ∀ k, (be32 k).length = 4 := fun k => rfl
  have h2 : ∀ k, (be16 k).length = 2 := fun k => rfl
  simp only [List.length_append, h4, h2] at hlen
  have hparse := parseColumns_Current_flatMapIdx names hnul 0 []
  rw [List.append_nil] at hparse
  show parseRowDescription_Current (([84] ++ be32 (RowDescriptionLength names) ++
    be16 names.length ++ flatMapIdx RowDescriptionColumn_Current 0 names) ++ rest) = _
  generalize flatMapIdx RowDescriptionColumn_Current 0 names = cols at hlen hparse ⊢
  generalize RowDescriptionLength names = L at hlen hfit ⊢
  have hguard : ¬ (L < 4 ∨ (names.length / 256 % 256 :: names.length % 256 ::
      (cols ++ rest)).length < L - 4) := by
    simp only [List.length_cons, List.length_append]
    omega
  have hsplit : names.length / 256 % 256 :: names.length % 256 :: (cols ++ rest) =
      (names.length / 256 % 256 :: names.length % 256 :: cols) ++ rest := rfl
  have hl : (names.length / 256 % 256 :: names.length % 256 :: cols).length = L - 4 := by
    simp only [List.length_cons]
    omega
  show parseRowDescription_Current (84 :: L / 16777216 % 256 :: L / 65536 % 256 ::
    L / 256 % 256 :: L % 256 :: (([] ++ be16 names.length ++ cols) ++ rest)) = _
  have hb : ([] ++ be16 names.length ++ cols) ++ rest =
      names.length / 256 % 256 :: names.length % 256 :: (cols ++ rest) := by
    simp [be16]
  rw [hb]
  simp only [parseRowDescription_Current, beValue_bytes32 L (by omega)]
  rw [if_neg hguard, hsplit, List.take_left' hl, List.drop_left' hl]
  simp only [beValue_bytes16 _ hcount, hparse]

theorem toDigitsCore_toNat_ne_zero (fuel n : Nat) (acc : List Char)
    (hacc : ∀ c ∈ acc, c.toNat ≠ 0) :
    ∀ c ∈ Nat.toDigitsCore 10 fuel n acc, c.toNat ≠ 0 := by
  induction fuel generalizing n acc with
  | zero => simpa [Nat.toDigitsCore] using hacc
  | succ fuel ih =>
    have hd : (Nat.digitChar (n % 10)).toNat ≠ 0 := by
      have hr : n % 10 < 10 := Nat.mod_lt _ (by decide)
      generalize n % 10 = r at hr
      interval_cases r <;> decide
    have hacc' : ∀ c ∈ Nat.digitChar (n % 10) :: acc, c.toNat ≠ 0 := by
      intro c hc
      rcases List.mem_cons.mp hc with h | h
      · rw [h]
        exact hd
      · exact hacc c h
    unfold Nat.toDigitsCore
    by_cases h0 : n / 10 = 0
    · simpa [h0] using hacc'
    · simp only [h0, if_false]
      exact ih (n / 10) _ hacc'

theorem decimal_not_mem_zero (n : Nat) : 0 ∉ decimal n := by
  intro h
  simp only [decimal, Nat.repr, Nat.toDigits, List.mem_map] at h
  obtain ⟨c, hc, hz⟩ := h
  exact toDigitsCore_toNat_ne_zero (n + 1) n [] (by simp) c hc hz

theorem DataRow_tag (major : ProtoMajor) (fields : List (List Nat)) :
    ∃ t, DataRow major fields = 68 :: t := by
  cases major
  · exact ⟨_, by simp only [DataRow, List.singleton_append, List.cons_append, List.append_assoc]; rfl⟩
  · exact ⟨_, by simp only [DataRow, List.singleton_append, List.cons_append, List.append_assoc]; rfl⟩

theorem length_le_length_flatMap_DataRow (major : ProtoMajor) (rows : List (List (List Nat))) :
    rows.length ≤ (rows.flatMap (DataRow major)).length := by
  induction rows with
  | nil => simp
  | cons r rs ih =>
    obtain ⟨t, ht⟩ := DataRow_tag major r
    rw [List.flatMap_cons, List.length_append, ht, List.length_cons, List.length_cons]
    omega

theorem CommandComplete_not_DataRow_tag (major : ProtoMajor) (cmd left : List Nat) :
    ∀ t, CommandComplete major cmd ++ left ≠ 68 :: t := by
  intro t h
  cases major <;> simp [CommandComplete] at h

set_option maxRecDepth 100000 in
/-- C17: round trip.  For either protocol version, every schema of `N` column
names and every `R` rows of `N` text values (all sizes within the ranges of
the C types), decoding the byte stream of the generic driver with the decoder
of that version's message layouts yields exactly the `N` column names in
order, the `R` rows of `N` values in order, none of them NULL, and the command
text; for the schema "a", "b" and the single row ("1", "22") it yields the
names "a", "b" and the row "1", "22" in both versions. -/
theorem result_set_roundtrip (major : ProtoMajor) (field_names : List (List Nat))
    (offsettbl : List Nat) (data : List Nat) (row_size : Nat) (nrows : Nat)
    (hnames : ∀ p ∈ field_names, 0 ∈ p) (hcount : field_names.length < 32768)
    (hrows : nrows < 2147483648)
    (hdesc : RowDescriptionLength (field_names.map content) < 2147483648)
    (hfit : ∀ i, i < nrows →
      DataRowLength (rowFields field_names.length offsettbl data row_size i) < 2147483648) :
    parseResultSet major
        (sent (send_row_description_and_data_rows [] major (field_names.length : Int)
          field_names offsettbl data row_size (nrows : Int))) =
      some ⟨field_names.map content,
        (List.range nrows).map
          (fun i => (rowFields field_names.length offsettbl data row_size i).map some),
        text "SELECT" ++ [32] ++ decimal nrows⟩ ∧
    parseResultSet PROTO_MAJOR_V3
        (sent (send_row_description_and_data_rows [] PROTO_MAJOR_V3 2 [lit "a", lit "b"]
          [0, 2] [49, 0, 50, 50, 0] 5 1)) =
      some ⟨[text "a", text "b"], [[some (text "1"), some (text "22")]], text "SELECT 1"⟩ ∧
    parseResultSet PROTO_MAJOR_V2
        (sent (send_row_description_and_data_rows [] PROTO_MAJOR_V2 2 [lit "a", lit "b"]
          [0, 2] [49, 0, 50, 50, 0] 5 1)) =
      some ⟨[text "a", text "b"], [[some (text "1"), some (text "22")]], text "SELECT 1"⟩ := by
  refine ⟨?_, by decide, by decide⟩
  have hnil : sent ([] : POOL_CONNECTION) = [] := rfl
  have hstream := sent_send_row_description_and_data_rows [] major field_names offsettbl data
    row_size nrows hnames hrows
  have hrowsmap : (List.range nrows).flatMap
      (fun i => DataRow major (rowFields field_names.length offsettbl data row_size i)) =
      ((List.range nrows).map
        (rowFields field_names.length offsettbl data row_size)).flatMap (DataRow major) := by
    rw [List.flatMap_map]
  rw [hnil, List.nil_append, hrowsmap, List.append_assoc] at hstream
  rw [hstream]
  have hnul : ∀ c ∈ field_names.map content, 0 ∉ c := by
    intro c hc
    rcases List.mem_map.mp hc with ⟨p, _, rfl⟩
    exact content_not_mem_zero p
  have hcnt : (field_names.map content).length < 65536 := by
    rw [List.length_map]
    omega
  have hrow : ∀ r ∈ (List.range nrows).map
      (rowFields field_names.length offsettbl data row_size),
      r.length = field_names.length ∧ DataRowLength r < 2147483648 := by
    intro r hr
    rcases List.mem_map.mp hr with ⟨i, hi, rfl⟩
    exact ⟨by simp [rowFields], hfit i (List.mem_range.mp hi)⟩
  have hdec := decimal_length_le nrows hrows
  have hcmdlen : (text "SELECT" ++ [32] ++ decimal nrows).length + 5 < 4294967296 := by
    have h6 : (text "SELECT").length = 6 := by decide
    simp only [List.length_append, h6, List.length_cons, List.length_nil]
    omega
  have hcmdnul : 0 ∉ text "SELECT" ++ [32] ++ decimal nrows := by
    intro h
    rcases List.mem_append.mp h with h1 | h1
    · have hsel : (0 : Nat) ∉ text "SELECT" ++ [32] := by decide
      exact hsel h1
    · exact decimal_not_mem_zero nrows h1
  have hfuel := length_le_length_flatMap_DataRow major
    ((List.range nrows).map (rowFields field_names.length offsettbl data row_size))
  have hmapmap : ((List.range nrows).map
      (rowFields field_names.length offsettbl data row_size)).map (List.map some) =
      (List.range nrows).map
        (fun i => (rowFields field_names.length offsettbl data row_size i).map some) := by
    rw [List.map_map]
    rfl
  cases major
  · have hrows' := parseDataRows_flatMap (parseDataRow_Legacy (field_names.map content).length)
      (DataRow PROTO_MAJOR_V2)
      ((List.range nrows).map (rowFields field_names.length offsettbl data row_size))
      (fun r hr left => by
        have h := parseDataRow_Legacy_DataRow r (hrow r hr).2 left
        rw [(hrow r hr).1] at h
        rw [List.length_map]
        exact h)
      (fun r _ => DataRow_tag PROTO_MAJOR_V2 r)
      (CommandComplete PROTO_MAJOR_V2 (text "SELECT" ++ [32] ++ decimal nrows) ++
        ReadyForQuery PROTO_MAJOR_V2)
      (CommandComplete_not_DataRow_tag _ _ _)
      ((((List.range nrows).map
        (rowFields field_names.length offsettbl data row_size)).flatMap
          (DataRow PROTO_MAJOR_V2) ++
        (CommandComplete PROTO_MAJOR_V2 (text "SELECT" ++ [32] ++ decimal nrows) ++
          ReadyForQuery PROTO_MAJOR_V2)).length + 1)
      (by rw [List.length_append]; omega)
    simp only [parseResultSet, parseRowDescription_Legacy_RowDescription _ hnul hcnt, hrows',
      parseCompletion_Legacy_pair _ hcmdnul, hmapmap]
  · have hrows' := parseDataRows_flatMap parseDataRow_Current (DataRow PROTO_MAJOR_V3)
      ((List.range nrows).map (rowFields field_names.length offsettbl data row_size))
      (fun r hr left =>
        parseDataRow_Current_DataRow r (by rw [(hrow r hr).1]; omega) (hrow r hr).2 left)
      (fun r _ => DataRow_tag PROTO_MAJOR_V3 r)
      (CommandComplete PROTO_MAJOR_V3 (text "SELECT" ++ [32] ++ decimal nrows) ++
        ReadyForQuery PROTO_MAJOR_V3)
      (CommandComplete_not_DataRow_tag _ _ _)
      ((((List.range nrows).map
        (rowFields field_names.length offsettbl data row_size)).flatMap
          (DataRow PROTO_MAJOR_V3) ++
        (CommandComplete PROTO_MAJOR_V3 (text "SELECT" ++ [32] ++ decimal nrows) ++
          ReadyForQuery PROTO_MAJOR_V3)).length + 1)
      (by rw [List.length_append]; omega)
    simp only [parseResultSet, parseRowDescription_Current_RowDescription _ hnul hcnt hdesc,
      hrows', parseCompletion_Current_pair _ hcmdlen, hmapmap]

set_option maxRecDepth 100000 in
theorem result_set_roundtrip_witness :
    parseResultSet PROTO_MAJOR_V2
        (sent (send_row_description_and_data_rows [] PROTO_MAJOR_V2
          ([lit "a", lit "b"].length : Int) [lit "a", lit "b"] [0, 2]
          [49, 0, 50, 50, 0, 51, 0, 52, 0, 0] 5 ((2 : Nat) : Int))) =
      some ⟨[lit "a", lit "b"].map content,
        (List.range 2).map
          (fun i => (rowFields [lit "a", lit "b"].length [0, 2]
            [49, 0, 50, 50, 0, 51, 0, 52, 0, 0] 5 i).map some),
        text "SELECT" ++ [32] ++ decimal 2⟩ ∧
    parseResultSet PROTO_MAJOR_V3
        (sent (send_row_description_and_data_rows [] PROTO_MAJOR_V3 2 [lit "a", lit "b"]
          [0, 2] [49, 0, 50, 50, 0] 5 1)) =
      some ⟨[text "a", text "b"], [[some (text "1"), some (text "22")]], text "SELECT 1"⟩ ∧
    parseResultSet PROTO_MAJOR_V2
        (sent (send_row_description_and_data_rows [] PROTO_MAJOR_V2 2 [lit "a", lit "b"]
          [0, 2] [49, 0, 50, 50, 0] 5 1)) =
      some ⟨[text "a", text "b"], [[some (text "1"), some (text "22")]], text "SELECT 1"⟩ :=
  result_set_roundtrip PROTO_MAJOR_V2 [lit "a", lit "b"] [0, 2]
    [49, 0, 50, 50, 0, 51, 0, 52, 0, 0] 5 2 (by decide) (by decide) (by decide) (by decide)
    (by decide)

/-! ## The order of sink operations -/

theorem writes_refl (frontend : POOL_CONNECTION) :
    ∃ chunks : List (List Nat), frontend = frontend ++ chunks.map SinkOp.write :=
  ⟨[], by simp⟩

theorem writes_pool_write {frontend x : POOL_CONNECTION}
    (h : ∃ chunks : List (List Nat), x = frontend ++ chunks.map SinkOp.write)
    (buf : List Nat) (len : Nat) :
    ∃ chunks : List (List Nat), pool_write x buf len = frontend ++ chunks.map SinkOp.write := by
  obtain ⟨chunks, rfl⟩ := h
  exact ⟨chunks ++ [buf.take len], by simp [pool_write]⟩

theorem writes_trans {frontend x y : POOL_CONNECTION}
    (h : ∃ chunks : List (List Nat), x = frontend ++ chunks.map SinkOp.write)
    (h' : ∃ chunks : List (List Nat), y = x ++ chunks.map SinkOp.write) :
    ∃ chunks : List (List Nat), y = frontend ++ chunks.map SinkOp.write := by
  obtain ⟨c, rfl⟩ := h
  obtain ⟨c', rfl⟩ := h'
  exact ⟨c ++ c', by simp⟩

theorem writes_foldl {α : Type} (body : POOL_CONNECTION → α → POOL_CONNECTION)
    (hbody : ∀ x a, ∃ chunks : List (List Nat), body x a = x ++ chunks.map SinkOp.write)
    (l : List α) (x : POOL_CONNECTION) :
    ∃ chunks : List (List Nat), l.foldl body x = x ++ chunks.map SinkOp.write := by
  induction l generalizing x with
  | nil => exact writes_refl x
  | cons a rest ih => exact writes_trans (hbody x a) (ih (body x a))

theorem writes_send_row_description_col (major : ProtoMajor) (field_names : List (List Nat))
    (x : POOL_CONNECTION) (i : Nat) :
    ∃ chunks : List (List Nat),
      send_row_description_col major field_names x i = x ++ chunks.map SinkOp.write := by
  unfold send_row_description_col
  cases major
  · simp only [reduceCtorEq, if_false]
    exact writes_pool_write (writes_pool_write (writes_pool_write (writes_pool_write
      (writes_refl x) _ _) _ _) _ _) _ _
  · simp only [if_true]
    exact writes_pool_write (writes_pool_write (writes_pool_write (writes_pool_write
      (writes_pool_write (writes_pool_write (writes_pool_write
        (writes_refl x) _ _) _ _) _ _) _ _) _ _) _ _) _ _

theorem sent_writes (frontend : POOL_CONNECTION) (chunks : List (List Nat)) :
    sent (frontend ++ chunks.map SinkOp.write ++ [SinkOp.flush]) =
      sent frontend ++ chunks.flatten := by
  induction chunks generalizing frontend with
  | nil => simp [sent_append, sent]
  | cons c cs ih =>
    have h := ih (frontend ++ [SinkOp.write c])
    simp only [List.map_cons, List.append_assoc, List.singleton_append, List.flatten_cons]
      at h ⊢
    rw [h, sent_append]
    simp [sent]

/-- C21: in the trace of sink operations, what `send_row_description` appends
is a run of writes (carrying all the bytes it emits) followed by a flush as
its last operation, and what `send_complete_and_ready` appends is a run of
writes (carrying both the command-complete and the ready-for-query message)
followed by exactly one flush, its last operation. -/
theorem flush_is_last_operation (frontend : POOL_CONNECTION) (major : ProtoMajor)
    (num_fields : Int) (field_names : List (List Nat)) (message : List Nat)
    (num_rows : Int) :
    (∃ chunks : List (List Nat),
      send_row_description frontend major num_fields field_names =
        frontend ++ chunks.map SinkOp.write ++ [SinkOp.flush] ∧
      chunks.flatten = sent (send_row_description [] major num_fields field_names)) ∧
    (∃ chunks : List (List Nat),
      send_complete_and_ready frontend major message num_rows =
        frontend ++ chunks.map SinkOp.write ++ [SinkOp.flush] ∧
      chunks.flatten = sent (send_complete_and_ready [] major message num_rows)) := by
  have hdesc : ∀ fe : POOL_CONNECTION, ∃ x : POOL_CONNECTION,
      send_row_description fe major num_fields field_names = pool_flush x ∧
      ∃ chunks : List (List Nat), x = fe ++ chunks.map SinkOp.write := by
    intro fe
    refine ⟨_, rfl, ?_⟩
    refine writes_trans ?_ (writes_foldl _ (writes_send_row_description_col major field_names)
      _ _)
    cases major
    · simp only [if_true, reduceCtorEq, if_false]
      exact writes_pool_write (writes_pool_write (writes_pool_write (writes_pool_write
        (writes_refl fe) _ _) _ _) _ _) _ _
    · simp only [if_true, reduceCtorEq, if_false]
      exact writes_pool_write (writes_pool_write (writes_pool_write
        (writes_refl fe) _ _) _ _) _ _
  have hcomp : ∀ fe : POOL_CONNECTION, ∃ x : POOL_CONNECTION,
      send_complete_and_ready fe major message num_rows = pool_flush x ∧
      ∃ chunks : List (List Nat), x = fe ++ chunks.map SinkOp.write := by
    intro fe
    refine ⟨_, rfl, ?_⟩
    cases major
    · simp only [reduceCtorEq, if_false]
      exact writes_pool_write (writes_pool_write (writes_pool_write
        (writes_refl fe) _ _) _ _) _ _
    · simp only [if_true]
      exact writes_pool_write (writes_pool_write (writes_pool_write (writes_pool_write
        (writes_pool_write (writes_pool_write (writes_refl fe) _ _) _ _) _ _) _ _) _ _) _ _
  have hsame : ∀ (f : POOL_CONNECTION → POOL_CONNECTION),
      (∀ fe : POOL_CONNECTION, sent (f fe) = sent fe ++ sent (f [])) →
      (∀ fe : POOL_CONNECTION, ∃ x : POOL_CONNECTION, f fe = pool_flush x ∧
        ∃ chunks : List (List Nat), x = fe ++ chunks.map SinkOp.write) →
      ∃ chunks : List (List Nat),
        f frontend = frontend ++ chunks.map SinkOp.write ++ [SinkOp.flush] ∧
        chunks.flatten = sent (f []) := by
    intro f hframe hshape
    obtain ⟨x, hx, chunks, rfl⟩ := hshape frontend
    refine ⟨chunks, by rw [hx]; rfl, ?_⟩
    have h1 := hframe frontend
    rw [hx] at h1
    have h2 : sent (pool_flush (frontend ++ chunks.map SinkOp.write)) =
        sent frontend ++ chunks.flatten := sent_writes frontend chunks
    rw [h2] at h1
    exact List.append_cancel_left h1
  refine ⟨hsame (fun fe => send_row_description fe major num_fields field_names) ?_ hdesc,
    hsame (fun fe => send_complete_and_ready fe major message num_rows)
      (fun fe => sent_send_complete_and_ready_frame fe major message num_rows) hcomp⟩
  intro fe
  have hcol : ∀ x i, sent (send_row_description_col major field_names x i) =
      sent x ++ sent (send_row_description_col major field_names [] i) := by
    intro x i
    rw [sent_send_row_description_col, sent_send_row_description_col]
    rfl
  show sent (send_row_description fe major num_fields field_names) =
    sent fe ++ sent (send_row_description [] major num_fields field_names)
  unfold send_row_description
  rw [sent_pool_flush, sent_pool_flush, sent_foldl _ _ hcol, sent_foldl _ _ hcol]
  cases major <;>
    simp only [reduceCtorEq, if_true, if_false, sent_pool_write, List.append_assoc] <;> rfl

/-! ## The Legacy data rows written by hand -/

set_option maxRecDepth 100000 in
/-- C22: the Legacy data row of `cache_reporting` is not flushed after the null
bitmap: in its trace the write of `D` is followed by the write of the
two-byte bitmap and then directly by the write of the first field length,
whereas in the generic driver, `config_reporting`, `pools_reporting`,
`send_config_var_detail_row` and `send_config_var_value_only_row` the write of
the bitmap is followed by a flush. -/
theorem cache_reporting_no_flush_after_nullmap :
    (afterDataRowTag (cache_reporting [] PROTO_MAJOR_V2 (fun _ _ => text "0.50")
        ⟨⟨5, 5⟩, 100, 7, 3, 1024, 2048, 0⟩)).take 2 =
      [SinkOp.write [255, 255], SinkOp.write [0, 0, 0, 6]] ∧
    (afterDataRowTag (send_row_description_and_data_rows [] PROTO_MAJOR_V2 1 [lit "a"] [0]
        (lit "x") 2 1)).take 2 = [SinkOp.write [255], SinkOp.flush] ∧
    (afterDataRowTag (config_reporting [] PROTO_MAJOR_V2
        [⟨lit "a", lit "b", lit "c"⟩] 1)).take 2 = [SinkOp.write [255], SinkOp.flush] ∧
    (afterDataRowTag (pools_reporting [] PROTO_MAJOR_V2 (fun _ => lit "2020-01-01 00:00:00")
        [⟨1234, 1, 0, 1, lit "db", lit "u", 0, 3, 0, 5, 4321, 1⟩] 1)).take 2 =
      [SinkOp.write [255, 255], SinkOp.flush] ∧
    (afterDataRowTag (send_config_var_detail_row [] PROTO_MAJOR_V2 (lit "a") (lit "b")
        (lit "c"))).take 2 = [SinkOp.write [255], SinkOp.flush] ∧
    (afterDataRowTag (send_config_var_value_only_row [] PROTO_MAJOR_V2 (lit "b"))).take 2 =
      [SinkOp.write [255], SinkOp.flush] := by
  decide

set_option maxRecDepth 100000 in
/-- C23: under the Legacy version `cache_reporting` does not encode a field as
`write_one_field_v2` does: for each of the 9 strings it sends the length
content + 5 and then the content with its NUL terminator, where
`write_one_field_v2` sends the length content + 4 and the content alone. -/
theorem cache_reporting_legacy_field_has_terminator :
    sent (cache_reporting [] PROTO_MAJOR_V2 (fun _ _ => text "0.50")
        ⟨⟨5, 5⟩, 100, 7, 3, 1024, 2048, 0⟩) =
      RowDescription PROTO_MAJOR_V2 (cache_reporting_field_names.map content) ++
        ([68, 255, 255] ++
          [text "5", text "5", text "0.50", text "100", text "7", text "3", text "1024",
            text "2048", text "0"].flatMap (fun s => be32 (s.length + 5) ++ s ++ [0])) ++
        CommandComplete PROTO_MAJOR_V2 (text "SELECT 1") ++ ReadyForQuery PROTO_MAJOR_V2 ∧
    sent (cache_reporting [] PROTO_MAJOR_V2 (fun _ _ => text "0.50")
        ⟨⟨5, 5⟩, 100, 7, 3, 1024, 2048, 0⟩) ≠
      RowDescription PROTO_MAJOR_V2 (cache_reporting_field_names.map content) ++
        ([68, 255, 255] ++
          [text "5", text "5", text "0.50", text "100", text "7", text "3", text "1024",
            text "2048", text "0"].flatMap
            (fun s => sent (write_one_field_v2 [] (s ++ [0])))) ++
        CommandComplete PROTO_MAJOR_V2 (text "SELECT 1") ++ ReadyForQuery PROTO_MAJOR_V2 ∧
    sent (write_one_field_v2 [] (text "5" ++ [0])) = [0, 0, 0, 5, 53] := by
  decide

/-- C24: for either protocol version and all strings,
`send_config_var_detail_row` emits exactly the bytes the row loop of the
generic driver emits for a row whose 3 fields are name, value and
description, and `send_config_var_value_only_row` exactly the bytes the row
loop emits for a row whose single field is the value. -/
theorem config_var_rows_refine_driver (frontend : POOL_CONNECTION)
    (name value description : List Nat) (offsettbl : List Nat) (data : List Nat)
    (row_size i : Nat) (offsettbl1 : List Nat) (data1 : List Nat) (row_size1 i1 : Nat)
    (hrow : rowFields 3 offsettbl data row_size i =
      [content name, content value, content description])
    (hrow1 : rowFields 1 offsettbl1 data1 row_size1 i1 = [content value]) :
    sent (send_config_var_detail_row frontend PROTO_MAJOR_V3 name value description) =
        sent (send_data_row_v3 3 offsettbl data row_size frontend i) ∧
      sent (send_config_var_detail_row frontend PROTO_MAJOR_V2 name value description) =
        sent (send_data_row_v2 3 offsettbl data row_size
          (List.replicate (((3 : Int) + 7) / 8).toNat 255) (((3 : Int) + 7) / 8) frontend i) ∧
      sent (send_config_var_value_only_row frontend PROTO_MAJOR_V3 value) =
        sent (send_data_row_v3 1 offsettbl1 data1 row_size1 frontend i1) ∧
      sent (send_config_var_value_only_row frontend PROTO_MAJOR_V2 value) =
        sent (send_data_row_v2 1 offsettbl1 data1 row_size1
          (List.replicate (((1 : Int) + 7) / 8).toNat 255) (((1 : Int) + 7) / 8)
          frontend i1) ∧
      (∀ major, sent (send_config_var_detail_row frontend major name value description) =
        sent frontend ++ DataRow major [content name, content value, content description]) ∧
      (∀ major, sent (send_config_var_value_only_row frontend major value) =
        sent frontend ++ DataRow major [content value]) := by
  have hD : (lit "D").take 1 = [68] := by decide
  have h4 : ∀ k, (be32 k).take 4 = be32 k := fun k => rfl
  have h3 : (htons 3).take 2 = be16 3 := by decide
  have h1 : (htons 1).take 2 = be16 1 := by decide
  have hn3 : (((3 : Int) + 7) / 8).toNat = 1 := by decide
  have hn1 : (((1 : Int) + 7) / 8).toNat = 1 := by decide
  have hadd : ∀ n : Nat, ((n : Int) + 4) = ((n + 4 : Nat) : Int) := fun n => by push_cast; rfl
  have hlen3 : ∀ a b c : Nat, (6 : Int) + ((4 + a : Nat) : Int) + ((4 + b : Nat) : Int) +
      ((4 + c : Nat) : Int) = ((6 + ((4 + a) + ((4 + b) + ((4 + c) + 0))) : Nat) : Int) := by
    intros
    push_cast
    ring
  have hlen1 : ∀ a : Nat, (6 : Int) + ((4 + a : Nat) : Int) =
      ((6 + ((4 + a) + 0) : Nat) : Int) := by
    intros
    push_cast
    ring
  have hdetail : ∀ major,
      sent (send_config_var_detail_row frontend major name value description) =
        sent frontend ++ DataRow major [content name, content value, content description] := by
    intro major
    unfold send_config_var_detail_row
    cases major
    · simp only [if_true, sent_pool_write, sent_pool_write_and_flush, hD, hn3, hadd,
        htonl_natCast, h4, Int.toNat_ofNat, take_strlen, DataRow, content_length]
      simp [content_length]
    · simp only [reduceCtorEq, if_false, sent_pool_write, hD, hlen3, htonl_natCast, h4, h3,
        Int.toNat_ofNat, take_strlen, DataRow, DataRowLength, content_length, List.map_cons,
        List.map_nil, List.sum_cons, List.sum_nil, List.length_cons, List.length_nil]
      simp [content_length]
  have hvalue : ∀ major, sent (send_config_var_value_only_row frontend major value) =
      sent frontend ++ DataRow major [content value] := by
    intro major
    unfold send_config_var_value_only_row
    cases major
    · simp only [if_true, sent_pool_write, sent_pool_write_and_flush, hD, hn1, hadd,
        htonl_natCast, h4, Int.toNat_ofNat, take_strlen, DataRow, content_length]
      simp [content_length]
    · simp only [reduceCtorEq, if_false, sent_pool_write, hD, hlen1, htonl_natCast, h4, h1,
        Int.toNat_ofNat, take_strlen, DataRow, DataRowLength, content_length, List.map_cons,
        List.map_nil, List.sum_cons, List.sum_nil, List.length_cons, List.length_nil]
      simp [content_length]
  have hv3 := sent_send_data_row_v3 3 offsettbl data row_size frontend i
  have hv2 := sent_send_data_row_v2 3 offsettbl data row_size frontend i
  have hw3 := sent_send_data_row_v3 1 offsettbl1 data1 row_size1 frontend i1
  have hw2 := sent_send_data_row_v2 1 offsettbl1 data1 row_size1 frontend i1
  rw [hrow] at hv3 hv2
  rw [hrow1] at hw3 hw2
  exact ⟨(hdetail _).trans hv3.symm, (hdetail _).trans hv2.symm, (hvalue _).trans hw3.symm,
    (hvalue _).trans hw2.symm, hdetail, hvalue⟩

theorem config_var_rows_refine_driver_witness :
    sent (send_config_var_detail_row [] PROTO_MAJOR_V3 (lit "a") (lit "b") (lit "cc")) =
        sent (send_data_row_v3 3 [0, 2, 4] [97, 0, 98, 0, 99, 99, 0] 7 [] 0) ∧
      sent (send_config_var_detail_row [] PROTO_MAJOR_V2 (lit "a") (lit "b") (lit "cc")) =
        sent (send_data_row_v2 3 [0, 2, 4] [97, 0, 98, 0, 99, 99, 0] 7
          (List.replicate (((3 : Int) + 7) / 8).toNat 255) (((3 : Int) + 7) / 8) [] 0) ∧
      sent (send_config_var_value_only_row [] PROTO_MAJOR_V3 (lit "b")) =
        sent (send_data_row_v3 1 [2] [97, 0, 98, 0, 99, 99, 0] 7 [] 0) ∧
      sent (send_config_var_value_only_row [] PROTO_MAJOR_V2 (lit "b")) =
        sent (send_data_row_v2 1 [2] [97, 0, 98, 0, 99, 99, 0] 7
          (List.replicate (((1 : Int) + 7) / 8).toNat 255) (((1 : Int) + 7) / 8) [] 0) ∧
      (∀ major, sent (send_config_var_detail_row [] major (lit "a") (lit "b") (lit "cc")) =
        sent [] ++ DataRow major [content (lit "a"), content (lit "b"), content (lit "cc")]) ∧
      (∀ major, sent (send_config_var_value_only_row [] major (lit "b")) =
        sent [] ++ DataRow major [content (lit "b")]) :=
  config_var_rows_refine_driver [] (lit "a") (lit "b") (lit "cc") [0, 2, 4]
    [97, 0, 98, 0, 99, 99, 0] 7 0 [2] [97, 0, 98, 0, 99, 99, 0] 7 0 (by decide) (by decide)

/-! ## The report schemas -/

/-- C25: every report schema defined in the file has pairwise distinct column
names: the `field_names` arrays of `config_reporting`, `nodes_reporting`,
`pools_reporting`, `processes_reporting`, `version_reporting`,
`cache_reporting`, `show_health_check_stats` and `show_backend_stats` (for the
entry points that pass the array to the generic driver, the array is the one
passed). -/
theorem report_schemas_have_distinct_names (frontend : POOL_CONNECTION) (major : ProtoMajor)
    (offsettbl : List Nat) (records : List Nat) (row_size : Nat) (nrows : Int) :
    config_reporting_field_names.Nodup ∧
    (nodes_reporting_field_names.Nodup ∧
      nodes_reporting frontend major offsettbl records row_size nrows =
        send_row_description_and_data_rows frontend major 12 nodes_reporting_field_names
          offsettbl records row_size nrows) ∧
    pools_reporting_field_names.Nodup ∧
    (processes_reporting_field_names.Nodup ∧
      processes_reporting frontend major offsettbl records row_size nrows =
        send_row_description_and_data_rows
          (send_row_description frontend major 6 processes_reporting_field_names) major 6
          processes_reporting_field_names offsettbl records row_size nrows) ∧
    (version_reporting_field_names.Nodup ∧
      version_reporting frontend major offsettbl records row_size =
        send_row_description_and_data_rows
          (send_row_description frontend major 1 version_reporting_field_names) major 1
          version_reporting_field_names offsettbl records row_size 1) ∧
    cache_reporting_field_names.Nodup ∧
    (show_health_check_stats_field_names.Nodup ∧
      show_health_check_stats frontend major offsettbl records row_size nrows =
        send_row_description_and_data_rows frontend major 20
          show_health_check_stats_field_names offsettbl records row_size nrows) ∧
    (show_backend_stats_field_names.Nodup ∧
      show_backend_stats frontend major offsettbl records row_size nrows =
        send_row_description_and_data_rows frontend major 14 show_backend_stats_field_names
          offsettbl records row_size nrows) := by
  refine ⟨by decide, ⟨by decide, rfl⟩, by decide, ⟨by decide, rfl⟩, ⟨by decide, rfl⟩,
    by decide, ⟨by decide, rfl⟩, ⟨by decide, rfl⟩⟩

/-! ## `config_reporting` against the generic driver -/

theorem sent_config_reporting_row_v2 (status : List POOL_REPORT_CONFIG)
    (frontend : POOL_CONNECTION) (i : Nat) :
    sent (config_reporting_row_v2 status [255, 255] (((3 : Int) + 7) / 8) frontend i) =
      sent frontend ++ DataRow PROTO_MAJOR_V2 (config_row_strings (status.getD i default)) := by
  have hD : (lit "D").take 1 = [68] := by decide
  have h4 : ∀ k, (be32 k).take 4 = be32 k := fun k => rfl
  have hn3 : (((3 : Int) + 7) / 8).toNat = 1 := by decide
  have hadd : ∀ n : Nat, ((n : Int) + 4) = ((n + 4 : Nat) : Int) := fun n => by push_cast; rfl
  unfold config_reporting_row_v2
  simp only [sent_pool_write, sent_pool_write_and_flush, hD, hn3, hadd, htonl_natCast, h4,
    Int.toNat_ofNat, take_strlen, DataRow, config_row_strings, content_length]
  simp [content_length]

theorem sent_config_reporting_row_v3 (status : List POOL_REPORT_CONFIG)
    (frontend : POOL_CONNECTION) (i : Nat) :
    sent (config_reporting_row_v3 status 3 frontend i) =
      sent frontend ++ DataRow PROTO_MAJOR_V3 (config_row_strings (status.getD i default)) := by
  have hD : (lit "D").take 1 = [68] := by decide
  have h4 : ∀ k, (be32 k).take 4 = be32 k := fun k => rfl
  have h3 : (htons 3).take 2 = be16 3 := by decide
  have hlen3 : ∀ a b c : Nat, (6 : Int) + ((4 + a : Nat) : Int) + ((4 + b : Nat) : Int) +
      ((4 + c : Nat) : Int) = ((6 + ((4 + a) + ((4 + b) + ((4 + c) + 0))) : Nat) : Int) := by
    intros
    push_cast
    ring
  unfold config_reporting_row_v3
  simp only [sent_pool_write, hD, hlen3, htonl_natCast, h4, h3, take_strlen, DataRow,
    DataRowLength, config_row_strings, content_length, List.map_cons, List.map_nil,
    List.sum_cons, List.sum_nil, List.length_cons, List.length_nil]
  simp [content_length]

/-- C27: for either protocol version and every list of configuration rows, the
bytes `config_reporting` emits (row description, hand-written data rows,
completion) are the bytes the generic driver emits for the schema "item",
"value", "description" and any row buffer whose rows hold the same name,
value and description strings. -/
theorem config_reporting_refines_driver (frontend : POOL_CONNECTION) (major : ProtoMajor)
    (status : List POOL_REPORT_CONFIG) (nrows : Nat)
    (offsettbl : List Nat) (data : List Nat) (row_size : Nat)
    (hrows : nrows < 2147483648)
    (hdata : ∀ i, i < nrows →
      rowFields 3 offsettbl data row_size i = config_row_strings (status.getD i default)) :
    sent (config_reporting frontend major status (nrows : Int)) =
      sent (send_row_description_and_data_rows frontend major 3
        [lit "item", lit "value", lit "description"] offsettbl data row_size (nrows : Int)) := by
  have hnames : ∀ p ∈ config_reporting_field_names, 0 ∈ p := by decide
  have hdriver := sent_send_row_description_and_data_rows frontend major
    config_reporting_field_names offsettbl data row_size nrows hnames hrows
  have hlen : ((config_reporting_field_names.length : Nat) : Int) = 3 := rfl
  have hlen' : config_reporting_field_names.length = 3 := rfl
  have hlist : config_reporting_field_names = [lit "item", lit "value", lit "description"] :=
    rfl
  rw [hlen, hlen'] at hdriver
  rw [← hlist, hdriver]
  have hdec := decimal_length_le nrows hrows
  have hsel : strlen (lit "SELECT") = 6 := by decide
  have hcon : content (lit "SELECT") = text "SELECT" := by decide
  have hdesc := sent_send_row_description frontend major config_reporting_field_names hnames
  rw [hlen] at hdesc
  have hcongr := flatMap_range_congr nrows
    (fun i => DataRow major (config_row_strings (status.getD i default)))
    (fun i => DataRow major (rowFields 3 offsettbl data row_size i))
    (fun i hi => by
      show DataRow major _ = DataRow major (rowFields 3 offsettbl data row_size i)
      rw [hdata i hi])
  unfold config_reporting
  rw [sent_send_complete_and_ready_count _ _ _ _ (by rw [hsel]; omega), hcon, Int.toNat_ofNat]
  cases major
  · simp only [if_true]
    rw [sent_foldl _ _ (sent_config_reporting_row_v2 status), hdesc, hcongr]
    simp only [List.append_assoc]
  · simp only [reduceCtorEq, if_false]
    rw [sent_foldl _ _ (sent_config_reporting_row_v3 status), hdesc, hcongr]
    simp only [List.append_assoc]

set_option maxRecDepth 100000 in
theorem config_reporting_refines_driver_witness :
    sent (config_reporting [] PROTO_MAJOR_V2
        [⟨lit "port", lit "9999", lit "pgpool accepting port number"⟩,
          ⟨lit "a", lit "b", lit "cc"⟩] ((2 : Nat) : Int)) =
      sent (send_row_description_and_data_rows [] PROTO_MAJOR_V2 3
        [lit "item", lit "value", lit "description"] [0, 5, 10]
        (lit "port" ++ lit "9999" ++ lit "pgpool accepting port number" ++
          lit "a" ++ [0, 0, 0] ++ lit "b" ++ [0, 0, 0] ++ lit "cc")
        39 ((2 : Nat) : Int)) :=
  config_reporting_refines_driver [] PROTO_MAJOR_V2
    [⟨lit "port", lit "9999", lit "pgpool accepting port number"⟩, ⟨lit "a", lit "b", lit "cc"⟩]
    2 [0, 5, 10]
    (lit "port" ++ lit "9999" ++ lit "pgpool accepting port number" ++
      lit "a" ++ [0, 0, 0] ++ lit "b" ++ [0, 0, 0] ++ lit "cc")
    39 (by decide) (by decide)

/-! ## `cache_reporting` -/

theorem strlen_append_zero_le (l : List Nat) : strlen (l ++ [0]) ≤ l.length := by
  induction l with
  | nil => simp [strlen]
  | cons b rest ih =>
    by_cases hb : b = 0
    · simp [strlen, hb]
    · simp only [strlen] at ih ⊢
      simp [List.takeWhile_cons, hb]
      omega

theorem strlen_snprintf_le (size : Nat) (t : List Nat) :
    strlen (snprintf size t).1 ≤ size - 1 := by
  have h1 := strlen_append_zero_le (t.take (size - 1))
  have h3 : (t.take (size - 1)).length ≤ size - 1 := by
    rw [List.length_take]
    omega
  simp only [snprintf]
  omega

theorem zero_mem_snprintf (size : Nat) (t : List Nat) : 0 ∈ (snprintf size t).1 := by
  simp [snprintf]

theorem sent_cache_reporting_fields_v3 (strp : List (List Nat)) (frontend : POOL_CONNECTION) :
    sent ((List.range strp.length).foldl (cache_reporting_field_v3 strp) frontend) =
      sent frontend ++ (strp.map content).flatMap (fun f => be32 f.length ++ f) := by
  have h4 : ∀ k, (be32 k).take 4 = be32 k := fun k => rfl
  have hbody : ∀ fe i, sent (cache_reporting_field_v3 strp fe i) =
      sent fe ++ (be32 (strlen (strp.getD i [])) ++ content (strp.getD i [])) := by
    intro fe i
    simp only [cache_reporting_field_v3, cache_reporting_strlen, sent_pool_write,
      htonl_natCast, h4, Int.toNat_ofNat, take_strlen, List.append_assoc]
  have hidx := flatMap_range_getD
    (fun (_ : Nat) (s : List Nat) => be32 (strlen s) ++ content s) [] strp 0
  rw [sent_foldl _ _ hbody, hidx, flatMapIdx_const, List.flatMap_map]
  rfl

theorem sent_cache_reporting_fields_v2 (strp : List (List Nat)) (hnul : ∀ s ∈ strp, 0 ∈ s)
    (frontend : POOL_CONNECTION) :
    sent ((List.range strp.length).foldl (cache_reporting_field_v2 strp) frontend) =
      sent frontend ++
        (strp.map (fun s => content s ++ [0])).flatMap (fun f => be32 (f.length + 4) ++ f) := by
  have h4 : ∀ k, (be32 k).take 4 = be32 k := fun k => rfl
  have hcast : ∀ n : Nat, ((n : Int) + 1 + 4) = ((n + 1 + 4 : Nat) : Int) := fun n => by
    push_cast; rfl
  have hcast1 : ∀ n : Nat, ((n : Int) + 1).toNat = n + 1 := fun n => by omega
  have hbody : ∀ fe i, sent (cache_reporting_field_v2 strp fe i) =
      sent fe ++ (be32 (strlen (strp.getD i []) + 1 + 4) ++
        (strp.getD i []).take (strlen (strp.getD i []) + 1)) := by
    intro fe i
    simp only [cache_reporting_field_v2, cache_reporting_strlen, sent_pool_write, hcast,
      hcast1, htonl_natCast, h4, List.append_assoc]
  have hidx := flatMap_range_getD
    (fun (_ : Nat) (s : List Nat) => be32 (strlen s + 1 + 4) ++ s.take (strlen s + 1)) [] strp 0
  rw [sent_foldl _ _ hbody, hidx,
    flatMapIdx_congr _ (fun _ s => be32 ((content s ++ [0]).length + 4) ++ (content s ++ [0]))
      strp (fun s hs k => by
        simp only [take_strlen_succ s (hnul s hs), List.length_append, content_length,
          List.length_cons, List.length_nil]),
    flatMapIdx_const, List.flatMap_map]

set_option maxRecDepth 100000 in
/-- C28: for either protocol version and every statistics snapshot,
`cache_reporting` emits exactly one row description with 9 columns, exactly
one data row carrying 9 fields, and the completion pair with command text
"SELECT 1"; under the Current version the length field of the data row
encodes 6 + the sum over the 9 fields of (4 + content length).  (Under the
Legacy version each of the 9 field values ends with its NUL terminator.) -/
theorem cache_reporting_result_set (frontend : POOL_CONNECTION)
    (fmt_2f : Int → Int → List Nat) (mystats : POOL_SHMEM_STATS) :
    (cache_reporting_field_names.map content).length = 9 ∧
    (cache_reporting_strings fmt_2f mystats).length = 9 ∧
    sent (cache_reporting frontend PROTO_MAJOR_V3 fmt_2f mystats) =
      sent frontend ++
        (RowDescription PROTO_MAJOR_V3 (cache_reporting_field_names.map content) ++
          ([68] ++
            be32 (6 + ((cache_reporting_strings fmt_2f mystats).map
              (fun s => 4 + strlen s)).sum) ++
            be16 9 ++
            (cache_reporting_strings fmt_2f mystats).flatMap
              (fun s => be32 (strlen s) ++ content s)) ++
          CommandComplete PROTO_MAJOR_V3 (text "SELECT 1") ++
          ReadyForQuery PROTO_MAJOR_V3) ∧
    beValue (be32 (6 + ((cache_reporting_strings fmt_2f mystats).map
        (fun s => 4 + strlen s)).sum)) =
      6 + ((cache_reporting_strings fmt_2f mystats).map (fun s => 4 + strlen s)).sum ∧
    sent (cache_reporting frontend PROTO_MAJOR_V2 fmt_2f mystats) =
      sent frontend ++
        (RowDescription PROTO_MAJOR_V2 (cache_reporting_field_names.map content) ++
          DataRow PROTO_MAJOR_V2
            ((cache_reporting_strings fmt_2f mystats).map (fun s => content s ++ [0])) ++
          CommandComplete PROTO_MAJOR_V2 (text "SELECT 1") ++
          ReadyForQuery PROTO_MAJOR_V2) := by
  have hnames : ∀ p ∈ cache_reporting_field_names, 0 ∈ p := by decide
  have hlen9 : (cache_reporting_strings fmt_2f mystats).length = 9 := rfl
  have hnul : ∀ s ∈ cache_reporting_strings fmt_2f mystats, 0 ∈ s := by
    intro s hs
    simp only [cache_reporting_strings, List.mem_cons, List.mem_singleton, List.not_mem_nil,
      or_false] at hs
    rcases hs with h | h | h | h | h | h | h | h | h <;> rw [h] <;> exact zero_mem_snprintf _ _
  have hle : ∀ s ∈ cache_reporting_strings fmt_2f mystats, strlen s ≤ 32 := by
    intro s hs
    simp only [cache_reporting_strings, List.mem_cons, List.mem_singleton, List.not_mem_nil,
      or_false] at hs
    rcases hs with h | h | h | h | h | h | h | h | h <;> rw [h] <;>
      exact strlen_snprintf_le 33 _
  have hsum : ∀ l : List (List Nat), (∀ s ∈ l, strlen s ≤ 32) →
      (l.map (fun s => 4 + strlen s)).sum ≤ 36 * l.length := by
    intro l hl
    induction l with
    | nil => simp
    | cons s rest ih =>
      have h1 := hl s (List.mem_cons_self _ _)
      have h2 := ih (fun q hq => hl q (List.mem_cons_of_mem _ hq))
      simp only [List.map_cons, List.sum_cons, List.length_cons]
      omega
  have hbound := hsum _ hle
  rw [hlen9] at hbound
  have hdesc := fun major =>
    sent_send_row_description frontend major cache_reporting_field_names hnames
  have hcomplete := fun (fe : POOL_CONNECTION) (major : ProtoMajor) =>
    sent_send_complete_and_ready_count fe major (lit "SELECT") 1 (by decide)
  have hcmd : content (lit "SELECT") ++ [32] ++ decimal 1 = text "SELECT 1" := by decide
  have hone : ((1 : Nat) : Int) = 1 := rfl
  have hnine : ((cache_reporting_field_names.length : Nat) : Int).toNat =
      (cache_reporting_strings fmt_2f mystats).length := rfl
  have hD : (lit "D").take 1 = [68] := by decide
  have h4 : ∀ k, (be32 k).take 4 = be32 k := fun k => rfl
  refine ⟨rfl, rfl, ?_, beValue_be32 _ (by omega), ?_⟩
  · have hlenfield : (List.range (cache_reporting_strings fmt_2f mystats).length).foldl
        (fun (len : Int) i =>
          len + (4 + cache_reporting_strlen (cache_reporting_strings fmt_2f mystats) i)) 2 + 4 =
        ((6 + ((cache_reporting_strings fmt_2f mystats).map
          (fun s => 4 + strlen s)).sum : Nat) : Int) := by
      have hf : (fun (len : Int) i =>
          len + (4 + cache_reporting_strlen (cache_reporting_strings fmt_2f mystats) i)) =
          (fun (len : Int) i => len + (((fun s => 4 + strlen s)
            ((cache_reporting_strings fmt_2f mystats).getD i []) : Nat) : Int)) := by
        funext len i
        simp only [cache_reporting_strlen]
        push_cast
        rfl
      rw [hf]
      have hm := List.foldl_map (fun i => (cache_reporting_strings fmt_2f mystats).getD i [])
        (fun (len : Int) (s : List Nat) => len + (((fun s => 4 + strlen s) s : Nat) : Int))
        (List.range (cache_reporting_strings fmt_2f mystats).length) 2
      rw [← hm, map_range_getD, foldl_add_cast]
      push_cast
      ring
    have h9 : (htons ((cache_reporting_field_names.length : Nat) : Int)).take 2 = be16 9 := by
      decide
    unfold cache_reporting
    simp only [reduceCtorEq, if_false]
    rw [← hone, hcomplete, hcmd, hnine, sent_cache_reporting_fields_v3, sent_pool_write,
      sent_pool_write, sent_pool_write, hdesc, hD, h9, hlenfield, htonl_natCast, h4,
      List.flatMap_map]
    simp only [List.append_assoc, content_length, Function.comp_def]
  · have hnb : ((((cache_reporting_field_names.length : Nat) : Int) + 7) / 8).toNat = 2 := by
      decide
    unfold cache_reporting
    simp only [if_true]
    rw [← hone, hcomplete, hcmd, hnine, sent_cache_reporting_fields_v2 _ hnul, sent_pool_write,
      sent_pool_write, hdesc, hD, hnb]
    simp only [DataRow, List.length_map, hlen9, List.append_assoc]
    rfl

/-! ## The 64-byte buffer of `send_complete_and_ready` -/

/-- C29: in `send_complete_and_ready`, for every verb of at most 52 bytes and
every `num_rows` below 2^31, the formatted command text has at most 63 bytes,
so `snprintf` stores it untruncated (with its NUL) in the 64-byte buffer and
returns its length, and the `msg_len + 1` bytes handed to the sink are that
text and its NUL, at most 64 bytes, all inside the buffer; the verb "SELECT"
is within the bound. -/
theorem complete_message_fits_buffer (frontend : POOL_CONNECTION) (major : ProtoMajor)
    (message : List Nat) (num_rows : Int)
    (hverb : strlen message ≤ 52) (hrows : num_rows < 2147483648) :
    (commandText (content message) num_rows).length ≤ 63 ∧
    (if num_rows ≥ 0 then
        snprintf 64 (message.take (strlen message) ++ [32] ++ fmt_d num_rows)
      else snprintf 64 (message.take (strlen message))) =
      (commandText (content message) num_rows ++ [0],
        ((commandText (content message) num_rows).length : Int)) ∧
    (commandText (content message) num_rows ++ [0]).length ≤ 64 ∧
    SinkOp.write (commandText (content message) num_rows ++ [0]) ∈
      send_complete_and_ready frontend major message num_rows ∧
    strlen (lit "SELECT") ≤ 52 := by
  have hlen : (commandText (content message) num_rows).length ≤ 63 := by
    by_cases hneg : num_rows < 0
    · simp only [commandText, hneg, if_true, content_length]
      omega
    · have hdec := decimal_length_le num_rows.toNat (by omega)
      simp only [commandText, hneg, if_false, List.length_append, content_length,
        List.length_cons, List.length_nil]
      omega
  have hsn : (if num_rows ≥ 0 then
        snprintf 64 (message.take (strlen message) ++ [32] ++ fmt_d num_rows)
      else snprintf 64 (message.take (strlen message))) =
      (commandText (content message) num_rows ++ [0],
        ((commandText (content message) num_rows).length : Int)) := by
    by_cases hneg : num_rows < 0
    · have hge : ¬ (num_rows ≥ 0) := by omega
      simp only [commandText, hneg, if_true] at hlen ⊢
      simp only [hge, if_false, take_strlen, snprintf]
      rw [List.take_of_length_le (by omega)]
    · have hge : num_rows ≥ 0 := by omega
      have hcast : num_rows = ((num_rows.toNat : Nat) : Int) := by omega
      have hfmt : fmt_d num_rows = decimal num_rows.toNat := by
        rw [hcast, fmt_d_natCast, Int.toNat_ofNat]
      simp only [commandText, hneg, if_false] at hlen ⊢
      simp only [hge, if_true, take_strlen, snprintf, hfmt]
      rw [List.take_of_length_le (by omega)]
  have hbuf : (commandText (content message) num_rows ++ [0]).length ≤ 64 := by
    rw [List.length_append]
    simp only [List.length_cons, List.length_nil]
    omega
  refine ⟨hlen, hsn, hbuf, ?_, by decide⟩
  have htoNat : (((commandText (content message) num_rows).length : Int) + 1).toNat =
      (commandText (content message) num_rows ++ [0]).length := by
    rw [List.length_append]
    simp only [List.length_cons, List.length_nil]
    omega
  unfold send_complete_and_ready
  simp only [hsn, htoNat, List.take_length]
  cases major <;> simp [pool_write, pool_flush]

theorem complete_message_fits_buffer_witness :
    (commandText (content (lit "SELECT")) 2147483647).length ≤ 63 ∧
    (if (2147483647 : Int) ≥ 0 then
        snprintf 64 ((lit "SELECT").take (strlen (lit "SELECT")) ++ [32] ++ fmt_d 2147483647)
      else snprintf 64 ((lit "SELECT").take (strlen (lit "SELECT")))) =
      (commandText (content (lit "SELECT")) 2147483647 ++ [0],
        ((commandText (content (lit "SELECT")) 2147483647).length : Int)) ∧
    (commandText (content (lit "SELECT")) 2147483647 ++ [0]).length ≤ 64 ∧
    SinkOp.write (commandText (content (lit "SELECT")) 2147483647 ++ [0]) ∈
      send_complete_and_ready [] PROTO_MAJOR_V3 (lit "SELECT") 2147483647 ∧
    strlen (lit "SELECT") ≤ 52 :=
  complete_message_fits_buffer [] PROTO_MAJOR_V3 (lit "SELECT") 2147483647 (by decide)
    (by decide)

/-! ## Framing of the Current-version stream -/

theorem splitFrames_frame (fuel tag : Nat) (body rest : List Nat)
    (hlen : body.length + 4 < 4294967296) :
    splitFrames (fuel + 1) (frameBytes (tag, body) ++ rest) =
      match splitFrames fuel rest with
      | some frames => some ((tag, body) :: frames)
      | none => none := by
  have hguard : ¬ (body.length + 4 < 4 ∨ (body ++ rest).length < body.length + 4 - 4) := by
    rw [List.length_append]
    omega
  have hsub : body.length + 4 - 4 = body.length := by omega
  show splitFrames (fuel + 1) (tag :: (body.length + 4) / 16777216 % 256 ::
    (body.length + 4) / 65536 % 256 :: (body.length + 4) / 256 % 256 ::
    (body.length + 4) % 256 :: (([] ++ body) ++ rest)) = _
  rw [List.nil_append]
  simp only [splitFrames, beValue_bytes32 (body.length + 4) hlen]
  rw [if_neg hguard, hsub, List.drop_left, List.take_left]

theorem splitFrames_frames (frames : List (Nat × List Nat))
    (hlen : ∀ f ∈ frames, f.2.length + 4 < 4294967296) (fuel : Nat)
    (hfuel : frames.length ≤ fuel) :
    splitFrames fuel (frames.flatMap frameBytes) = some frames := by
  induction frames generalizing fuel with
  | nil => cases fuel <;> rfl
  | cons f fs ih =>
    cases fuel with
    | zero => simp at hfuel
    | succ k =>
      have hf := hlen f (List.mem_cons_self _ _)
      have hfs : ∀ g ∈ fs, g.2.length + 4 < 4294967296 :=
        fun g hg => hlen g (List.mem_cons_of_mem _ hg)
      rw [List.flatMap_cons, show f = (f.1, f.2) from rfl, splitFrames_frame _ _ _ _ hf,
        ih hfs k (by simp only [List.length_cons] at hfuel; omega)]

/-- The frame of a Current row description: tag `T` and the bytes after the
length field. -/
theorem RowDescription_Current_frame (names : List (List Nat)) :
    RowDescription PROTO_MAJOR_V3 names =
      frameBytes (84, be16 names.length ++ flatMapIdx RowDescriptionColumn_Current 0 names) := by
  have hlen := length_after_tag_RowDescription_Current names
  have h4 : ∀ k, (be32 k).length = 4 := fun k => rfl
  simp only [List.length_append, h4] at hlen
  have hL : (be16 names.length ++ flatMapIdx RowDescriptionColumn_Current 0 names).length + 4 =
      RowDescriptionLength names := by
    rw [List.length_append]
    omega
  simp only [RowDescription, frameBytes, hL, List.append_assoc]

/-- The frame of a Current data row: tag `D` and the bytes after the length
field. -/
theorem DataRow_Current_frame (fields : List (List Nat)) :
    DataRow PROTO_MAJOR_V3 fields =
      frameBytes (68, be16 fields.length ++ fields.flatMap (fun f => be32 f.length ++ f)) := by
  have hlen := length_DataRow_Current fields
  have h4 : ∀ k, (be32 k).length = 4 := fun k => rfl
  simp only [DataRow, List.length_append, h4, List.length_cons, List.length_nil] at hlen
  have hL : (be16 fields.length ++ fields.flatMap (fun f => be32 f.length ++ f)).length + 4 =
      DataRowLength fields := by
    rw [List.length_append]
    omega
  simp only [DataRow, frameBytes, hL, List.append_assoc]

theorem completion_Current_frames (cmd : List Nat) :
    CommandComplete PROTO_MAJOR_V3 cmd ++ ReadyForQuery PROTO_MAJOR_V3 =
      frameBytes (67, cmd ++ [0]) ++ frameBytes (90, [73]) := by
  have hL : (cmd ++ [0]).length + 4 = 4 + cmd.length + 1 := by
    rw [List.length_append]
    simp only [List.length_cons, List.length_nil]
    omega
  simp only [CommandComplete, ReadyForQuery, frameBytes, hL, List.append_assoc]
  rfl

/-- C26: under the Current version, for every schema and row buffer (all
lengths fitting 32 bits), the whole byte stream of the generic driver splits
into exactly `nrows + 3` frames of the form tag byte, 4-byte big-endian length
and `length - 4` body bytes, with the tags `T`, `D` (`nrows` times), `C`, `Z`
in that order; the frames are found with any fuel of at least `nrows + 3` and
they consume the stream exactly. -/
theorem current_stream_frames (field_names : List (List Nat)) (offsettbl : List Nat)
    (data : List Nat) (row_size : Nat) (nrows : Nat)
    (hnames : ∀ p ∈ field_names, 0 ∈ p) (hrows : nrows < 2147483648)
    (hdesc : RowDescriptionLength (field_names.map content) < 2147483648)
    (hfit : ∀ i, i < nrows →
      DataRowLength (rowFields field_names.length offsettbl data row_size i) < 2147483648) :
    ∃ frames : List (Nat × List Nat),
      (∀ fuel, nrows + 3 ≤ fuel →
        splitFrames fuel
          (sent (send_row_description_and_data_rows [] PROTO_MAJOR_V3
            (field_names.length : Int) field_names offsettbl data row_size (nrows : Int))) =
          some frames) ∧
      frames.length = nrows + 3 ∧
      frames.map Prod.fst = [84] ++ List.replicate nrows 68 ++ [67, 90] ∧
      frames.flatMap frameBytes =
        sent (send_row_description_and_data_rows [] PROTO_MAJOR_V3
          (field_names.length : Int) field_names offsettbl data row_size (nrows : Int)) := by
  have hnil : sent ([] : POOL_CONNECTION) = [] := rfl
  have hstream := sent_send_row_description_and_data_rows [] PROTO_MAJOR_V3 field_names
    offsettbl data row_size nrows hnames hrows
  rw [hnil, List.nil_append] at hstream
  have hdec := decimal_length_le nrows hrows
  have h6 : (text "SELECT").length = 6 := by decide
  let rowFrame : Nat → Nat × List Nat := fun i =>
    (68, be16 (rowFields field_names.length offsettbl data row_size i).length ++
      (rowFields field_names.length offsettbl data row_size i).flatMap
        (fun f => be32 f.length ++ f))
  let frames : List (Nat × List Nat) :=
    [(84, be16 (field_names.map content).length ++
      flatMapIdx RowDescriptionColumn_Current 0 (field_names.map content))] ++
    (List.range nrows).map rowFrame ++
    [(67, text "SELECT" ++ [32] ++ decimal nrows ++ [0]), (90, [73])]
  have hbytes : frames.flatMap frameBytes =
      sent (send_row_description_and_data_rows [] PROTO_MAJOR_V3
        (field_names.length : Int) field_names offsettbl data row_size (nrows : Int)) := by
    rw [hstream, RowDescription_Current_frame, completion_Current_frames]
    simp only [frames, rowFrame, List.flatMap_append, List.flatMap_cons, List.flatMap_nil,
      List.append_nil, List.flatMap_map, DataRow_Current_frame, List.append_assoc,
      Function.comp_def]
  have hlens : ∀ f ∈ frames, f.2.length + 4 < 4294967296 := by
    intro f hf
    simp only [frames, List.mem_append, List.mem_cons, List.mem_singleton, List.not_mem_nil,
      or_false, List.mem_map, List.mem_range] at hf
    rcases hf with (h | ⟨i, hi, h⟩) | h | h
    · have hl := length_after_tag_RowDescription_Current (field_names.map content)
      have h4 : ∀ k, (be32 k).length = 4 := fun k => rfl
      simp only [List.length_append, h4] at hl
      rw [h]
      simp only [List.length_append]
      omega
    · have hl := length_DataRow_Current (rowFields field_names.length offsettbl data row_size i)
      have h4 : ∀ k, (be32 k).length = 4 := fun k => rfl
      simp only [DataRow, List.length_append, h4, List.length_cons, List.length_nil] at hl
      have := hfit i hi
      rw [← h]
      simp only [rowFrame, List.length_append]
      omega
    · rw [h]
      simp only [List.length_append, h6, List.length_cons, List.length_nil]
      omega
    · rw [h]
      simp
  have hcount : frames.length = nrows + 3 := by
    simp only [frames, List.length_append, List.length_map, List.length_range, List.length_cons,
      List.length_nil]
    omega
  refine ⟨frames, ?_, hcount, ?_, hbytes⟩
  · intro fuel hfuel
    rw [← hbytes]
    exact splitFrames_frames frames hlens fuel (by omega)
  · simp only [frames, rowFrame, List.map_append, List.map_cons, List.map_nil, List.map_map]
    congr 1
    congr 1
    rw [List.eq_replicate_iff]
    constructor
    · simp
    · intro b hb
      simp only [List.mem_map, List.mem_range, Function.comp] at hb
      obtain ⟨i, _, rfl⟩ := hb
      rfl

theorem current_stream_frames_witness :
    ∃ frames : List (Nat × List Nat),
      (∀ fuel, 2 + 3 ≤ fuel →
        splitFrames fuel
          (sent (send_row_description_and_data_rows [] PROTO_MAJOR_V3
            ([lit "a", lit "b"].length : Int) [lit "a", lit "b"] [0, 2]
            [49, 0, 50, 50, 0, 51, 0, 52, 0, 0] 5 ((2 : Nat) : Int))) =
          some frames) ∧
      frames.length = 2 + 3 ∧
      frames.map Prod.fst = [84] ++ List.replicate 2 68 ++ [67, 90] ∧
      frames.flatMap frameBytes =
        sent (send_row_description_and_data_rows [] PROTO_MAJOR_V3
          ([lit "a", lit "b"].length : Int) [lit "a", lit "b"] [0, 2]
          [49, 0, 50, 50, 0, 51, 0, 52, 0, 0] 5 ((2 : Nat) : Int)) :=
  current_stream_frames [lit "a", lit "b"] [0, 2] [49, 0, 50, 50, 0, 51, 0, 52, 0, 0] 5 2
    (by decide) (by decide) (by decide) (by decide)

/-! ## `get_nodes` -/

theorem content_snprintf (size : Nat) (t : List Nat) (hlen : t.length < size)
    (hnul : 0 ∉ t) : content (snprintf size t).1 = t := by
  simp only [snprintf]
  rw [List.take_of_length_le (by omega)]
  exact content_append_zero t [] hnul

theorem fmt_u_eq_decimal (n : Nat) : fmt_u n = decimal n := rfl

/-- C30: in `get_nodes`, for every backend index `i` the role text is
"primary" when streaming mode is on and `i` is the primary node, "standby"
when streaming mode is on and `i` is not the primary, "main" when streaming
mode is off and `i` is the main node, and "replica" otherwise; the replication
delay text is the decimal `standby_delay` of the backend in the "standby" case
and "0" in the other three; the row count returned is the number of
backends, one record per backend. -/
theorem get_nodes_role_and_delay (env : NodesEnv) (i : Nat)
    (hnum : 0 ≤ env.NUM_BACKENDS) (hi : (i : Int) < env.NUM_BACKENDS)
    (hbuf : 8 ≤ env.POOLCONFIG_MAXWEIGHTLEN)
    (hdelay : (decimal (env.pool_get_node_info i).standby_delay).length <
      env.POOLCONFIG_MAXWEIGHTLEN) :
    (get_nodes env).2 = env.NUM_BACKENDS ∧
    ((get_nodes env).1.length : Int) = env.NUM_BACKENDS ∧
    (get_nodes env).1.getD i default = get_nodes_row env i ∧
    content (get_nodes_row env i).role =
      (if env.STREAM = true then
        (if (i : Int) = env.REAL_PRIMARY_NODE_ID then text "primary" else text "standby")
      else
        (if (i : Int) = env.REAL_MAIN_NODE_ID then text "main" else text "replica")) ∧
    content (get_nodes_row env i).delay =
      (if env.STREAM = true ∧ (i : Int) ≠ env.REAL_PRIMARY_NODE_ID then
        decimal (env.pool_get_node_info i).standby_delay
      else text "0") := by
  have htoNat : ((env.NUM_BACKENDS.toNat : Nat) : Int) = env.NUM_BACKENDS := by omega
  have hlt : i < env.NUM_BACKENDS.toNat := by omega
  have hp : content (snprintf env.POOLCONFIG_MAXWEIGHTLEN
      ((lit "primary").take (strlen (lit "primary")))).1 = text "primary" :=
    content_snprintf _ _ (by simp [lit, strlen]; omega) (by decide)
  have hs : content (snprintf env.POOLCONFIG_MAXWEIGHTLEN
      ((lit "standby").take (strlen (lit "standby")))).1 = text "standby" :=
    content_snprintf _ _ (by simp [lit, strlen]; omega) (by decide)
  have hm : content (snprintf env.POOLCONFIG_MAXWEIGHTLEN
      ((lit "main").take (strlen (lit "main")))).1 = text "main" :=
    content_snprintf _ _ (by simp [lit, strlen]; omega) (by decide)
  have hr : content (snprintf env.POOLCONFIG_MAXWEIGHTLEN
      ((lit "replica").take (strlen (lit "replica")))).1 = text "replica" :=
    content_snprintf _ _ (by simp [lit, strlen]; omega) (by decide)
  have hz0 : fmt_d 0 = [48] := by decide
  have hz : content (snprintf env.POOLCONFIG_MAXWEIGHTLEN (fmt_d 0)).1 = text "0" := by
    rw [hz0]
    exact content_snprintf _ _ (by simp only [List.length_cons, List.length_nil]; omega)
      (by decide)
  have hd : content (snprintf env.POOLCONFIG_MAXWEIGHTLEN
      (fmt_u (env.pool_get_node_info i).standby_delay)).1 =
      decimal (env.pool_get_node_info i).standby_delay :=
    content_snprintf _ _ hdelay (decimal_not_mem_zero _)
  refine ⟨htoNat, ?_, ?_, ?_, ?_⟩
  · simp only [get_nodes, List.length_map, List.length_range]
    exact htoNat
  · simp only [get_nodes, List.getD_eq_getElem?_getD, List.getElem?_map,
      List.getElem?_range hlt, Option.map_some', Option.getD_some]
  · unfold get_nodes_row
    cases hstream : env.STREAM
    · by_cases hmain : (i : Int) = env.REAL_MAIN_NODE_ID
      · simp only [Bool.false_eq_true, hmain, if_true, if_false, hm]
      · simp only [Bool.false_eq_true, hmain, if_false, hr]
    · by_cases hprim : (i : Int) = env.REAL_PRIMARY_NODE_ID
      · simp only [hprim, if_true, hp]
      · simp only [hprim, if_true, if_false, hs]
  · unfold get_nodes_row
    cases hstream : env.STREAM
    · by_cases hmain : (i : Int) = env.REAL_MAIN_NODE_ID
      · simp only [Bool.false_eq_true, hmain, if_true, if_false, hz, false_and]
      · simp only [Bool.false_eq_true, hmain, if_false, hz, false_and]
    · by_cases hprim : (i : Int) = env.REAL_PRIMARY_NODE_ID
      · simp only [hprim, if_true, hz, ne_eq, not_true_eq_false, and_false, if_false]
      · simp only [hprim, if_true, if_false, hd, ne_eq, not_false_eq_true, and_self]
theorem get_nodes_role_and_delay_witness :
    (get_nodes sampleNodesEnv).2 = sampleNodesEnv.NUM_BACKENDS ∧
    ((get_nodes sampleNodesEnv).1.length : Int) = sampleNodesEnv.NUM_BACKENDS ∧
    (get_nodes sampleNodesEnv).1.getD 1 default = get_nodes_row sampleNodesEnv 1 ∧
    content (get_nodes_row sampleNodesEnv 1).role =
      (if sampleNodesEnv.STREAM = true then
        (if ((1 : Nat) : Int) = sampleNodesEnv.REAL_PRIMARY_NODE_ID then text "primary"
          else text "standby")
      else
        (if ((1 : Nat) : Int) = sampleNodesEnv.REAL_MAIN_NODE_ID then text "main"
          else text "replica")) ∧
    content (get_nodes_row sampleNodesEnv 1).delay =
      (if sampleNodesEnv.STREAM = true ∧ ((1 : Nat) : Int) ≠ sampleNodesEnv.REAL_PRIMARY_NODE_ID
        then decimal (sampleNodesEnv.pool_get_node_info 1).standby_delay
      else text "0") :=
  get_nodes_role_and_delay sampleNodesEnv 1 (by decide) (by decide) (by decide) (by decide)


/-! ## `get_processes` -/

theorem foldl_range_last_hit {α β : Type} (step : α → Nat → α) (proj : α → β) (h : Nat → β)
    (Q : Nat → Prop) (hhit : ∀ a q, Q q → proj (step a q) = h q)
    (hmiss : ∀ a q, ¬ Q q → step a q = a) (init : α) (n p : Nat) (hp : p < n) (hQ : Q p)
    (hmax : ∀ q, p < q → q < n → ¬ Q q) :
    proj ((List.range n).foldl step init) = h p := by
  induction n with
  | zero => omega
  | succ n ih =>
    rw [List.range_succ, List.foldl_append]
    simp only [List.foldl_cons, List.foldl_nil]
    by_cases hpn : p = n
    · subst hpn
      exact hhit _ _ hQ
    · rw [hmiss _ _ (hmax n (by omega) (by omega))]
      exact ih (by omega) (fun q h1 h2 => hmax q h1 (by omega))

theorem foldl_range_no_hit {α : Type} (step : α → Nat → α) (Q : Nat → Prop)
    (hmiss : ∀ a q, ¬ Q q → step a q = a) (init : α) (n : Nat)
    (hnone : ∀ q, q < n → ¬ Q q) : (List.range n).foldl step init = init := by
  induction n with
  | zero => rfl
  | succ n ih =>
    rw [List.range_succ, List.foldl_append]
    simp only [List.foldl_cons, List.foldl_nil]
    rw [hmiss _ _ (hnone n (by omega))]
    exact ih (fun q h1 => hnone q (by omega))

theorem content_StrNCpy (src : List Nat) (len : Nat) :
    content (StrNCpy src len) = (content src).take (len - 1) := by
  unfold StrNCpy
  rw [take_strlen]
  exact content_append_zero _ [] (fun h => content_not_mem_zero src (List.mem_of_mem_take h))

theorem get_processes_slot_miss (env : PoolsEnv) (pi : ProcessInfo)
    (proc : POOL_REPORT_PROCESSES) (pool : Nat)
    (h : ¬ slotInUse (pi.connection_info (pool * env.MAX_NUM_BACKENDS)) = true) :
    get_processes_slot env pi proc pool = proc := by
  unfold get_processes_slot
  simp only [slotInUse, Bool.and_eq_true, decide_eq_true_eq, and_assoc] at h
  simp only [gt_iff_lt]
  rw [if_neg h]

theorem get_processes_slot_hit (env : PoolsEnv) (pi : ProcessInfo)
    (proc : POOL_REPORT_PROCESSES) (pool : Nat)
    (h : slotInUse (pi.connection_info (pool * env.MAX_NUM_BACKENDS)) = true) :
    ((get_processes_slot env pi proc pool).database,
      (get_processes_slot env pi proc pool).username,
      (get_processes_slot env pi proc pool).create_time,
      (get_processes_slot env pi proc pool).pool_counter) =
    (StrNCpy (pi.connection_info (pool * env.MAX_NUM_BACKENDS)).database
        env.POOLCONFIG_MAXIDENTLEN,
      StrNCpy (pi.connection_info (pool * env.MAX_NUM_BACKENDS)).user
        env.POOLCONFIG_MAXIDENTLEN,
      env.strftime_local (pi.connection_info (pool * env.MAX_NUM_BACKENDS)).create_time,
      (snprintf env.POOLCONFIG_MAXCOUNTLEN
        (fmt_d (pi.connection_info (pool * env.MAX_NUM_BACKENDS)).counter)).1) := by
  unfold get_processes_slot
  simp only [slotInUse, Bool.and_eq_true, decide_eq_true_eq, and_assoc] at h
  simp only [gt_iff_lt]
  rw [if_pos h]

/-- C31: in `get_processes` the row count returned is `num_init_children`, one
record per child; for every child the database, username, create_time and
pool_counter members come from the highest-indexed pool slot
(`0 <= pool < max_pool`, element `pool * MAX_NUM_BACKENDS`) that is connected
and has a non-empty database and user, and all four hold the empty string when
no slot qualifies. -/
theorem get_processes_highest_slot (env : PoolsEnv) (hnum : 0 ≤ env.num_init_children) :
    (get_processes env).2 = env.num_init_children ∧
    ((get_processes env).1.length : Int) = env.num_init_children ∧
    ∀ child : Nat, (child : Int) < env.num_init_children →
      (get_processes env).1.getD child default = get_processes_row env child ∧
      (∀ pool : Nat, (pool : Int) < env.max_pool →
        slotInUse (processSlot env child pool) = true →
        (∀ q : Nat, pool < q → (q : Int) < env.max_pool →
          slotInUse (processSlot env child q) = false) →
        (get_processes_row env child).database =
          StrNCpy (processSlot env child pool).database env.POOLCONFIG_MAXIDENTLEN ∧
        (get_processes_row env child).username =
          StrNCpy (processSlot env child pool).user env.POOLCONFIG_MAXIDENTLEN ∧
        (get_processes_row env child).create_time =
          env.strftime_local (processSlot env child pool).create_time ∧
        (get_processes_row env child).pool_counter =
          (snprintf env.POOLCONFIG_MAXCOUNTLEN
            (fmt_d (processSlot env child pool).counter)).1 ∧
        content (get_processes_row env child).database =
          (content (processSlot env child pool).database).take
            (env.POOLCONFIG_MAXIDENTLEN - 1) ∧
        content (get_processes_row env child).username =
          (content (processSlot env child pool).user).take
            (env.POOLCONFIG_MAXIDENTLEN - 1)) ∧
      ((∀ q : Nat, (q : Int) < env.max_pool → slotInUse (processSlot env child q) = false) →
        content (get_processes_row env child).database = [] ∧
        content (get_processes_row env child).username = [] ∧
        content (get_processes_row env child).create_time = [] ∧
        content (get_processes_row env child).pool_counter = []) := by
  have htoNat : ((env.num_init_children.toNat : Nat) : Int) = env.num_init_children := by
    omega
  refine ⟨htoNat, ?_, ?_⟩
  · simp only [get_processes, List.length_map, List.length_range]
    exact htoNat
  intro child hchild
  have hlt : child < env.num_init_children.toNat := by omega
  refine ⟨?_, ?_, ?_⟩
  · simp only [get_processes, List.getD_eq_getElem?_getD, List.getElem?_map,
      List.getElem?_range hlt, Option.map_some', Option.getD_some]
  · intro pool hpool huse hmax
    have hrow := foldl_range_last_hit
      (get_processes_slot env (env.pool_get_process_info (env.process_info_pid child)))
      (fun proc : POOL_REPORT_PROCESSES =>
        (proc.database, proc.username, proc.create_time, proc.pool_counter))
      (fun q =>
        (StrNCpy (processSlot env child q).database env.POOLCONFIG_MAXIDENTLEN,
          StrNCpy (processSlot env child q).user env.POOLCONFIG_MAXIDENTLEN,
          env.strftime_local (processSlot env child q).create_time,
          (snprintf env.POOLCONFIG_MAXCOUNTLEN (fmt_d (processSlot env child q).counter)).1))
      (fun q => slotInUse (processSlot env child q) = true)
      (fun a q hq => get_processes_slot_hit env _ a q hq)
      (fun a q hq => get_processes_slot_miss env _ a q hq)
      (get_processes_init env child) env.max_pool.toNat pool (by omega) huse
      (fun q h1 h2 => by
        have := hmax q h1 (by omega)
        simp [this])
    have hdef : get_processes_row env child =
        (List.range env.max_pool.toNat).foldl
          (get_processes_slot env (env.pool_get_process_info (env.process_info_pid child)))
          (get_processes_init env child) := rfl
    rw [← hdef] at hrow
    simp only [Prod.mk.injEq] at hrow
    obtain ⟨h1, h2, h3, h4⟩ := hrow
    refine ⟨h1, h2, h3, h4, ?_, ?_⟩
    · rw [h1, content_StrNCpy]
    · rw [h2, content_StrNCpy]
  · intro hnone
    have hfold := foldl_range_no_hit
      (get_processes_slot env (env.pool_get_process_info (env.process_info_pid child)))
      (fun q => slotInUse (processSlot env child q) = true)
      (fun a q hq => get_processes_slot_miss env _ a q hq)
      (get_processes_init env child) env.max_pool.toNat
      (fun q h1 => by
        have := hnone q (by omega)
        simp [this])
    have hrow : get_processes_row env child = get_processes_init env child := hfold
    have hc : content [0] = [] := by decide
    rw [hrow]
    simp only [get_processes_init, content_StrNCpy, hc, List.take_nil, and_self]

theorem get_processes_highest_slot_witness :
    0 ≤ samplePoolsEnv.num_init_children ∧
    (get_processes_row samplePoolsEnv 0).database = lit "db1" ∧
    (get_processes_row samplePoolsEnv 0).username = lit "bob" ∧
    (get_processes_row samplePoolsEnv 0).pool_counter = lit "9" ∧
    content (get_processes_row samplePoolsEnv 1).database = [] ∧
    (get_processes samplePoolsEnv).2 = 2 := by
  have h := get_processes_highest_slot samplePoolsEnv (by decide)
  have h0 := (h.2.2 0 (by decide)).2.1 1 (by decide) (by decide)
    (fun q h1 h2 => by
      have h3 : (q : Int) < 2 := h2
      omega)
  have h1 := (h.2.2 1 (by decide)).2.2 (fun q _ => by
    simp only [processSlot, samplePoolsEnv, slotInUse]
    simp)
  refine ⟨by decide, ?_, ?_, ?_, h1.1, h.1⟩
  · rw [h0.1]; decide
  · rw [h0.2.1]; decide
  · rw [h0.2.2.2.1]; decide


/-! ## `get_pools` -/

theorem foldl_range_push {α : Type} (f : Nat → α) (n : Nat) (st : List α × Int) :
    (List.range n).foldl (fun st i => (st.1 ++ [f i], st.2 + 1)) st =
      (st.1 ++ (List.range n).map f, st.2 + (n : Int)) := by
  induction n with
  | zero => simp
  | succ n ih =>
    rw [List.range_succ, List.foldl_append, ih]
    simp only [List.foldl_cons, List.foldl_nil, List.map_append, List.map_cons, List.map_nil,
      List.append_assoc, Nat.cast_add, Nat.cast_one, add_assoc]

theorem foldl_range_blocks {α : Type} (g : Nat → List α) (B : Int) (n : Nat)
    (st : List α × Int) :
    (List.range n).foldl (fun st i => (st.1 ++ g i, st.2 + B)) st =
      (st.1 ++ (List.range n).flatMap g, st.2 + (n : Int) * B) := by
  induction n with
  | zero => simp
  | succ n ih =>
    rw [List.range_succ, List.foldl_append, ih]
    simp only [List.foldl_cons, List.foldl_nil, List.flatMap_append, List.flatMap_cons,
      List.flatMap_nil, List.append_nil, List.append_assoc, Nat.cast_add, Nat.cast_one]
    congr 1
    ring

theorem length_flatMap_uniform {α : Type} (g : Nat → List α) (B : Nat)
    (hlen : ∀ i, (g i).length = B) (n : Nat) :
    ((List.range n).flatMap g).length = n * B := by
  induction n with
  | zero => simp
  | succ n ih =>
    rw [List.range_succ, List.flatMap_append, List.length_append, ih]
    simp only [List.flatMap_cons, List.flatMap_nil, List.append_nil, hlen]
    ring

theorem getD_flatMap_uniform {α : Type} (g : Nat → List α) (B : Nat)
    (hlen : ∀ i, (g i).length = B) (d : α) (n i j : Nat) (hi : i < n) (hj : j < B) :
    ((List.range n).flatMap g).getD (i * B + j) d = (g i).getD j d := by
  induction n with
  | zero => omega
  | succ n ih =>
    rw [List.range_succ, List.flatMap_append]
    simp only [List.flatMap_cons, List.flatMap_nil, List.append_nil,
      List.getD_eq_getElem?_getD]
    have hl := length_flatMap_uniform g B hlen n
    by_cases hin : i = n
    · subst hin
      rw [List.getElem?_append_right (by omega)]
      rw [hl]
      congr 2
      omega
    · have hlt : i * B + j < n * B := by
        have h1 : (i + 1) * B ≤ n * B := Nat.mul_le_mul_right B (by omega)
        have h2 : (i + 1) * B = i * B + B := by ring
        omega
      rw [List.getElem?_append_left (by omega)]
      have := ih (by omega)
      simpa only [List.getD_eq_getElem?_getD] using this

theorem lex_lt_index (B x b x2 b2 : Nat) (hb : b < B) (hx : x < x2) :
    x * B + b < x2 * B + b2 := by
  have h1 : (x + 1) * B ≤ x2 * B := Nat.mul_le_mul_right B (by omega)
  have h2 : (x + 1) * B = x * B + B := by ring
  omega

theorem get_pools_eq (env : PoolsEnv) :
    get_pools env =
      ((List.range env.num_init_children.toNat).flatMap (fun child =>
        (List.range env.max_pool.toNat).flatMap (fun pool =>
          (List.range env.NUM_BACKENDS.toNat).map (fun backend_id =>
            get_pools_row env (env.process_info_pid child)
              (env.pool_get_process_info (env.process_info_pid child)) pool backend_id))),
        (env.num_init_children.toNat : Int) *
          ((env.max_pool.toNat : Int) * (env.NUM_BACKENDS.toNat : Int))) := by
  unfold get_pools
  simp only [foldl_range_push, foldl_range_blocks, List.nil_append, zero_add]

theorem poolsRow_eq (env : PoolsEnv) (child pool backend_id : Nat)
    (hchild : (child : Int) < env.num_init_children) (hpool : (pool : Int) < env.max_pool)
    (hbackend : (backend_id : Int) < env.NUM_BACKENDS) :
    poolsRow env child pool backend_id =
      get_pools_row env (env.process_info_pid child)
        (env.pool_get_process_info (env.process_info_pid child)) pool backend_id := by
  unfold poolsRow poolsRowNumber
  rw [get_pools_eq]
  have hidx : (child * env.max_pool.toNat + pool) * env.NUM_BACKENDS.toNat + backend_id =
      child * (env.max_pool.toNat * env.NUM_BACKENDS.toNat) +
        (pool * env.NUM_BACKENDS.toNat + backend_id) := by ring
  have hinner : ∀ c p : Nat, ((List.range env.NUM_BACKENDS.toNat).map (fun backend_id =>
      get_pools_row env (env.process_info_pid c)
        (env.pool_get_process_info (env.process_info_pid c)) p backend_id)).length =
      env.NUM_BACKENDS.toNat := by
    intro c p
    simp
  have hmid : ∀ c : Nat, ((List.range env.max_pool.toNat).flatMap (fun pool =>
      (List.range env.NUM_BACKENDS.toNat).map (fun backend_id =>
        get_pools_row env (env.process_info_pid c)
          (env.pool_get_process_info (env.process_info_pid c)) pool backend_id))).length =
      env.max_pool.toNat * env.NUM_BACKENDS.toNat := fun c =>
    length_flatMap_uniform _ _ (hinner c) _
  have hlt : pool * env.NUM_BACKENDS.toNat + backend_id <
      env.max_pool.toNat * env.NUM_BACKENDS.toNat := by
    have h1 : (pool + 1) * env.NUM_BACKENDS.toNat ≤ env.max_pool.toNat * env.NUM_BACKENDS.toNat :=
      Nat.mul_le_mul_right _ (by omega)
    have h2 : (pool + 1) * env.NUM_BACKENDS.toNat =
        pool * env.NUM_BACKENDS.toNat + env.NUM_BACKENDS.toNat := by ring
    omega
  show List.getD _ _ default = _
  rw [hidx, getD_flatMap_uniform _ _ hmid default _ child _ (by omega) hlt,
    getD_flatMap_uniform _ _ (hinner child) default _ pool _ (by omega) (by omega)]
  simp only [List.getD_eq_getElem?_getD, List.getElem?_map]
  rw [List.getElem?_range (by omega)]
  rfl

theorem get_pools_count (env : PoolsEnv) (hnum : 0 ≤ env.num_init_children)
    (hmax : 0 ≤ env.max_pool) (hback : 0 ≤ env.NUM_BACKENDS) :
    (get_pools env).2 = env.num_init_children * env.max_pool * env.NUM_BACKENDS ∧
    ((get_pools env).1.length : Int) =
      env.num_init_children * env.max_pool * env.NUM_BACKENDS := by
  have h1 : ((env.num_init_children.toNat : Nat) : Int) = env.num_init_children := by omega
  have h2 : ((env.max_pool.toNat : Nat) : Int) = env.max_pool := by omega
  have h3 : ((env.NUM_BACKENDS.toNat : Nat) : Int) = env.NUM_BACKENDS := by omega
  rw [get_pools_eq]
  refine ⟨?_, ?_⟩
  · show (env.num_init_children.toNat : Int) *
      ((env.max_pool.toNat : Int) * (env.NUM_BACKENDS.toNat : Int)) = _
    rw [h1, h2, h3]
    ring
  · show ((List.length _ : Nat) : Int) = _
    rw [length_flatMap_uniform _ (env.max_pool.toNat * env.NUM_BACKENDS.toNat)
      (fun c => length_flatMap_uniform _ env.NUM_BACKENDS.toNat (fun p => by simp) _)]
    push_cast
    rw [h1, h2, h3]
    ring

theorem get_pools_row_empty (env : PoolsEnv) (proc_id : Int) (pi : ProcessInfo)
    (pool backend_id : Nat)
    (h : strlen (pi.connection_info (pool * env.MAX_NUM_BACKENDS + backend_id)).database = 0) :
    get_pools_row env proc_id pi pool backend_id =
      { pool_pid := proc_id
        start_time := pi.start_time
        pool_id := (pool : Int)
        backend_id := (backend_id : Int)
        database := StrNCpy [0] env.POOLCONFIG_MAXIDENTLEN
        username := StrNCpy [0] env.POOLCONFIG_MAXIDENTLEN
        create_time := 0
        pool_majorversion := 0
        pool_minorversion := 0
        pool_counter := (pi.connection_info (pool * env.MAX_NUM_BACKENDS + backend_id)).counter
        pool_backendpid :=
          env.ntohl (pi.connection_info (pool * env.MAX_NUM_BACKENDS + backend_id)).pid
        pool_connected :=
          (pi.connection_info (pool * env.MAX_NUM_BACKENDS + backend_id)).connected } := by
  unfold get_pools_row
  simp only [h, if_true]

theorem get_pools_row_used (env : PoolsEnv) (proc_id : Int) (pi : ProcessInfo)
    (pool backend_id : Nat)
    (h : strlen (pi.connection_info (pool * env.MAX_NUM_BACKENDS + backend_id)).database ≠ 0) :
    get_pools_row env proc_id pi pool backend_id =
      { pool_pid := proc_id
        start_time := pi.start_time
        pool_id := (pool : Int)
        backend_id := (backend_id : Int)
        database :=
          StrNCpy (pi.connection_info (pool * env.MAX_NUM_BACKENDS + backend_id)).database
            env.POOLCONFIG_MAXIDENTLEN
        username :=
          StrNCpy (pi.connection_info (pool * env.MAX_NUM_BACKENDS + backend_id)).user
            env.POOLCONFIG_MAXIDENTLEN
        create_time :=
          (pi.connection_info (pool * env.MAX_NUM_BACKENDS + backend_id)).create_time
        pool_majorversion :=
          (pi.connection_info (pool * env.MAX_NUM_BACKENDS + backend_id)).major
        pool_minorversion :=
          (pi.connection_info (pool * env.MAX_NUM_BACKENDS + backend_id)).minor
        pool_counter := (pi.connection_info (pool * env.MAX_NUM_BACKENDS + backend_id)).counter
        pool_backendpid :=
          env.ntohl (pi.connection_info (pool * env.MAX_NUM_BACKENDS + backend_id)).pid
        pool_connected :=
          (pi.connection_info (pool * env.MAX_NUM_BACKENDS + backend_id)).connected } := by
  unfold get_pools_row
  simp only [h, if_false]

theorem get_pools_row_ids (env : PoolsEnv) (proc_id : Int) (pi : ProcessInfo)
    (pool backend_id : Nat) :
    (get_pools_row env proc_id pi pool backend_id).pool_pid = proc_id ∧
    (get_pools_row env proc_id pi pool backend_id).pool_id = (pool : Int) ∧
    (get_pools_row env proc_id pi pool backend_id).backend_id = (backend_id : Int) := by
  by_cases h : strlen (pi.connection_info (pool * env.MAX_NUM_BACKENDS + backend_id)).database = 0
  · rw [get_pools_row_empty env _ _ _ _ h]
    exact ⟨rfl, rfl, rfl⟩
  · rw [get_pools_row_used env _ _ _ _ h]
    exact ⟨rfl, rfl, rfl⟩

/-- C32: `get_pools` returns exactly `num_init_children * max_pool *
NUM_BACKENDS` rows; the row numbers `(child * max_pool + pool) * NUM_BACKENDS +
backend_id` grow with the lexicographic order of `(child, pool, backend_id)`;
the row under that number carries that `pool_id` and `backend_id`; when the
database name of its slot is empty, its database and username are empty and
its create_time and protocol versions are 0; otherwise they are copied from
the slot, and (the identifier buffer holding at least one character) the
database of the row is not empty. -/
theorem get_pools_rows (env : PoolsEnv) (hnum : 0 ≤ env.num_init_children)
    (hmax : 0 ≤ env.max_pool) (hback : 0 ≤ env.NUM_BACKENDS) :
    (get_pools env).2 = env.num_init_children * env.max_pool * env.NUM_BACKENDS ∧
    ((get_pools env).1.length : Int) =
      env.num_init_children * env.max_pool * env.NUM_BACKENDS ∧
    (∀ child pool backend_id : Nat, (child : Int) < env.num_init_children →
      (pool : Int) < env.max_pool → (backend_id : Int) < env.NUM_BACKENDS →
      poolsRowNumber env child pool backend_id < (get_pools env).1.length ∧
      poolsRow env child pool backend_id =
        get_pools_row env (env.process_info_pid child)
          (env.pool_get_process_info (env.process_info_pid child)) pool backend_id ∧
      (poolsRow env child pool backend_id).pool_pid = env.process_info_pid child ∧
      (poolsRow env child pool backend_id).pool_id = (pool : Int) ∧
      (poolsRow env child pool backend_id).backend_id = (backend_id : Int) ∧
      (strlen (poolsSlot env child pool backend_id).database = 0 →
        content (poolsRow env child pool backend_id).database = [] ∧
        content (poolsRow env child pool backend_id).username = [] ∧
        (poolsRow env child pool backend_id).create_time = 0 ∧
        (poolsRow env child pool backend_id).pool_majorversion = 0 ∧
        (poolsRow env child pool backend_id).pool_minorversion = 0) ∧
      (strlen (poolsSlot env child pool backend_id).database ≠ 0 →
        content (poolsRow env child pool backend_id).database =
          (content (poolsSlot env child pool backend_id).database).take
            (env.POOLCONFIG_MAXIDENTLEN - 1) ∧
        content (poolsRow env child pool backend_id).username =
          (content (poolsSlot env child pool backend_id).user).take
            (env.POOLCONFIG_MAXIDENTLEN - 1) ∧
        (poolsRow env child pool backend_id).create_time =
          (poolsSlot env child pool backend_id).create_time ∧
        (poolsRow env child pool backend_id).pool_majorversion =
          (poolsSlot env child pool backend_id).major ∧
        (poolsRow env child pool backend_id).pool_minorversion =
          (poolsSlot env child pool backend_id).minor) ∧
      (2 ≤ env.POOLCONFIG_MAXIDENTLEN →
        (content (poolsRow env child pool backend_id).database = [] ↔
          strlen (poolsSlot env child pool backend_id).database = 0))) ∧
    (∀ child pool backend_id child2 pool2 backend_id2 : Nat,
      (pool : Int) < env.max_pool → (backend_id : Int) < env.NUM_BACKENDS →
      (pool2 : Int) < env.max_pool → (backend_id2 : Int) < env.NUM_BACKENDS →
      (child < child2 ∨ (child = child2 ∧ (pool < pool2 ∨
        (pool = pool2 ∧ backend_id < backend_id2)))) →
      poolsRowNumber env child pool backend_id <
        poolsRowNumber env child2 pool2 backend_id2) := by
  have hcount := get_pools_count env hnum hmax hback
  have hc0 : content [0] = [] := by decide
  have horder : ∀ child pool backend_id child2 pool2 backend_id2 : Nat,
      (pool : Int) < env.max_pool → (backend_id : Int) < env.NUM_BACKENDS →
      (pool2 : Int) < env.max_pool → (backend_id2 : Int) < env.NUM_BACKENDS →
      (child < child2 ∨ (child = child2 ∧ (pool < pool2 ∨
        (pool = pool2 ∧ backend_id < backend_id2)))) →
      poolsRowNumber env child pool backend_id <
        poolsRowNumber env child2 pool2 backend_id2 := by
    intro c p b c2 p2 b2 hp hb hp2 hb2 hlex
    unfold poolsRowNumber
    rcases hlex with h | ⟨rfl, h | ⟨rfl, h⟩⟩
    · exact lex_lt_index _ _ _ _ _ (by omega) (lex_lt_index _ _ _ _ _ (by omega) h)
    · exact lex_lt_index _ _ _ _ _ (by omega) (by omega)
    · omega
  refine ⟨hcount.1, hcount.2, ?_, horder⟩
  intro child pool backend_id hchild hpool hbackend
  have hrow := poolsRow_eq env child pool backend_id hchild hpool hbackend
  refine ⟨?_, hrow, ?_, ?_, ?_, ?_, ?_, ?_⟩
  · have hlen := hcount.2
    have hlast : poolsRowNumber env child pool backend_id <
        poolsRowNumber env (child + 1) 0 0 :=
      horder child pool backend_id (child + 1) 0 0 hpool hbackend (by omega) (by omega)
        (Or.inl (by omega))
    have hle : poolsRowNumber env (child + 1) 0 0 ≤
        env.num_init_children.toNat * env.max_pool.toNat * env.NUM_BACKENDS.toNat := by
      unfold poolsRowNumber
      simp only [add_zero]
      exact Nat.mul_le_mul_right _ (Nat.mul_le_mul_right _ (by omega))
    have hcast : ((env.num_init_children.toNat * env.max_pool.toNat *
        env.NUM_BACKENDS.toNat : Nat) : Int) =
        env.num_init_children * env.max_pool * env.NUM_BACKENDS := by
      push_cast
      rw [Int.toNat_of_nonneg hnum, Int.toNat_of_nonneg hmax, Int.toNat_of_nonneg hback]
    omega
  · rw [hrow]; exact (get_pools_row_ids env _ _ _ _).1
  · rw [hrow]; exact (get_pools_row_ids env _ _ _ _).2.1
  · rw [hrow]; exact (get_pools_row_ids env _ _ _ _).2.2
  · intro hempty
    rw [hrow, get_pools_row_empty env _ _ _ _ hempty]
    simp only [content_StrNCpy, hc0, List.take_nil, and_self]
  · intro hused
    rw [hrow, get_pools_row_used env _ _ _ _ hused]
    simp only [content_StrNCpy, poolsSlot, and_self]
  · intro hident
    constructor
    · intro hnil
      by_contra hused
      rw [hrow, get_pools_row_used env _ _ _ _ hused] at hnil
      simp only [content_StrNCpy] at hnil
      have hlen := congrArg List.length hnil
      simp only [List.length_take, content_length, List.length_nil] at hlen
      have : strlen (poolsSlot env child pool backend_id).database ≠ 0 := hused
      simp only [poolsSlot] at this
      omega
    · intro hempty
      rw [hrow, get_pools_row_empty env _ _ _ _ hempty]
      simp only [content_StrNCpy, hc0, List.take_nil]

theorem get_pools_rows_witness :
    0 ≤ samplePoolsEnv.num_init_children ∧ 0 ≤ samplePoolsEnv.max_pool ∧
    0 ≤ samplePoolsEnv.NUM_BACKENDS ∧
    (get_pools samplePoolsEnv).2 = 8 ∧
    poolsRowNumber samplePoolsEnv 0 1 0 = 2 ∧
    (poolsRow samplePoolsEnv 0 1 0).pool_id = 1 ∧
    (poolsRow samplePoolsEnv 0 1 0).backend_id = 0 ∧
    content (poolsRow samplePoolsEnv 0 1 0).database = text "db1" ∧
    content (poolsRow samplePoolsEnv 1 0 1).database = [] ∧
    (poolsRow samplePoolsEnv 1 0 1).create_time = 0 := by
  have h := get_pools_rows samplePoolsEnv (by decide) (by decide) (by decide)
  have h0 := h.2.2.1 0 1 0 (by decide) (by decide) (by decide)
  have h1 := h.2.2.1 1 0 1 (by decide) (by decide) (by decide)
  have h0d := h0.2.2.2.2.2.2.1 (by decide)
  have h1d := h1.2.2.2.2.2.1 (by decide)
  refine ⟨by decide, by decide, by decide, h.1.trans (by decide), by decide, h0.2.2.2.1,
    h0.2.2.2.2.1, h0d.1.trans (by decide), h1d.1, h1d.2.2.1⟩


/-! ## `get_health_check_stats` -/

theorem sub_uint64_self (a : Nat) : sub_uint64 a a = 0 := by
  unfold sub_uint64
  have h := Nat.mod_lt a (by decide : 0 < 18446744073709551616)
  have h2 : a % 18446744073709551616 + 18446744073709551616 - a % 18446744073709551616 =
      18446744073709551616 := by omega
  rw [h2]

/-- The divisor of the averages is 0 exactly when the two counters are equal. -/
theorem sub_uint64_eq_zero (a b : Nat) (ha : a < 18446744073709551616)
    (hb : b < 18446744073709551616) : sub_uint64 a b = 0 ↔ a = b := by
  constructor
  · intro h
    unfold sub_uint64 at h
    rw [Nat.mod_eq_of_lt ha, Nat.mod_eq_of_lt hb] at h
    omega
  · rintro rfl
    exact sub_uint64_self a

/-- The averages of `get_health_check_stats` are the text of `0.0` when the
health check of the backend is disabled (`health_check_period` not positive). -/
theorem health_check_average_when_disabled (env : HealthCheckEnv) (i : Nat)
    (hperiod : env.health_check_period i ≤ 0) :
    (get_health_check_stats_row env i).average_retry_count =
      (snprintf env.POOLCONFIG_MAXWEIGHTLEN [48, 46, 48, 48, 48, 48, 48, 48]).1 ∧
    (get_health_check_stats_row env i).average_health_check_duration =
      (snprintf env.POOLCONFIG_MAXWEIGHTLEN [48, 46, 48, 48, 48, 48, 48, 48]).1 := by
  have h : ¬ env.health_check_period i > 0 := by omega
  simp only [get_health_check_stats_row, h, if_false, and_self]

/-- C33: in `get_health_check_stats` the divisor `total_count - skip_count` of
the two averages is not kept away from zero: for a backend whose health check
is enabled (`health_check_period > 0`) and whose `total_count` equals its
`skip_count` (both 0 before the first check, or every check skipped), both
averages are computed by a division whose divisor is 0. -/
theorem health_check_average_divides_by_zero (env : HealthCheckEnv) (i : Nat)
    (hperiod : 0 < env.health_check_period i)
    (hequal : (env.health_check_stats i).total_count = (env.health_check_stats i).skip_count) :
    get_health_check_stats_divisor env i = 0 ∧
    (get_health_check_stats_row env i).average_retry_count =
      (snprintf env.POOLCONFIG_MAXWEIGHTLEN
        (env.fmt_f_div (env.health_check_stats i).retry_count 0)).1 ∧
    (get_health_check_stats_row env i).average_health_check_duration =
      (snprintf env.POOLCONFIG_MAXWEIGHTLEN
        (env.fmt_f_div (env.health_check_stats i).total_health_check_duration 0)).1 := by
  have hdiv : get_health_check_stats_divisor env i = 0 := by
    unfold get_health_check_stats_divisor
    rw [hequal]
    exact sub_uint64_self _
  have h : env.health_check_period i > 0 := hperiod
  refine ⟨hdiv, ?_, ?_⟩
  · simp only [get_health_check_stats_row, h, if_true, hdiv]
  · simp only [get_health_check_stats_row, h, if_true, hdiv]

theorem health_check_average_divides_by_zero_witness :
    0 < sampleHealthCheckEnv.health_check_period 0 ∧
    (sampleHealthCheckEnv.health_check_stats 0).total_count =
      (sampleHealthCheckEnv.health_check_stats 0).skip_count ∧
    get_health_check_stats_divisor sampleHealthCheckEnv 0 = 0 ∧
    (get_health_check_stats_row sampleHealthCheckEnv 0).average_retry_count =
      (snprintf sampleHealthCheckEnv.POOLCONFIG_MAXWEIGHTLEN
        (sampleHealthCheckEnv.fmt_f_div
          (sampleHealthCheckEnv.health_check_stats 0).retry_count 0)).1 :=
  ⟨by decide, by decide,
    (health_check_average_divides_by_zero sampleHealthCheckEnv 0 (by decide) (by decide)).1,
    (health_check_average_divides_by_zero sampleHealthCheckEnv 0 (by decide) (by decide)).2.1⟩


/-! ## The static null map -/

/-- C34: at every site that sends the static two-byte null map under the Legacy
version, the write that follows the tag `D` carries `(num_fields + 7) / 8`
bytes, each 0xFF, for the field count of the site (3 for both
`config_reporting` and `send_config_var_detail_row`, 12 for
`pools_reporting`, 9 for `cache_reporting`, 1 for
`send_config_var_value_only_row`), and that number is at least 1 and at most 2,
the size of the array. -/
theorem static_nullmap_within_bounds (frontend : POOL_CONNECTION)
    (name value description : List Nat) (status : List POOL_REPORT_CONFIG)
    (pools : List POOL_REPORT_POOLS) (nrows : Int) (strftime_local : Int → List Nat)
    (fmt_2f : Int → Int → List Nat) (mystats : POOL_SHMEM_STATS) :
    (∃ step : POOL_CONNECTION → Nat → POOL_CONNECTION,
      config_reporting frontend PROTO_MAJOR_V2 status nrows =
        send_complete_and_ready
          ((List.range nrows.toNat).foldl step
            (send_row_description frontend PROTO_MAJOR_V2 3 config_reporting_field_names))
          PROTO_MAJOR_V2 (lit "SELECT") nrows ∧
      ∀ x i, ∃ chunks : List (List Nat), step x i =
        x ++ [SinkOp.write [68], SinkOp.write (List.replicate (nullmapBytes 3) 255),
          SinkOp.flush] ++ chunks.map SinkOp.write) ∧
    (∃ step : POOL_CONNECTION → Nat → POOL_CONNECTION,
      pools_reporting frontend PROTO_MAJOR_V2 strftime_local pools nrows =
        send_complete_and_ready
          ((List.range nrows.toNat).foldl step
            (send_row_description frontend PROTO_MAJOR_V2 12 pools_reporting_field_names))
          PROTO_MAJOR_V2 (lit "SELECT") nrows ∧
      ∀ x i, ∃ chunks : List (List Nat), step x i =
        x ++ [SinkOp.write [68], SinkOp.write (List.replicate (nullmapBytes 12) 255),
          SinkOp.flush] ++ chunks.map SinkOp.write) ∧
    (∃ chunks : List (List Nat),
      cache_reporting frontend PROTO_MAJOR_V2 fmt_2f mystats =
        send_complete_and_ready
          (send_row_description frontend PROTO_MAJOR_V2 9 cache_reporting_field_names ++
            [SinkOp.write [68], SinkOp.write (List.replicate (nullmapBytes 9) 255)] ++
            chunks.map SinkOp.write)
          PROTO_MAJOR_V2 (lit "SELECT") 1) ∧
    (∃ chunks : List (List Nat),
      send_config_var_detail_row frontend PROTO_MAJOR_V2 name value description =
        frontend ++ [SinkOp.write [68], SinkOp.write (List.replicate (nullmapBytes 3) 255),
          SinkOp.flush] ++ chunks.map SinkOp.write) ∧
    (∃ chunks : List (List Nat),
      send_config_var_value_only_row frontend PROTO_MAJOR_V2 value =
        frontend ++ [SinkOp.write [68], SinkOp.write (List.replicate (nullmapBytes 1) 255),
          SinkOp.flush] ++ chunks.map SinkOp.write) ∧
    (1 ≤ nullmapBytes 3 ∧ nullmapBytes 3 ≤ 2) ∧
    (1 ≤ nullmapBytes 12 ∧ nullmapBytes 12 ≤ 2) ∧
    (1 ≤ nullmapBytes 9 ∧ nullmapBytes 9 ≤ 2) ∧
    (1 ≤ nullmapBytes 1 ∧ nullmapBytes 1 ≤ 2) ∧
    config_reporting_field_names.length = 3 ∧ pools_reporting_field_names.length = 12 ∧
    cache_reporting_field_names.length = 9 := by
  have hhead1 : ∀ x : POOL_CONNECTION,
      pool_write_and_flush (pool_write x (lit "D") 1) [255, 255] ((3 + 7 : Int) / 8).toNat =
        x ++ [SinkOp.write [68], SinkOp.write (List.replicate (nullmapBytes 3) 255),
          SinkOp.flush] ++ ([] : List (List Nat)).map SinkOp.write := by
    intro x
    simp only [pool_write_and_flush, pool_flush, pool_write, List.append_assoc, List.map_nil,
      List.append_nil]
    rfl
  have hhead12 : ∀ x : POOL_CONNECTION,
      pool_write_and_flush (pool_write x (lit "D") 1) [255, 255] ((12 + 7 : Int) / 8).toNat =
        x ++ [SinkOp.write [68], SinkOp.write (List.replicate (nullmapBytes 12) 255),
          SinkOp.flush] ++ ([] : List (List Nat)).map SinkOp.write := by
    intro x
    simp only [pool_write_and_flush, pool_flush, pool_write, List.append_assoc, List.map_nil,
      List.append_nil]
    rfl
  have hhead9 : ∀ x : POOL_CONNECTION,
      pool_write (pool_write x (lit "D") 1) [255, 255] ((9 + 7 : Int) / 8).toNat =
        x ++ [SinkOp.write [68], SinkOp.write (List.replicate (nullmapBytes 9) 255)] ++
          ([] : List (List Nat)).map SinkOp.write := by
    intro x
    simp only [pool_write, List.append_assoc, List.map_nil, List.append_nil]
    rfl
  have hhead11 : ∀ x : POOL_CONNECTION,
      pool_write_and_flush (pool_write x (lit "D") 1) [255, 255] ((1 + 7 : Int) / 8).toNat =
        x ++ [SinkOp.write [68], SinkOp.write (List.replicate (nullmapBytes 1) 255),
          SinkOp.flush] ++ ([] : List (List Nat)).map SinkOp.write := by
    intro x
    simp only [pool_write_and_flush, pool_flush, pool_write, List.append_assoc, List.map_nil,
      List.append_nil]
    rfl
  refine ⟨?_, ?_, ?_, ?_, ?_, by decide, by decide, by decide, by decide, rfl, rfl, rfl⟩
  · refine ⟨config_reporting_row_v2 status [255, 255] ((3 + 7 : Int) / 8), ?_, ?_⟩
    · simp only [config_reporting, if_true]
    · intro x i
      unfold config_reporting_row_v2
      exact writes_pool_write (writes_pool_write (writes_pool_write (writes_pool_write
        (writes_pool_write (writes_pool_write ⟨[], hhead1 x⟩ _ _) _ _) _ _) _ _) _ _) _ _
  · refine ⟨pools_reporting_row PROTO_MAJOR_V2 strftime_local pools 12 [255, 255]
      ((12 + 7 : Int) / 8) 4, ?_, ?_⟩
    · simp only [pools_reporting, if_true]
    · intro x i
      unfold pools_reporting_row
      simp only [if_true]
      have step : ∀ {y : POOL_CONNECTION} (field : List Nat),
          (∃ chunks : List (List Nat), y = x ++ [SinkOp.write [68],
            SinkOp.write (List.replicate (nullmapBytes 12) 255), SinkOp.flush] ++
            chunks.map SinkOp.write) →
          ∃ chunks : List (List Nat), pools_reporting_field 4 y field = x ++ [SinkOp.write [68],
            SinkOp.write (List.replicate (nullmapBytes 12) 255), SinkOp.flush] ++
            chunks.map SinkOp.write := fun field h =>
        writes_pool_write (writes_pool_write h _ _) _ _
      exact step _ (step _ (step _ (step _ (step _ (step _ (step _ (step _ (step _ (step _
        (step _ (step _ ⟨[], hhead12 x⟩)))))))))))
  · simp only [cache_reporting, if_true]
    have hfold := writes_foldl (cache_reporting_field_v2 (cache_reporting_strings fmt_2f mystats))
      (fun x a => writes_pool_write (writes_pool_write (writes_refl x) _ _) _ _)
      (List.range ((cache_reporting_field_names.length : Nat) : Int).toNat)
      (pool_write (pool_write
        (send_row_description frontend PROTO_MAJOR_V2
          ((cache_reporting_field_names.length : Nat) : Int) cache_reporting_field_names)
        (lit "D") 1) [255, 255]
        ((((cache_reporting_field_names.length : Nat) : Int) + 7) / 8).toNat)
    obtain ⟨chunks, hchunks⟩ := hfold
    refine ⟨chunks, ?_⟩
    rw [hchunks]
    have h9 : ((cache_reporting_field_names.length : Nat) : Int) = 9 := rfl
    rw [h9, hhead9]
    simp only [List.map_nil, List.append_nil]
  · unfold send_config_var_detail_row
    simp only [if_true]
    exact writes_pool_write (writes_pool_write (writes_pool_write (writes_pool_write
      (writes_pool_write (writes_pool_write ⟨[], hhead1 frontend⟩ _ _) _ _) _ _) _ _) _ _) _ _
  · unfold send_config_var_value_only_row
    simp only [if_true]
    exact writes_pool_write (writes_pool_write ⟨[], hhead11 frontend⟩ _ _) _ _

end PoolProcessReporting
